import Mathlib

/-! AI cyber-defense core: detection and response.

A shallow embedding of the services of `ai-cyber-defense/src/services`:

* `DefenseSystem.js`    : the threat-response engine (`respondToThreat` and friends);
* `AnomalyDetector.js`  : the statistical detector and the two domain validators
  (`detectGPSSpoofing`, `detectControlHijacking`);
* `SimulationEngine.js` : the generators of normal and attack samples and the simulation
  loop.

Conventions of the embedding.

* Object state is passed explicitly: a method `m(args)` of a class with state `S` that
  returns `R` becomes `m : S → args → R × S` (or `S → args → R` when it writes nothing).
* `Date.now()` is an argument `now` of the operation that reads the clock; a generator of
  the simulator takes an `Entropy`, the values its calls of `Math.random()` and `Date.now()`
  return.  A timer is abstracted to the runs of its callback.
* JavaScript numbers are `JSNum α`: `NaN`, the two infinities, or a finite value of an
  ordered field `α`, with exact arithmetic on the finite values (no rounding, no signed
  zero).  `α` is `ℚ` where the code only adds, divides and compares, and `ℝ` where it calls
  a transcendental function.
* Strings stay strings: a threat type or a severity is whatever string the caller passes.
-/

namespace CyberDefense

/-! ## JavaScript numbers -/

/-- A JavaScript number: `NaN`, `-Infinity`, `Infinity` or a finite value. -/
inductive JSNum (α : Type) where
  | nan : JSNum α
  | ninf : JSNum α
  | pinf : JSNum α
  | fin (x : α) : JSNum α
  deriving DecidableEq, Repr

namespace JSNum

variable {α : Type} [LinearOrderedField α]

/-- The relational operator `a < b` of JavaScript on numbers: false as soon as one side is `NaN`. -/
def lt : JSNum α → JSNum α → Bool
  | nan, _ => false
  | _, nan => false
  | ninf, ninf => false
  | ninf, _ => true
  | _, ninf => false
  | pinf, _ => false
  | fin _, pinf => true
  | fin x, fin y => decide (x < y)

/-- The relational operator `a > b` of JavaScript on numbers. -/
def gt (a b : JSNum α) : Bool := lt b a

/-- Unary minus. -/
def neg : JSNum α → JSNum α
  | nan => nan
  | ninf => pinf
  | pinf => ninf
  | fin x => fin (-x)

/-- The sum `a + b`: opposite infinities add up to `NaN`. -/
def add : JSNum α → JSNum α → JSNum α
  | nan, _ => nan
  | _, nan => nan
  | pinf, ninf => nan
  | ninf, pinf => nan
  | pinf, _ => pinf
  | ninf, _ => ninf
  | fin _, pinf => pinf
  | fin _, ninf => ninf
  | fin x, fin y => fin (x + y)

/-- The difference `a - b`. -/
def sub (a b : JSNum α) : JSNum α := add a (neg b)

/-- An infinity times a finite value `y`: `NaN` for zero, else the sign rule. -/
def scaleInf (positive : Bool) (y : α) : JSNum α :=
  if y = 0 then nan else if decide (0 < y) = positive then pinf else ninf

/-- The product `a * b`. -/
def mul : JSNum α → JSNum α → JSNum α
  | nan, _ => nan
  | _, nan => nan
  | pinf, pinf => pinf
  | pinf, ninf => ninf
  | ninf, pinf => ninf
  | ninf, ninf => pinf
  | pinf, fin y => scaleInf true y
  | ninf, fin y => scaleInf false y
  | fin x, pinf => scaleInf true x
  | fin x, ninf => scaleInf false x
  | fin x, fin y => fin (x * y)

/-- The quotient `a / b`.  A finite non-zero value over zero is an infinity, zero over zero
and an infinity over an infinity are `NaN`, a finite value over an infinity is zero. -/
def div : JSNum α → JSNum α → JSNum α
  | nan, _ => nan
  | _, nan => nan
  | pinf, pinf => nan
  | pinf, ninf => nan
  | ninf, pinf => nan
  | ninf, ninf => nan
  | pinf, fin y => if y < 0 then ninf else pinf
  | ninf, fin y => if y < 0 then pinf else ninf
  | fin _, pinf => fin 0
  | fin _, ninf => fin 0
  | fin x, fin y =>
    if y = 0 then (if 0 < x then pinf else if x < 0 then ninf else nan) else fin (x / y)

instance : Neg (JSNum α) := ⟨neg⟩
instance : Add (JSNum α) := ⟨add⟩
instance : Sub (JSNum α) := ⟨sub⟩
instance : Mul (JSNum α) := ⟨mul⟩
instance : Div (JSNum α) := ⟨div⟩

/-- The function `Math.abs`. -/
def abs : JSNum α → JSNum α
  | nan => nan
  | ninf => pinf
  | pinf => pinf
  | fin x => fin |x|

/-- The function `Math.max` on two arguments: `NaN` as soon as one of them is. -/
def max2 : JSNum α → JSNum α → JSNum α
  | nan, _ => nan
  | _, nan => nan
  | a, b => if lt a b then b else a

/-- The function `Math.min` on two arguments: `NaN` as soon as one of them is. -/
def min2 : JSNum α → JSNum α → JSNum α
  | nan, _ => nan
  | _, nan => nan
  | a, b => if lt b a then b else a

/-- The call `Math.max(...xs)`: `-Infinity` for no argument. -/
def maxOf (xs : List (JSNum α)) : JSNum α := xs.foldl max2 ninf

/-- Truthiness of a number: `0` and `NaN` are falsy. -/
def truthy : JSNum α → Bool
  | nan => false
  | fin x => decide (x ≠ 0)
  | _ => true

/-- The function `Math.sin`. -/
noncomputable def sin : JSNum ℝ → JSNum ℝ
  | fin x => fin (Real.sin x)
  | _ => nan

/-- The function `Math.cos`. -/
noncomputable def cos : JSNum ℝ → JSNum ℝ
  | fin x => fin (Real.cos x)
  | _ => nan

/-- The function `Math.sqrt`: `NaN` on a negative argument. -/
noncomputable def sqrt : JSNum ℝ → JSNum ℝ
  | nan => nan
  | ninf => nan
  | pinf => pinf
  | fin x => if x < 0 then nan else fin (Real.sqrt x)

/-- The function `Math.atan2(y, x)`: the angle of the point `(x, y)`, in `(-π, π]`. -/
noncomputable def atan2 : JSNum ℝ → JSNum ℝ → JSNum ℝ
  | nan, _ => nan
  | _, nan => nan
  | pinf, pinf => fin (Real.pi / 4)
  | pinf, ninf => fin (3 * Real.pi / 4)
  | ninf, pinf => fin (-(Real.pi / 4))
  | ninf, ninf => fin (-(3 * Real.pi / 4))
  | pinf, fin _ => fin (Real.pi / 2)
  | ninf, fin _ => fin (-(Real.pi / 2))
  | fin _, pinf => fin 0
  | fin y, ninf => if y < 0 then fin (-Real.pi) else fin Real.pi
  | fin y, fin x =>
    if 0 < x then fin (Real.arctan (y / x))
    else if x < 0 then
      (if 0 ≤ y then fin (Real.arctan (y / x) + Real.pi) else fin (Real.arctan (y / x) - Real.pi))
    else if 0 < y then fin (Real.pi / 2)
    else if y < 0 then fin (-(Real.pi / 2))
    else fin 0

/-- The constant `Math.PI`. -/
noncomputable def PI : JSNum ℝ := fin Real.pi

end JSNum

/-! ## DefenseSystem.js -/

/-- The fields of a `DefenseSystem` object. -/
structure DefenseSystem where
  threatLevel : String
  activeCountermeasures : List String
  systemStatus : String
  failoverMode : Bool
  deriving DecidableEq, Repr

/-- The object built by `constructor()`. -/
def DefenseSystem.new : DefenseSystem :=
  { threatLevel := "LOW", activeCountermeasures := [], systemStatus := "OPERATIONAL",
    failoverMode := false }

/-- The properties of a threat that `respondToThreat` reads.  A missing `confidence`
(`undefined`) is `JSNum.nan`: both make `threat.confidence > 0.8` false. -/
structure Threat where
  type : String
  severity : String
  confidence : JSNum ℚ
  deriving DecidableEq, Repr

/-- The object returned by `respondToThreat`. -/
structure Response where
  timestamp : Nat
  threat : String
  severity : String
  actions : List String
  deriving DecidableEq, Repr

/-- The object returned by `activateFailover`. -/
structure FailoverPlan where
  mode : String
  capabilities : List String
  restrictions : List String
  deriving DecidableEq, Repr

/-- The method `activateFailover()`. -/
def activateFailover (sys : DefenseSystem) : FailoverPlan × DefenseSystem :=
  ({ mode := "AUTONOMOUS_FAILOVER",
     capabilities := ["BASIC_NAVIGATION", "EMERGENCY_LANDING", "COMMUNICATION"],
     restrictions := ["NO_EXTERNAL_COMMANDS", "LIMITED_MANEUVERS"] },
   { sys with failoverMode := true, systemStatus := "FAILOVER_ACTIVE" })

/-- The method `handleGPSSpoofing(threat)`. -/
def handleGPSSpoofing (sys : DefenseSystem) (threat : Threat) : List String × DefenseSystem :=
  let actions := ["SWITCH_TO_INERTIAL_NAVIGATION", "VERIFY_BACKUP_GPS"]
  if threat.severity = "CRITICAL" then
    let actions := actions ++ ["INITIATE_EMERGENCY_LANDING"]
    let actions := actions ++ ["ALERT_GROUND_CONTROL"]
    (actions, (activateFailover sys).2)
  else
    (actions, sys)

/-- The method `handleControlHijacking(threat)`. -/
def handleControlHijacking (sys : DefenseSystem) (threat : Threat) :
    List String × DefenseSystem :=
  let actions := ["LOCK_CONTROL_SYSTEMS", "AUTHENTICATE_COMMANDS"]
  if threat.severity = "CRITICAL" then
    let actions := actions ++ ["ACTIVATE_AUTONOMOUS_MODE"]
    let actions := actions ++ ["DISABLE_EXTERNAL_COMMANDS"]
    let actions := actions ++ ["EMERGENCY_PROTOCOL"]
    (actions, (activateFailover sys).2)
  else
    (actions, sys)

/-- The method `handleDataTampering(threat)`; it reads and writes no field. -/
def handleDataTampering (_threat : Threat) : List String :=
  ["VERIFY_DATA_INTEGRITY", "RESTORE_FROM_BACKUP", "ISOLATE_COMPROMISED_SENSORS",
   "SWITCH_TO_REDUNDANT_SYSTEMS"]

/-- The method `handleAnomaly(threat)`; it reads and writes no field. -/
def handleAnomaly (threat : Threat) : List String :=
  let actions := ["INCREASE_MONITORING", "VALIDATE_SENSORS"]
  if JSNum.gt threat.confidence (JSNum.fin (8 / 10)) then
    let actions := actions ++ ["INITIATE_DIAGNOSTIC_MODE"]
    actions ++ ["PREPARE_FAILOVER_SYSTEMS"]
  else
    actions

/-- The own properties of the object literal `levels` of `updateThreatLevel`. -/
def levels : String → Option Nat
  | "LOW" => some 1
  | "MEDIUM" => some 2
  | "HIGH" => some 3
  | "CRITICAL" => some 4
  | _ => none

/-- A value of `levels[key] || 1` as the operator `>` sees it: a number, or the string that
an inherited function or object converts to. -/
inductive LevelValue where
  | num (n : Nat)
  | text (s : String)
  deriving DecidableEq, Repr

/-- The properties every object literal inherits from `Object.prototype`, each with the
string its value converts to: `constructor` is the function `Object`, `__proto__` is the
object `Object.prototype`, the others are built-in functions of their own name. -/
def inheritedText : String → Option String
  | "constructor" => some "function Object() \x7b [native code] \x7d"
  | "__proto__" => some "[object Object]"
  | "hasOwnProperty" => some "function hasOwnProperty() \x7b [native code] \x7d"
  | "isPrototypeOf" => some "function isPrototypeOf() \x7b [native code] \x7d"
  | "propertyIsEnumerable" => some "function propertyIsEnumerable() \x7b [native code] \x7d"
  | "toLocaleString" => some "function toLocaleString() \x7b [native code] \x7d"
  | "toString" => some "function toString() \x7b [native code] \x7d"
  | "valueOf" => some "function valueOf() \x7b [native code] \x7d"
  | "__defineGetter__" => some "function __defineGetter__() \x7b [native code] \x7d"
  | "__defineSetter__" => some "function __defineSetter__() \x7b [native code] \x7d"
  | "__lookupGetter__" => some "function __lookupGetter__() \x7b [native code] \x7d"
  | "__lookupSetter__" => some "function __lookupSetter__() \x7b [native code] \x7d"
  | _ => none

/-- The expression `levels[key] || 1`: the entry of the table, `1` for a key the object does
not have (`undefined || 1`), and for an inherited key its value, a function or an object:
truthy, and a string once compared. -/
def levelOrOne (key : String) : LevelValue :=
  match levels key with
  | some n => if n = 0 then .num 1 else .num n
  | none =>
    match inheritedText key with
    | some s => .text s
    | none => .num 1

/-- The comparison `newLevel > currentLevel` of `updateThreatLevel`: of numbers when both
are numbers, of strings (by code units) when both are strings, and false when one is a
number and the other a string, which converts to `NaN`. -/
def levelGt : LevelValue → LevelValue → Bool
  | .num n, .num c => decide (c < n)
  | .text s, .text c => decide (c < s)
  | _, _ => false

/-- The method `updateThreatLevel(severity)`. -/
def updateThreatLevel (sys : DefenseSystem) (severity : String) : DefenseSystem :=
  let currentLevel := levelOrOne sys.threatLevel
  let newLevel := levelOrOne severity
  if levelGt newLevel currentLevel then { sys with threatLevel := severity } else sys

/-- The method `respondToThreat(threat)`, called when the clock reads `now`. -/
def respondToThreat (now : Nat) (sys : DefenseSystem) (threat : Threat) :
    Response × DefenseSystem :=
  let dispatched : List String × DefenseSystem :=
    match threat.type with
    | "GPS_SPOOFING" => handleGPSSpoofing sys threat
    | "CONTROL_HIJACKING" => handleControlHijacking sys threat
    | "DATA_TAMPERING" => (handleDataTampering threat, sys)
    | "ANOMALY_DETECTED" => (handleAnomaly threat, sys)
    | _ => (["LOG_INCIDENT", "ALERT_OPERATOR"], sys)
  let sys := updateThreatLevel dispatched.2 threat.severity
  ({ timestamp := now, threat := threat.type, severity := threat.severity,
     actions := dispatched.1 }, sys)

/-- A run of `respondToThreat` calls, one per `(now, threat)` pair, in order. -/
def respondAll (sys : DefenseSystem) (calls : List (Nat × Threat)) : DefenseSystem :=
  calls.foldl (fun s c => (respondToThreat c.1 s c.2).2) sys

/-- The four severities of the specification, in increasing order. -/
inductive Severity where
  | LOW | MEDIUM | HIGH | CRITICAL
  deriving DecidableEq, Repr

/-- The position of a severity in the order LOW < MEDIUM < HIGH < CRITICAL. -/
def Severity.toNat : Severity → Nat
  | .LOW => 0
  | .MEDIUM => 1
  | .HIGH => 2
  | .CRITICAL => 3

/-- The string that names a severity in the code. -/
def Severity.name : Severity → String
  | .LOW => "LOW"
  | .MEDIUM => "MEDIUM"
  | .HIGH => "HIGH"
  | .CRITICAL => "CRITICAL"

instance : LinearOrder Severity :=
  LinearOrder.lift' Severity.toNat (by
    intro a b h
    cases a <;> cases b <;> simp [Severity.toNat] at h <;> rfl)

/-! ## AnomalyDetector.js -/

/-- The field `baseline` once set: the column means and standard deviations. -/
structure Baseline (α : Type) where
  mean : List (JSNum α)
  std : List (JSNum α)

/-- An element of `dataBuffer`, with the properties the class writes or reads on it:
`detectAnomaly` pushes `{dataPoint, score, timestamp}`, `detectGPSSpoofing` reads
`timestamp`, `latitude` and `longitude`.  A property the element does not have
(`undefined`) is `JSNum.nan`: it is only read inside arithmetic, where both are `NaN`. -/
structure BufferEntry (α : Type) where
  dataPoint : List (JSNum α)
  score : JSNum α
  timestamp : JSNum α
  latitude : JSNum α
  longitude : JSNum α

/-- The fields of an `AnomalyDetector` object. -/
structure AnomalyDetector (α : Type) where
  baseline : Option (Baseline α)
  threshold : α
  windowSize : Nat
  dataBuffer : List (BufferEntry α)

/-- An element of `details` in the result of `detectAnomaly`. -/
structure ParameterDetail (α : Type) where
  parameter : String
  zScore : JSNum α
  threshold : α

/-- The object returned by `detectAnomaly`; `confidence` and `details` are `none` when the
returned object has no such property. -/
structure DetectionResult (α : Type) where
  isAnomaly : Bool
  score : JSNum α
  confidence : Option (JSNum α)
  details : Option (List (ParameterDetail α))

/-- The argument of `detectGPSSpoofing`. -/
structure GpsData where
  latitude : JSNum ℝ
  longitude : JSNum ℝ
  altitude : JSNum ℝ
  speed : JSNum ℝ
  timestamp : JSNum ℝ

/-- The object returned by `detectGPSSpoofing`; `reason` and `severity` are `none` when the
returned object has no such property. -/
structure GpsVerdict where
  isSpoofed : Bool
  reason : Option String
  severity : Option String
  deriving DecidableEq, Repr

/-- The argument of `detectControlHijacking`. -/
structure ControlData where
  commands : List Int
  source : String
  timestamp : Nat
  checksum : Int
  deriving DecidableEq, Repr

/-- The object returned by `detectControlHijacking`; `reason` and `severity` are `none`
when the returned object has no such property. -/
structure ControlVerdict where
  isHijacked : Bool
  reason : Option String
  severity : Option String
  deriving DecidableEq, Repr

section Detector

variable {α : Type} [LinearOrderedField α]

/-- The object built by `constructor()`. -/
def AnomalyDetector.new : AnomalyDetector α :=
  { baseline := none, threshold := 25 / 10, windowSize := 50, dataBuffer := [] }

/-- The expression `std || 1` for `std = this.baseline.std[index]`: `1` when the array has
no such index (`undefined`) and when the entry is `0` or `NaN`. -/
def stdOrOne (std : List (JSNum α)) (index : Nat) : JSNum α :=
  match std.get? index with
  | none => JSNum.fin 1
  | some s => if s.truthy then s else JSNum.fin 1

/-- The callback of `dataPoint.map` in `detectAnomaly`: the z-score of `value` at `index`.
A mean the array does not have (`undefined`) is `NaN` in the subtraction. -/
def zScore (b : Baseline α) (value : JSNum α) (index : Nat) : JSNum α :=
  let mean := (b.mean.get? index).getD JSNum.nan
  let std := stdOrOne b.std index
  JSNum.abs ((value - mean) / std)

/-- The array `zScores` of `detectAnomaly`. -/
def zScores (b : Baseline α) (dataPoint : List (JSNum α)) : List (JSNum α) :=
  (List.zip dataPoint (List.range dataPoint.length)).map (fun p => zScore b p.1 p.2)

/-- The push onto `dataBuffer` followed by the `shift()` when it outgrows the window. -/
def pushBounded (windowSize : Nat) (buffer : List (BufferEntry α)) (e : BufferEntry α) :
    List (BufferEntry α) :=
  let buffer := buffer ++ [e]
  if buffer.length > windowSize then buffer.tail else buffer

/-- The method `detectAnomaly(dataPoint)`, called when the clock reads `now`. -/
def detectAnomaly (now : Nat) (d : AnomalyDetector α) (dataPoint : List (JSNum α)) :
    DetectionResult α × AnomalyDetector α :=
  match d.baseline with
  | none => ({ isAnomaly := false, score := JSNum.fin 0, confidence := none, details := none }, d)
  | some b =>
    let zs := zScores b dataPoint
    let maxZScore := JSNum.maxOf zs
    let isAnomaly := JSNum.gt maxZScore (JSNum.fin d.threshold)
    let entry : BufferEntry α :=
      { dataPoint := dataPoint, score := maxZScore, timestamp := JSNum.fin (now : α),
        latitude := JSNum.nan, longitude := JSNum.nan }
    let d := { d with dataBuffer := pushBounded d.windowSize d.dataBuffer entry }
    ({ isAnomaly := isAnomaly,
       score := maxZScore,
       confidence := some (JSNum.min2 (maxZScore / JSNum.fin d.threshold) (JSNum.fin 1)),
       details := some ((List.zip zs (List.range zs.length)).map (fun p =>
         { parameter := "param_" ++ toString p.2, zScore := p.1, threshold := d.threshold })) },
     d)

/-- The method `calculateChecksum(data)`; the operator `%` takes the sign of the dividend. -/
def calculateChecksum (data : List Int) : Int :=
  (data.foldl (fun sum byte => sum + byte) 0).tmod 256

/-- The method `detectControlHijacking(controlData)`; it reads and writes no field. -/
def detectControlHijacking (controlData : ControlData) : ControlVerdict :=
  let expectedChecksum := calculateChecksum controlData.commands
  if controlData.checksum ≠ expectedChecksum then
    { isHijacked := true, reason := some "Command integrity check failed",
      severity := some "CRITICAL" }
  else
    let authorizedSources := ["GROUND_CONTROL", "ONBOARD_AI", "EMERGENCY_OVERRIDE"]
    if ¬ authorizedSources.contains controlData.source then
      { isHijacked := true, reason := some "Unauthorized command source",
        severity := some "HIGH" }
    else
      { isHijacked := false, reason := none, severity := none }

end Detector

section Gps

open JSNum

/-- The method `calculateDistance(lat1, lon1, lat2, lon2)`. -/
noncomputable def calculateDistance (lat1 lon1 lat2 lon2 : JSNum ℝ) : JSNum ℝ :=
  let R : JSNum ℝ := fin 6371000
  let dLat := (lat2 - lat1) * PI / fin 180
  let dLon := (lon2 - lon1) * PI / fin 180
  let a := sin (dLat / fin 2) * sin (dLat / fin 2) +
    cos (lat1 * PI / fin 180) * cos (lat2 * PI / fin 180) *
    sin (dLon / fin 2) * sin (dLon / fin 2)
  R * fin 2 * atan2 (sqrt a) (sqrt (fin 1 - a))

/-- The speed test of `detectGPSSpoofing` against the last element of `dataBuffer`. -/
noncomputable def speedCheck (lastGPS : BufferEntry ℝ) (gpsData : GpsData) : Bool :=
  let timeDiff := (gpsData.timestamp - lastGPS.timestamp) / fin 1000
  let distance := calculateDistance lastGPS.latitude lastGPS.longitude
    gpsData.latitude gpsData.longitude
  let calculatedSpeed := distance / timeDiff
  gt (abs (calculatedSpeed - gpsData.speed)) (fin 50)

/-- The method `detectGPSSpoofing(gpsData)`; it writes no field. -/
noncomputable def detectGPSSpoofing (d : AnomalyDetector ℝ) (gpsData : GpsData) : GpsVerdict :=
  let flagged : Bool :=
    match d.dataBuffer.getLast? with
    | none => false
    | some lastGPS => speedCheck lastGPS gpsData
  if flagged then
    { isSpoofed := true, reason := some "Impossible speed change detected",
      severity := some "HIGH" }
  else if lt gpsData.altitude (fin (-500)) || gt gpsData.altitude (fin 50000) then
    { isSpoofed := true, reason := some "Impossible altitude detected",
      severity := some "CRITICAL" }
  else
    { isSpoofed := false, reason := none, severity := none }

end Gps

/-- The detector states the methods of the class produce from a fresh object:
`setBaseline` assigns the field `baseline` and nothing else, `detectAnomaly` is the only
method that writes `dataBuffer`, `detectGPSSpoofing` and `detectControlHijacking` assign no
field. -/
inductive AnomalyDetector.Reachable {α : Type} [LinearOrderedField α] :
    AnomalyDetector α → Prop where
  | fresh : AnomalyDetector.Reachable AnomalyDetector.new
  | setBaseline (d : AnomalyDetector α) (b : Baseline α) :
      AnomalyDetector.Reachable d → AnomalyDetector.Reachable { d with baseline := some b }
  | detectAnomaly (now : Nat) (d : AnomalyDetector α) (dataPoint : List (JSNum α)) :
      AnomalyDetector.Reachable d → AnomalyDetector.Reachable (detectAnomaly now d dataPoint).2

/-- A call that writes a field of the detector: a `setBaseline` call that leaves `baseline`
set to `b`, or the call `detectAnomaly(dataPoint)` when the clock reads `now`. -/
inductive DetectorCall (α : Type) where
  | setBaseline (b : Baseline α) : DetectorCall α
  | detectAnomaly (now : Nat) (dataPoint : List (JSNum α)) : DetectorCall α

/-- The detector after one call. -/
def DetectorCall.run {α : Type} [LinearOrderedField α] (d : AnomalyDetector α) :
    DetectorCall α → AnomalyDetector α
  | .setBaseline b => { d with baseline := some b }
  | .detectAnomaly now dataPoint => (CyberDefense.detectAnomaly now d dataPoint).2

/-- The detector after a run of calls, in order. -/
def runCalls {α : Type} [LinearOrderedField α] (d : AnomalyDetector α)
    (calls : List (DetectorCall α)) : AnomalyDetector α :=
  calls.foldl DetectorCall.run d

section Fit

open JSNum

/-- The column `j` of a two-dimensional array of numbers. -/
def matrixColumn (rows : List (List (JSNum ℝ))) (j : Nat) : List (JSNum ℝ) :=
  rows.map (fun row => row.getD j nan)

/-- Modelled from the spec: the method `mean('column')` of the package `ml-matrix`, which
is not under src: the column-wise mean of the rows, one entry per column of the first
row. -/
noncomputable def columnMean (rows : List (List (JSNum ℝ))) : List (JSNum ℝ) :=
  (List.range (rows.head?.getD []).length).map (fun j =>
    (matrixColumn rows j).foldl (fun sum x => sum + x) (fin 0) / fin (rows.length : ℝ))

/-- Modelled from the spec: the method `standardDeviation('column', { unbiased: true })`
of the package `ml-matrix`, which is not under src: the column-wise sample standard
deviation, the square root of the sum of the squared deviations from the column mean over
the number of rows minus one. -/
noncomputable def columnStd (rows : List (List (JSNum ℝ))) : List (JSNum ℝ) :=
  (List.range (rows.head?.getD []).length).map (fun j =>
    let mean := (matrixColumn rows j).foldl (fun sum x => sum + x) (fin 0) /
      fin (rows.length : ℝ)
    sqrt ((matrixColumn rows j).foldl (fun sum x => sum + (x - mean) * (x - mean)) (fin 0) /
      fin ((rows.length : ℝ) - 1)))

/-- The method `setBaseline(normalData)`, on training samples of one arity. -/
noncomputable def setBaseline (d : AnomalyDetector ℝ) (normalData : List (List (JSNum ℝ))) :
    AnomalyDetector ℝ :=
  { d with baseline := some { mean := columnMean normalData, std := columnStd normalData } }

end Fit

/-- The element `detectAnomaly` pushes onto `dataBuffer` for the sample `dataPoint`
classified against the baseline `b` when the clock reads `now`. -/
def classifiedEntry {α : Type} [LinearOrderedField α] (b : Baseline α) (now : Nat)
    (dataPoint : List (JSNum α)) : BufferEntry α :=
  { dataPoint := dataPoint, score := JSNum.maxOf (zScores b dataPoint),
    timestamp := JSNum.fin (now : α), latitude := JSNum.nan, longitude := JSNum.nan }

/-! ## DefenseSystem.js: recovery and health -/

/-- The object returned by `initiateRecovery`. -/
structure RecoveryPlan where
  steps : List String
  estimatedTime : String
  requiresOperatorApproval : Bool
  deriving DecidableEq, Repr

/-- The method `initiateRecovery()`, with the engine state it leaves. -/
def initiateRecovery (sys : DefenseSystem) : RecoveryPlan × DefenseSystem :=
  ({ steps := ["SYSTEM_DIAGNOSTICS", "THREAT_ASSESSMENT", "COMPONENT_VERIFICATION",
               "GRADUAL_SYSTEM_RESTORE", "FULL_OPERATIONAL_MODE"],
     estimatedTime := "5-15 minutes",
     requiresOperatorApproval := decide (sys.threatLevel = "CRITICAL") }, sys)

/-- The object returned by `getSystemHealth`. -/
structure SystemHealth where
  status : String
  threatLevel : String
  failoverActive : Bool
  activeCountermeasures : Nat
  lastUpdate : Nat
  deriving DecidableEq, Repr

/-- The method `getSystemHealth()`, called when the clock reads `now`, with the engine
state it leaves. -/
def getSystemHealth (now : Nat) (sys : DefenseSystem) : SystemHealth × DefenseSystem :=
  ({ status := sys.systemStatus, threatLevel := sys.threatLevel,
     failoverActive := sys.failoverMode,
     activeCountermeasures := sys.activeCountermeasures.length, lastUpdate := now }, sys)

/-- A call of a method of the engine. -/
inductive EngineCall where
  | respondToThreat (now : Nat) (threat : Threat) : EngineCall
  | activateFailover : EngineCall
  | initiateRecovery : EngineCall
  | getSystemHealth (now : Nat) : EngineCall

/-- The engine after one call. -/
def EngineCall.run (sys : DefenseSystem) : EngineCall → DefenseSystem
  | .respondToThreat now threat => (CyberDefense.respondToThreat now sys threat).2
  | .activateFailover => (CyberDefense.activateFailover sys).2
  | .initiateRecovery => (CyberDefense.initiateRecovery sys).2
  | .getSystemHealth now => (CyberDefense.getSystemHealth now sys).2

/-- The engine after a run of calls, in order. -/
def runEngine (sys : DefenseSystem) (calls : List EngineCall) : DefenseSystem :=
  calls.foldl EngineCall.run sys

/-! ## SimulationEngine.js -/

/-- What one call of a generator reads from its environment: `random k` is the value of
the call number `k` of `Math.random()` and `clock k` that of the call number `k` of
`Date.now()`, counted from 0 in evaluation order. -/
structure Entropy where
  random : Nat → ℝ
  clock : Nat → Nat

/-- The values `Math.random()` can return: at least 0 and below 1. -/
def Entropy.Valid (e : Entropy) : Prop := ∀ k, 0 ≤ e.random k ∧ e.random k < 1

/-- The object returned by `generateNormalData` and by the attack generators; `attackType`
and `severity` are `none` when the object has no such property.  The sensor readings are
finite numbers. -/
structure SimulatedData where
  timestamp : Nat
  gps : GpsData
  sensors : List ℝ
  control : ControlData
  attackType : Option String
  severity : Option String

/-- The method `generateNormalData()`. -/
noncomputable def generateNormalData (e : Entropy) : SimulatedData :=
  { timestamp := e.clock 0,
    gps := { latitude := JSNum.fin (40.7128 + (e.random 0 - 0.5) * 0.001),
             longitude := JSNum.fin (-74.0060 + (e.random 1 - 0.5) * 0.001),
             altitude := JSNum.fin (100 + e.random 2 * 50),
             speed := JSNum.fin (15 + e.random 3 * 5),
             timestamp := JSNum.fin (e.clock 1 : ℝ) },
    sensors := [50 + e.random 4 * 10, 1013 + e.random 5 * 5, 45 + e.random 6 * 10,
                12.5 + e.random 7 * 0.5, 2.1 + e.random 8 * 0.2],
    control := { commands := [0x01, 0x02, 0x03, 0x04], source := "GROUND_CONTROL",
                 timestamp := e.clock 2, checksum := 10 },
    attackType := none,
    severity := none }

/-- The method `simulateGPSSpoofing()`. -/
noncomputable def simulateGPSSpoofing (e : Entropy) : SimulatedData :=
  let normalData := generateNormalData e
  let normalData := { normalData with
    gps := { latitude := JSNum.fin 0, longitude := JSNum.fin 0, altitude := JSNum.fin (-1000),
             speed := JSNum.fin 500, timestamp := JSNum.fin (e.clock 3 : ℝ) } }
  { normalData with attackType := some "GPS_SPOOFING", severity := some "CRITICAL" }

/-- The method `simulateControlHijacking()`. -/
noncomputable def simulateControlHijacking (e : Entropy) : SimulatedData :=
  let normalData := generateNormalData e
  let normalData := { normalData with
    control := { commands := [0xFF, 0xEE, 0xDD, 0xCC], source := "UNKNOWN_SOURCE",
                 timestamp := e.clock 3, checksum := 99 } }
  { normalData with attackType := some "CONTROL_HIJACKING", severity := some "CRITICAL" }

/-- The method `simulateDataTampering()`. -/
noncomputable def simulateDataTampering (e : Entropy) : SimulatedData :=
  let normalData := generateNormalData e
  let normalData := { normalData with sensors := [150, 500, -10, 25, 0.1] }
  { normalData with attackType := some "DATA_TAMPERING", severity := some "HIGH" }

/-- The callback of `normalData.sensors.map` in `simulateAnomalies`, on the reading `value`
with the draw `r` of `Math.random()`. -/
noncomputable def jitter (value r : ℝ) : ℝ := value + (r - 0.5) * value * 0.3

/-- The method `simulateAnomalies()`: the reading number `i` is jittered with the draw that
follows the nine draws of `generateNormalData`. -/
noncomputable def simulateAnomalies (e : Entropy) : SimulatedData :=
  let normalData := generateNormalData e
  let normalData := { normalData with
    sensors := (List.zip normalData.sensors (List.range normalData.sensors.length)).map
      (fun p : ℝ × Nat => jitter p.1 (e.random (9 + p.2))) }
  { normalData with attackType := some "ANOMALY_DETECTED", severity := some "MEDIUM" }

/-- The object `scenario` of `startAttackSimulation`. -/
structure Scenario where
  type : String
  startTime : Nat
  duration : Nat
  events : List SimulatedData

/-- The fields of a `SimulationEngine` object that `startAttackSimulation` writes. -/
structure SimulationEngine where
  isRunning : Bool
  currentScenario : Option String

/-- The sample one tick of `startAttackSimulation` generates: the `switch` on
`attackType`. -/
noncomputable def simulatedSample (attackType : String) (e : Entropy) : SimulatedData :=
  match attackType with
  | "GPS_SPOOFING" => simulateGPSSpoofing e
  | "CONTROL_HIJACKING" => simulateControlHijacking e
  | "DATA_TAMPERING" => simulateDataTampering e
  | "ANOMALIES" => simulateAnomalies e
  | _ => generateNormalData e

/-- One run of the interval callback of `startAttackSimulation`: it pushes the sample, then
reads the clock (`now`) and stops the simulation once the duration has elapsed.  The
boolean tells whether the promise is resolved. -/
noncomputable def simulationTick (attackType : String) (engine : SimulationEngine)
    (scenario : Scenario) (e : Entropy) (now : Nat) :
    SimulationEngine × Scenario × Bool :=
  let simulatedData := simulatedSample attackType e
  let scenario := { scenario with events := scenario.events ++ [simulatedData] }
  if (now : Int) - (scenario.startTime : Int) ≥ (scenario.duration : Int) then
    ({ engine with isRunning := false, currentScenario := none }, scenario, true)
  else
    (engine, scenario, false)

/-- The synchronous part of `startAttackSimulation(attackType, duration)`, called when the
clock reads `now`: the engine is marked running and the scenario starts with no event. -/
def startAttackSimulation (attackType : String) (duration : Nat) (now : Nat)
    (engine : SimulationEngine) : SimulationEngine × Scenario :=
  ({ engine with isRunning := true, currentScenario := some attackType },
   { type := attackType, startTime := now, duration := duration, events := [] })

/-- The interval callback run on the successive ticks, each with what it reads (the draws
of the generator, then the clock); the tick that resolves the promise clears the interval,
so that no later tick runs. -/
noncomputable def runTicks (attackType : String) (engine : SimulationEngine)
    (scenario : Scenario) : List (Entropy × Nat) → SimulationEngine × Scenario × Bool
  | [] => (engine, scenario, false)
  | tick :: rest =>
    let result := simulationTick attackType engine scenario tick.1 tick.2
    if result.2.2 then result else runTicks attackType result.1 result.2.1 rest

/-- The array `availableScenarios` of `getSimulationStatus()`. -/
def availableScenarios : List String :=
  ["GPS_SPOOFING", "CONTROL_HIJACKING", "DATA_TAMPERING", "ANOMALIES"]

/-- The method `generateTrainingData(samples)`: one `generateNormalData` call per sample,
each with its own draws. -/
noncomputable def generateTrainingData (draws : List Entropy) : List (List ℝ) :=
  draws.map (fun e => (generateNormalData e).sensors)

/-- The ranges of the five sensor readings of `generateNormalData`: temperature in
`[50, 60)`, pressure in `[1013, 1018)`, humidity in `[45, 55)`, voltage in `[12.5, 13)` and
current in `[2.1, 2.3)`. -/
def InNormalRange (sensors : List ℝ) : Prop :=
  ∃ t p h v c : ℝ, sensors = [t, p, h, v, c] ∧ 50 ≤ t ∧ t < 60 ∧ 1013 ≤ p ∧ p < 1018 ∧
    45 ≤ h ∧ h < 55 ∧ 12.5 ≤ v ∧ v < 13 ∧ 2.1 ≤ c ∧ c < 2.3

/-! ## The Haversine formula of the specification -/

/-- The quantity `a` of the Haversine formula for two points given in degrees:
`sin²(Δlat / 2) + cos(lat1) cos(lat2) sin²(Δlon / 2)`, the angles in radians. -/
noncomputable def haversineA (lat1 lon1 lat2 lon2 : ℝ) : ℝ :=
  Real.sin ((lat2 - lat1) * Real.pi / 180 / 2) ^ 2 +
    Real.cos (lat1 * Real.pi / 180) * Real.cos (lat2 * Real.pi / 180) *
      Real.sin ((lon2 - lon1) * Real.pi / 180 / 2) ^ 2

/-- The great-circle distance in the words of the specification: twice the Earth radius
6,371,000 m times the arcsine of the square root of `a`. -/
noncomputable def haversineDistance (lat1 lon1 lat2 lon2 : ℝ) : ℝ :=
  2 * 6371000 * Real.arcsin (Real.sqrt (haversineA lat1 lon1 lat2 lon2))

/-- The function `atan2(y, x)` on the reals. -/
noncomputable def realAtan2 (y x : ℝ) : ℝ :=
  if 0 < x then Real.arctan (y / x)
  else if x < 0 then (if 0 ≤ y then Real.arctan (y / x) + Real.pi else Real.arctan (y / x) - Real.pi)
  else if 0 < y then Real.pi / 2
  else if y < 0 then -(Real.pi / 2)
  else 0

/-! ## The z-score of the specification -/

/-- The z-score of a reading `x` in the words of the specification:
`|x - mean| / (std or 1)`, the standard deviation replaced by 1 when it is zero. -/
def specZScore {α : Type} [LinearOrderedField α] (x mean std : α) : α :=
  |x - mean| / (if std = 0 then 1 else std)

section ClaimSide
variable {α : Type} [LinearOrderedField α]

/-- The divisor of a z-score in the words of the specification as it stands: the standard
deviation, replaced by 1 when it is zero. -/
def zeroGuardedStd : JSNum α → JSNum α
  | JSNum.fin s => if s = 0 then JSNum.fin 1 else JSNum.fin s
  | s => s

/-- The z-scores of a sample in the words of the specification as it stands, on JavaScript
numbers: `|x - mean| / s` with `s` the standard deviation, or 1 when that is zero. -/
def claimZScores : List (JSNum α) → List (JSNum α) → List (JSNum α) → List (JSNum α)
  | x :: xs, m :: ms, s :: ss =>
    (JSNum.abs (x - m) / zeroGuardedStd s) :: claimZScores xs ms ss
  | _, _, _ => []

/-- The divisor of a z-score that replaces the standard deviation by 1 when it is zero or
`NaN`. -/
def guardedStd : JSNum α → JSNum α
  | JSNum.nan => JSNum.fin 1
  | JSNum.fin s => if s = 0 then JSNum.fin 1 else JSNum.fin s
  | s => s

/-- The z-scores `|x - mean| / s`, parameter by parameter, with `s` the standard deviation,
or 1 when that is zero or `NaN`. -/
def guardedZScores : List (JSNum α) → List (JSNum α) → List (JSNum α) → List (JSNum α)
  | x :: xs, m :: ms, s :: ss =>
    (JSNum.abs (x - m) / guardedStd s) :: guardedZScores xs ms ss
  | _, _, _ => []

end ClaimSide

/-! ## Sample inputs -/

/-- A baseline over the reals of one parameter: mean 0, standard deviation 1. -/
noncomputable def realUnitBaseline : Baseline ℝ := { mean := [JSNum.fin 0], std := [JSNum.fin 1] }

/-- A detector over the reals after `setBaseline` (one parameter, mean 0 and standard
deviation 1) and one call of `detectAnomaly` on the reading 1 when the clock reads 2000 ms:
its buffer holds the one element that call pushed. -/
noncomputable def detectorAfterOneSample : AnomalyDetector ℝ :=
  (detectAnomaly 2000
    ({ (AnomalyDetector.new : AnomalyDetector ℝ) with baseline := some realUnitBaseline } :
      AnomalyDetector ℝ)
    [JSNum.fin 1]).2

/-- The fix of `simulateGPSSpoofing`, stamped 1000 ms: the origin, altitude -1000,
declared speed 500. -/
def spoofedFix : GpsData :=
  { latitude := JSNum.fin 0, longitude := JSNum.fin 0, altitude := JSNum.fin (-1000),
    speed := JSNum.fin 500, timestamp := JSNum.fin 1000 }

/-- A plausible fix at the origin at time 0: altitude 100, speed 15. -/
def firstFix : GpsData :=
  { latitude := JSNum.fin 0, longitude := JSNum.fin 0, altitude := JSNum.fin 100,
    speed := JSNum.fin 15, timestamp := JSNum.fin 0 }

/-- A fix one second after `firstFix` and 10,000 m north of it (an arc of 10000 / 6371000
radians along the meridian), with the same altitude and declared speed. -/
noncomputable def secondFix : GpsData :=
  { latitude := JSNum.fin (10000 / 6371000 * 180 / Real.pi), longitude := JSNum.fin 0,
    altitude := JSNum.fin 100, speed := JSNum.fin 15, timestamp := JSNum.fin 1000 }

/-- A fix at the origin stamped 1000 ms, one second before the element buffered in
`detectorAfterOneSample`: altitude 100, declared speed 100. -/
def staleFix : GpsData :=
  { latitude := JSNum.fin 0, longitude := JSNum.fin 0, altitude := JSNum.fin 100,
    speed := JSNum.fin 100, timestamp := JSNum.fin 1000 }

/-- A detector over the rationals with the default threshold and a baseline of no parameter. -/
def emptyBaselineDetector : AnomalyDetector ℚ :=
  { (AnomalyDetector.new : AnomalyDetector ℚ) with baseline := some { mean := [], std := [] } }

/-- A detector over the rationals with the default threshold and a baseline of one
parameter whose training column was constant: mean 0, standard deviation 0. -/
def constantColumnDetector : AnomalyDetector ℚ :=
  { (AnomalyDetector.new : AnomalyDetector ℚ) with
    baseline := some { mean := [JSNum.fin 0], std := [JSNum.fin 0] } }

/-- A detector over the rationals with the default threshold and a baseline of one
parameter: mean 0, standard deviation 1. -/
def unitDetector : AnomalyDetector ℚ :=
  { (AnomalyDetector.new : AnomalyDetector ℚ) with
    baseline := some { mean := [JSNum.fin 0], std := [JSNum.fin 1] } }

/-- A detector over the rationals with the default threshold and a baseline of two
parameters: means 0, standard deviations 1. -/
def twoParameterDetector : AnomalyDetector ℚ :=
  { (AnomalyDetector.new : AnomalyDetector ℚ) with
    baseline := some { mean := [JSNum.fin 0, JSNum.fin 0], std := [JSNum.fin 1, JSNum.fin 1] } }

/-- A detector over the rationals configured with the threshold -1 and a baseline of one
parameter: mean 0, standard deviation 1. -/
def negativeThresholdDetector : AnomalyDetector ℚ :=
  { (AnomalyDetector.new : AnomalyDetector ℚ) with
    threshold := -1, baseline := some { mean := [JSNum.fin 0], std := [JSNum.fin 1] } }

/-- A baseline over the rationals of one parameter: mean 0, standard deviation 1. -/
def unitBaseline : Baseline ℚ := { mean := [JSNum.fin 0], std := [JSNum.fin 1] }

/-- Three samples of one reading, classified at times 1, 2 and 3. -/
def threeSamples : List (Nat × List (JSNum ℚ)) :=
  [(1, [JSNum.fin 1]), (2, [JSNum.fin 2]), (3, [JSNum.fin 3])]

/-- Two sensor vectors in the ranges of `generateNormalData`: the lowest readings and
readings in the middle of the ranges. -/
noncomputable def lowAndMiddleReadings : List (List ℝ) :=
  [[50, 1013, 45, 12.5, 2.1], [55, 1015, 50, 12.75, 2.2]]

/-- A fresh detector over the reals after `setBaseline` on the one training sample `[0]`. -/
noncomputable def singleSampleDetector : AnomalyDetector ℝ :=
  setBaseline AnomalyDetector.new [[JSNum.fin 0]]

/-- What a generator reads when every call of `Math.random()` returns 0 and the clock reads
0. -/
noncomputable def lowestDraws : Entropy := { random := fun _ => 0, clock := fun _ => 0 }

/-! ## Properties of JavaScript numbers -/

namespace JSNum
section
variable {α : Type} [LinearOrderedField α]

theorem sub_def (a b : JSNum α) : a - b = add a (neg b) := rfl
theorem add_def (a b : JSNum α) : a + b = add a b := rfl
theorem mul_def (a b : JSNum α) : a * b = mul a b := rfl
theorem div_def (a b : JSNum α) : a / b = div a b := rfl

@[simp] theorem nan_add (b : JSNum α) : (nan : JSNum α) + b = nan := by cases b <;> rfl
@[simp] theorem add_nan (a : JSNum α) : a + (nan : JSNum α) = nan := by cases a <;> rfl
@[simp] theorem nan_sub (b : JSNum α) : (nan : JSNum α) - b = nan := by cases b <;> rfl
@[simp] theorem sub_nan (a : JSNum α) : a - (nan : JSNum α) = nan := by cases a <;> rfl
@[simp] theorem nan_mul (b : JSNum α) : (nan : JSNum α) * b = nan := by cases b <;> rfl
@[simp] theorem mul_nan (a : JSNum α) : a * (nan : JSNum α) = nan := by cases a <;> rfl
@[simp] theorem nan_div (b : JSNum α) : (nan : JSNum α) / b = nan := by cases b <;> rfl
@[simp] theorem div_nan (a : JSNum α) : a / (nan : JSNum α) = nan := by cases a <;> rfl
@[simp] theorem abs_nan : abs (nan : JSNum α) = nan := rfl
@[simp] theorem lt_nan (a : JSNum α) : lt a nan = false := by cases a <;> rfl
@[simp] theorem nan_lt (b : JSNum α) : lt nan b = false := by cases b <;> rfl
@[simp] theorem gt_nan (a : JSNum α) : gt a nan = false := nan_lt a
@[simp] theorem nan_gt (b : JSNum α) : gt nan b = false := lt_nan b

@[simp] theorem fin_add_fin (x y : α) : (fin x + fin y : JSNum α) = fin (x + y) := rfl
@[simp] theorem fin_sub_fin (x y : α) : (fin x - fin y : JSNum α) = fin (x - y) := by
  show add (fin x) (neg (fin y)) = _
  simp [add, neg, sub_eq_add_neg]
@[simp] theorem fin_mul_fin (x y : α) : (fin x * fin y : JSNum α) = fin (x * y) := rfl
theorem fin_div_fin (x y : α) (hy : y ≠ 0) : (fin x / fin y : JSNum α) = fin (x / y) := by
  show div (fin x) (fin y) = _
  simp [div, hy]
@[simp] theorem abs_fin (x : α) : abs (fin x) = fin |x| := rfl
@[simp] theorem lt_fin_fin (x y : α) : lt (fin x) (fin y) = decide (x < y) := rfl
end

@[simp] theorem sin_nan : sin nan = nan := rfl
@[simp] theorem cos_nan : cos nan = nan := rfl
@[simp] theorem sqrt_nan : sqrt nan = nan := rfl
@[simp] theorem atan2_nan_left (x : JSNum ℝ) : atan2 nan x = nan := by cases x <;> rfl
@[simp] theorem atan2_nan_right (y : JSNum ℝ) : atan2 y nan = nan := by cases y <;> rfl
@[simp] theorem sin_fin (x : ℝ) : sin (fin x) = fin (Real.sin x) := rfl
@[simp] theorem cos_fin (x : ℝ) : cos (fin x) = fin (Real.cos x) := rfl
theorem sqrt_fin (x : ℝ) (hx : 0 ≤ x) : sqrt (fin x) = fin (Real.sqrt x) := by
  show (if x < 0 then nan else fin (Real.sqrt x)) = _
  rw [if_neg (not_lt.mpr hx)]
theorem atan2_fin_pos (y x : ℝ) (hx : 0 < x) : atan2 (fin y) (fin x) = fin (Real.arctan (y / x)) := by
  show (if 0 < x then _ else _) = _
  rw [if_pos hx]
end JSNum

/-! ## Properties of the response engine -/

theorem levels_cases (s : String) : levels s = none ∨ ∃ b : Severity, s = b.name := by
  unfold levels
  split
  · exact Or.inr ⟨.LOW, rfl⟩
  · exact Or.inr ⟨.MEDIUM, rfl⟩
  · exact Or.inr ⟨.HIGH, rfl⟩
  · exact Or.inr ⟨.CRITICAL, rfl⟩
  · exact Or.inl rfl

theorem levelOrOne_name (a : Severity) : levelOrOne a.name = .num (a.toNat + 1) := by
  cases a <;> rfl

theorem levelOrOne_of_levels_none (s : String) (h : levels s = none) :
    (∃ t, levelOrOne s = .text t) ∨ levelOrOne s = .num 1 := by
  unfold levelOrOne
  rw [h]
  cases inheritedText s with
  | none => exact Or.inr rfl
  | some t => exact Or.inl ⟨t, rfl⟩

theorem updateThreatLevel_name (sys : DefenseSystem) (a b : Severity)
    (ha : sys.threatLevel = a.name) :
    (updateThreatLevel sys b.name).threatLevel = (max a b).name := by
  unfold updateThreatLevel
  rw [ha, levelOrOne_name, levelOrOne_name]
  cases a <;> cases b <;> simp [levelGt, Severity.toNat, ha] <;> decide

theorem updateThreatLevel_other (sys : DefenseSystem) (a : Severity) (s : String)
    (ha : sys.threatLevel = a.name) (hs : levels s = none) :
    updateThreatLevel sys s = sys := by
  unfold updateThreatLevel
  rw [ha, levelOrOne_name]
  rcases levelOrOne_of_levels_none s hs with ⟨t, h⟩ | h <;> simp [h, levelGt]

theorem updateThreatLevel_posture (sys : DefenseSystem) (s : String) :
    (updateThreatLevel sys s).systemStatus = sys.systemStatus ∧
    (updateThreatLevel sys s).failoverMode = sys.failoverMode ∧
    (updateThreatLevel sys s).activeCountermeasures = sys.activeCountermeasures := by
  unfold updateThreatLevel
  simp only
  split <;> simp

/-- The state after `respondToThreat`: the failover switch of the two critical cases, then
the update of the threat level. -/
theorem respondToThreat_state (now : Nat) (sys : DefenseSystem) (t : Threat) :
    (respondToThreat now sys t).2 =
      updateThreatLevel
        (if (t.type = "GPS_SPOOFING" ∨ t.type = "CONTROL_HIJACKING") ∧ t.severity = "CRITICAL"
          then (activateFailover sys).2 else sys) t.severity := by
  unfold respondToThreat
  simp only
  split <;> rename_i h
  all_goals simp_all [handleGPSSpoofing, handleControlHijacking]
  all_goals (split <;> rfl)

theorem respondToThreat_state_level (now : Nat) (sys : DefenseSystem) (t : Threat) :
    ∃ sys1 : DefenseSystem, (respondToThreat now sys t).2 = updateThreatLevel sys1 t.severity ∧
      sys1.threatLevel = sys.threatLevel := by
  refine ⟨_, respondToThreat_state now sys t, ?_⟩
  split <;> simp [activateFailover]

theorem respondToThreat_level_step (now : Nat) (sys : DefenseSystem) (t : Threat)
    (a : Severity) (ha : sys.threatLevel = a.name) :
    ∃ c : Severity, (respondToThreat now sys t).2.threatLevel = c.name ∧ a ≤ c := by
  obtain ⟨sys1, hstate, hlevel⟩ := respondToThreat_state_level now sys t
  rw [hstate]
  have hpre : sys1.threatLevel = a.name := hlevel.trans ha
  rcases levels_cases t.severity with hs | ⟨b, hb⟩
  · rw [updateThreatLevel_other _ a _ hpre hs]
    exact ⟨a, hpre, le_refl a⟩
  · rw [hb, updateThreatLevel_name _ a b hpre]
    exact ⟨max a b, rfl, le_max_left a b⟩

theorem respondAll_level_mono (calls : List (Nat × Threat)) :
    ∀ (sys : DefenseSystem) (a : Severity), sys.threatLevel = a.name →
      ∃ c : Severity, (respondAll sys calls).threatLevel = c.name ∧ a ≤ c := by
  induction calls with
  | nil => intro sys a ha; exact ⟨a, ha, le_refl a⟩
  | cons call rest ih =>
    intro sys a ha
    obtain ⟨b, hb, hab⟩ := respondToThreat_level_step call.1 sys call.2 a ha
    obtain ⟨c, hc, hbc⟩ := ih (respondToThreat call.1 sys call.2).2 b hb
    exact ⟨c, by simpa [respondAll] using hc, le_trans hab hbc⟩

/-- C1: with the severities ordered LOW < MEDIUM < HIGH < CRITICAL, `respondToThreat` on a
threat of severity `b`, whatever its type, leaves the threat level at the maximum of the
previous level `a` and `b`; over any sequence of calls the level never goes below `a`; and
the severities LOW, CRITICAL, MEDIUM from a fresh engine end at CRITICAL. -/
theorem respondToThreat_threatLevel_ratchet (now : Nat) (sys : DefenseSystem)
    (threat : Threat) (a b : Severity)
    (ha : sys.threatLevel = a.name) (hb : threat.severity = b.name) :
    (Severity.LOW < Severity.MEDIUM ∧ Severity.MEDIUM < Severity.HIGH ∧
      Severity.HIGH < Severity.CRITICAL) ∧
    (respondToThreat now sys threat).2.threatLevel = (max a b).name ∧
    (∀ calls : List (Nat × Threat),
      ∃ c : Severity, (respondAll sys calls).threatLevel = c.name ∧ a ≤ c) ∧
    (∀ (n1 n2 n3 : Nat) (t1 t2 t3 : Threat),
      t1.severity = "LOW" → t2.severity = "CRITICAL" → t3.severity = "MEDIUM" →
      (respondAll DefenseSystem.new [(n1, t1), (n2, t2), (n3, t3)]).threatLevel
        = "CRITICAL") := by
  refine ⟨by decide, ?_, fun calls => respondAll_level_mono calls sys a ha, ?_⟩
  · obtain ⟨sys1, hstate, hlevel⟩ := respondToThreat_state_level now sys threat
    rw [hstate, hb]
    exact updateThreatLevel_name sys1 a b (hlevel.trans ha)
  · intro n1 n2 n3 t1 t2 t3 h1 h2 h3
    obtain ⟨s1, hs1, hl1⟩ := respondToThreat_state_level n1 DefenseSystem.new t1
    have e1 : (respondToThreat n1 DefenseSystem.new t1).2.threatLevel
        = (max Severity.LOW Severity.LOW).name := by
      rw [hs1, h1]
      exact updateThreatLevel_name s1 .LOW .LOW hl1
    obtain ⟨s2, hs2, hl2⟩ :=
      respondToThreat_state_level n2 (respondToThreat n1 DefenseSystem.new t1).2 t2
    have e2 : (respondToThreat n2 (respondToThreat n1 DefenseSystem.new t1).2 t2).2.threatLevel
        = (max Severity.LOW Severity.CRITICAL).name := by
      rw [hs2, h2]
      exact updateThreatLevel_name s2 .LOW .CRITICAL (hl2.trans e1)
    obtain ⟨s3, hs3, hl3⟩ := respondToThreat_state_level n3
      (respondToThreat n2 (respondToThreat n1 DefenseSystem.new t1).2 t2).2 t3
    have e3 : (respondToThreat n3
        (respondToThreat n2 (respondToThreat n1 DefenseSystem.new t1).2 t2).2 t3).2.threatLevel
        = (max Severity.CRITICAL Severity.MEDIUM).name := by
      rw [hs3, h3]
      exact updateThreatLevel_name s3 .CRITICAL .MEDIUM (hl3.trans e2)
    simpa [respondAll] using e3

/-- Witness of C1: a HIGH engine receiving a MEDIUM data-tampering threat. -/
theorem respondToThreat_threatLevel_ratchet_witness :
    (respondToThreat 0 { DefenseSystem.new with threatLevel := "HIGH" }
      { type := "DATA_TAMPERING", severity := "MEDIUM", confidence := JSNum.nan }).2.threatLevel
      = "HIGH" :=
  (respondToThreat_threatLevel_ratchet 0 { DefenseSystem.new with threatLevel := "HIGH" }
    { type := "DATA_TAMPERING", severity := "MEDIUM", confidence := JSNum.nan }
    Severity.HIGH Severity.MEDIUM rfl rfl).2.1

theorem JSNum.gt_fin_fin {α : Type} [LinearOrderedField α] (x y : α) :
    JSNum.gt (JSNum.fin x) (JSNum.fin y) = decide (y < x) := rfl

/-- C2: a CRITICAL threat of type GPS_SPOOFING or CONTROL_HIJACKING switches the engine to
failover (`failoverMode = true`, `systemStatus = FAILOVER_ACTIVE`) and the call returns the
base actions of the type followed by its emergency actions, in order. -/
theorem respondToThreat_critical_failover (now : Nat) (sys : DefenseSystem) (threat : Threat)
    (htype : threat.type = "GPS_SPOOFING" ∨ threat.type = "CONTROL_HIJACKING")
    (hsev : threat.severity = "CRITICAL") :
    (respondToThreat now sys threat).2.failoverMode = true ∧
    (respondToThreat now sys threat).2.systemStatus = "FAILOVER_ACTIVE" ∧
    (threat.type = "GPS_SPOOFING" →
      (respondToThreat now sys threat).1.actions =
        ["SWITCH_TO_INERTIAL_NAVIGATION", "VERIFY_BACKUP_GPS", "INITIATE_EMERGENCY_LANDING",
         "ALERT_GROUND_CONTROL"]) ∧
    (threat.type = "CONTROL_HIJACKING" →
      (respondToThreat now sys threat).1.actions =
        ["LOCK_CONTROL_SYSTEMS", "AUTHENTICATE_COMMANDS", "ACTIVATE_AUTONOMOUS_MODE",
         "DISABLE_EXTERNAL_COMMANDS", "EMERGENCY_PROTOCOL"]) := by
  have hpost := updateThreatLevel_posture
    (if (threat.type = "GPS_SPOOFING" ∨ threat.type = "CONTROL_HIJACKING") ∧
      threat.severity = "CRITICAL" then (activateFailover sys).2 else sys) threat.severity
  rw [← respondToThreat_state now sys threat, if_pos ⟨htype, hsev⟩] at hpost
  refine ⟨by rw [hpost.2.1]; rfl, by rw [hpost.1]; rfl, ?_, ?_⟩
  · intro h
    simp [respondToThreat, h, handleGPSSpoofing, hsev]
  · intro h
    simp [respondToThreat, h, handleControlHijacking, hsev]

/-- Witness of C2: a fresh engine receiving a CRITICAL control hijacking. -/
theorem respondToThreat_critical_failover_witness :
    (respondToThreat 0 DefenseSystem.new
      { type := "CONTROL_HIJACKING", severity := "CRITICAL",
        confidence := JSNum.nan }).2.failoverMode = true :=
  (respondToThreat_critical_failover 0 DefenseSystem.new
    { type := "CONTROL_HIJACKING", severity := "CRITICAL", confidence := JSNum.nan }
    (Or.inr rfl) rfl).1

/-- C3: unless the threat is a CRITICAL one of type GPS_SPOOFING or CONTROL_HIJACKING,
`respondToThreat` leaves `systemStatus` and `failoverMode` as they were; that covers an
ANOMALY_DETECTED threat of confidence above 0.8 and a CRITICAL DATA_TAMPERING threat. -/
theorem respondToThreat_posture_frame (now : Nat) (sys : DefenseSystem) (threat : Threat)
    (h : ¬ ((threat.type = "GPS_SPOOFING" ∨ threat.type = "CONTROL_HIJACKING") ∧
      threat.severity = "CRITICAL")) :
    (respondToThreat now sys threat).2.systemStatus = sys.systemStatus ∧
    (respondToThreat now sys threat).2.failoverMode = sys.failoverMode := by
  have hpost := updateThreatLevel_posture
    (if (threat.type = "GPS_SPOOFING" ∨ threat.type = "CONTROL_HIJACKING") ∧
      threat.severity = "CRITICAL" then (activateFailover sys).2 else sys) threat.severity
  rw [← respondToThreat_state now sys threat, if_neg h] at hpost
  exact ⟨hpost.1, hpost.2.1⟩

/-- Witness of C3: an anomaly of confidence 0.9 and a CRITICAL data tampering on a fresh
engine. -/
theorem respondToThreat_posture_frame_witness :
    ((respondToThreat 0 DefenseSystem.new
        { type := "ANOMALY_DETECTED", severity := "CRITICAL",
          confidence := JSNum.fin (9 / 10) }).2.systemStatus = "OPERATIONAL" ∧
      (respondToThreat 0 DefenseSystem.new
        { type := "ANOMALY_DETECTED", severity := "CRITICAL",
          confidence := JSNum.fin (9 / 10) }).2.failoverMode = false) ∧
    ((respondToThreat 0 DefenseSystem.new
        { type := "DATA_TAMPERING", severity := "CRITICAL",
          confidence := JSNum.nan }).2.systemStatus = "OPERATIONAL" ∧
      (respondToThreat 0 DefenseSystem.new
        { type := "DATA_TAMPERING", severity := "CRITICAL",
          confidence := JSNum.nan }).2.failoverMode = false) :=
  ⟨respondToThreat_posture_frame 0 DefenseSystem.new
      { type := "ANOMALY_DETECTED", severity := "CRITICAL", confidence := JSNum.fin (9 / 10) }
      (by decide),
    respondToThreat_posture_frame 0 DefenseSystem.new
      { type := "DATA_TAMPERING", severity := "CRITICAL", confidence := JSNum.nan }
      (by decide)⟩

/-- C4: a threat of a known type that meets no escalation condition (GPS_SPOOFING or
CONTROL_HIJACKING below CRITICAL, DATA_TAMPERING, ANOMALY_DETECTED with a confidence not
above 0.8) gets exactly the fixed action list of its type, in order. -/
theorem respondToThreat_base_actions (now : Nat) (sys : DefenseSystem) (threat : Threat)
    (hsev : threat.type = "GPS_SPOOFING" ∨ threat.type = "CONTROL_HIJACKING" →
      threat.severity ≠ "CRITICAL")
    (hconf : threat.type = "ANOMALY_DETECTED" →
      JSNum.gt threat.confidence (JSNum.fin (8 / 10)) = false) :
    (threat.type = "GPS_SPOOFING" →
      (respondToThreat now sys threat).1.actions =
        ["SWITCH_TO_INERTIAL_NAVIGATION", "VERIFY_BACKUP_GPS"]) ∧
    (threat.type = "CONTROL_HIJACKING" →
      (respondToThreat now sys threat).1.actions =
        ["LOCK_CONTROL_SYSTEMS", "AUTHENTICATE_COMMANDS"]) ∧
    (threat.type = "DATA_TAMPERING" →
      (respondToThreat now sys threat).1.actions =
        ["VERIFY_DATA_INTEGRITY", "RESTORE_FROM_BACKUP", "ISOLATE_COMPROMISED_SENSORS",
         "SWITCH_TO_REDUNDANT_SYSTEMS"]) ∧
    (threat.type = "ANOMALY_DETECTED" →
      (respondToThreat now sys threat).1.actions =
        ["INCREASE_MONITORING", "VALIDATE_SENSORS"]) := by
  refine ⟨?_, ?_, ?_, ?_⟩ <;> intro h
  · simp [respondToThreat, h, handleGPSSpoofing, hsev (Or.inl h)]
  · simp [respondToThreat, h, handleControlHijacking, hsev (Or.inr h)]
  · simp [respondToThreat, h, handleDataTampering]
  · simp [respondToThreat, h, handleAnomaly, hconf h]

/-- Witness of C4: a HIGH GPS spoofing on a fresh engine. -/
theorem respondToThreat_base_actions_witness :
    (respondToThreat 0 DefenseSystem.new
      { type := "GPS_SPOOFING", severity := "HIGH", confidence := JSNum.nan }).1.actions =
      ["SWITCH_TO_INERTIAL_NAVIGATION", "VERIFY_BACKUP_GPS"] :=
  (respondToThreat_base_actions 0 DefenseSystem.new
    { type := "GPS_SPOOFING", severity := "HIGH", confidence := JSNum.nan }
    (by decide) (by decide)).1 rfl

/-- C5: for a threat of type ANOMALY_DETECTED the call returns the four-action list exactly
when `threat.confidence > 0.8` and the two-action list otherwise; for a finite confidence
`c` that is `8/10 < c`, so a confidence of exactly 0.8 does not escalate, and neither does a
missing one. -/
theorem respondToThreat_anomaly_actions (now : Nat) (sys : DefenseSystem) (threat : Threat)
    (htype : threat.type = "ANOMALY_DETECTED") :
    ((respondToThreat now sys threat).1.actions =
        ["INCREASE_MONITORING", "VALIDATE_SENSORS", "INITIATE_DIAGNOSTIC_MODE",
         "PREPARE_FAILOVER_SYSTEMS"] ↔
      JSNum.gt threat.confidence (JSNum.fin (8 / 10)) = true) ∧
    (JSNum.gt threat.confidence (JSNum.fin (8 / 10)) = false →
      (respondToThreat now sys threat).1.actions =
        ["INCREASE_MONITORING", "VALIDATE_SENSORS"]) ∧
    (∀ c : ℚ, threat.confidence = JSNum.fin c →
      (JSNum.gt threat.confidence (JSNum.fin (8 / 10)) = true ↔ 8 / 10 < c)) ∧
    (threat.confidence = JSNum.fin (8 / 10) ∨ threat.confidence = JSNum.nan →
      (respondToThreat now sys threat).1.actions =
        ["INCREASE_MONITORING", "VALIDATE_SENSORS"]) := by
  have hact : (respondToThreat now sys threat).1.actions = handleAnomaly threat := by
    simp [respondToThreat, htype]
  rw [hact]
  refine ⟨?_, ?_, ?_, ?_⟩
  · cases hgt : JSNum.gt threat.confidence (JSNum.fin (8 / 10)) <;> simp [handleAnomaly, hgt]
  · intro hgt
    simp [handleAnomaly, hgt]
  · intro c hc
    rw [hc, JSNum.gt_fin_fin]
    simp
  · rintro (hc | hc) <;> simp [handleAnomaly, hc, JSNum.gt, JSNum.lt]

/-- Witness of C5: confidence 0.9 escalates, confidence 0.8 does not. -/
theorem respondToThreat_anomaly_actions_witness :
    (respondToThreat 0 DefenseSystem.new
      { type := "ANOMALY_DETECTED", severity := "MEDIUM",
        confidence := JSNum.fin (9 / 10) }).1.actions =
      ["INCREASE_MONITORING", "VALIDATE_SENSORS", "INITIATE_DIAGNOSTIC_MODE",
       "PREPARE_FAILOVER_SYSTEMS"] ∧
    (respondToThreat 0 DefenseSystem.new
      { type := "ANOMALY_DETECTED", severity := "MEDIUM",
        confidence := JSNum.fin (8 / 10) }).1.actions =
      ["INCREASE_MONITORING", "VALIDATE_SENSORS"] :=
  ⟨(respondToThreat_anomaly_actions 0 DefenseSystem.new
      { type := "ANOMALY_DETECTED", severity := "MEDIUM", confidence := JSNum.fin (9 / 10) }
      rfl).1.2 (by norm_num [JSNum.gt, JSNum.lt]),
    (respondToThreat_anomaly_actions 0 DefenseSystem.new
      { type := "ANOMALY_DETECTED", severity := "MEDIUM", confidence := JSNum.fin (8 / 10) }
      rfl).2.2.2 (Or.inl rfl)⟩

/-- C6: on a threat whose type is none of the four known ones `respondToThreat` returns
the list LOG_INCIDENT, ALERT_OPERATOR; and it returns a non-empty action list on every
threat, in every engine state (the function is total). -/
theorem respondToThreat_unknown_type (now : Nat) (sys : DefenseSystem) (threat : Threat)
    (h1 : threat.type ≠ "GPS_SPOOFING") (h2 : threat.type ≠ "CONTROL_HIJACKING")
    (h3 : threat.type ≠ "DATA_TAMPERING") (h4 : threat.type ≠ "ANOMALY_DETECTED") :
    (respondToThreat now sys threat).1.actions = ["LOG_INCIDENT", "ALERT_OPERATOR"] ∧
    (∀ (n : Nat) (s : DefenseSystem) (t : Threat), (respondToThreat n s t).1.actions ≠ []) := by
  constructor
  · simp [respondToThreat, h1, h2, h3, h4]
  · intro n s t
    unfold respondToThreat
    simp only
    split
    · simp only [handleGPSSpoofing]; split <;> simp
    · simp only [handleControlHijacking]; split <;> simp
    · simp [handleDataTampering]
    · simp only [handleAnomaly]; split <;> simp
    · exact List.cons_ne_nil _ _

/-- Witness of C6: a threat of the unknown type JAMMING. -/
theorem respondToThreat_unknown_type_witness :
    (respondToThreat 0 DefenseSystem.new
      { type := "JAMMING", severity := "LOW", confidence := JSNum.nan }).1.actions =
      ["LOG_INCIDENT", "ALERT_OPERATOR"] :=
  (respondToThreat_unknown_type 0 DefenseSystem.new
    { type := "JAMMING", severity := "LOW", confidence := JSNum.nan }
    (by decide) (by decide) (by decide) (by decide)).1

/-! ## Properties of the control-integrity validator -/

theorem foldl_add_eq_sum (l : List Int) (acc : Int) :
    l.foldl (fun sum byte => sum + byte) acc = acc + l.sum := by
  induction l generalizing acc with
  | nil => simp
  | cons x xs ih => simp [ih, add_assoc]

theorem sum_nonneg_of_bytes (l : List Int) (h : ∀ b ∈ l, 0 ≤ b ∧ b ≤ 255) : 0 ≤ l.sum := by
  induction l with
  | nil => simp
  | cons x xs ih =>
    have hx := (h x (List.mem_cons_self x xs)).1
    have hxs := ih (fun b hb => h b (List.mem_cons_of_mem x hb))
    simp only [List.sum_cons]
    omega

/-- On bytes the checksum of the code is the sum of the commands modulo 256. -/
theorem calculateChecksum_bytes (l : List Int) (h : ∀ b ∈ l, 0 ≤ b ∧ b ≤ 255) :
    calculateChecksum l = l.sum % 256 := by
  unfold calculateChecksum
  rw [foldl_add_eq_sum, zero_add]
  exact Int.tmod_eq_emod (sum_nonneg_of_bytes l h) (by decide)

/-- C7: on a control frame whose commands are bytes, `detectControlHijacking` returns
`isHijacked = false` exactly when the checksum is the sum of the commands modulo 256 and
the source is GROUND_CONTROL, ONBOARD_AI or EMERGENCY_OVERRIDE. -/
theorem detectControlHijacking_accepts_iff (controlData : ControlData)
    (hbytes : ∀ b ∈ controlData.commands, 0 ≤ b ∧ b ≤ 255) :
    (detectControlHijacking controlData).isHijacked = false ↔
      (controlData.checksum = controlData.commands.sum % 256 ∧
        (controlData.source = "GROUND_CONTROL" ∨ controlData.source = "ONBOARD_AI" ∨
          controlData.source = "EMERGENCY_OVERRIDE")) := by
  unfold detectControlHijacking
  rw [calculateChecksum_bytes _ hbytes]
  by_cases hc : controlData.checksum = controlData.commands.sum % 256
  · by_cases hs : controlData.source = "GROUND_CONTROL" ∨ controlData.source = "ONBOARD_AI" ∨
        controlData.source = "EMERGENCY_OVERRIDE"
    · simp [hc, hs]
    · simp [hc, hs]
  · simp [hc]

/-- Witness of C7: the commands 1, 2, 3, 4 with checksum 10 from GROUND_CONTROL are
accepted. -/
theorem detectControlHijacking_accepts_iff_witness :
    (detectControlHijacking
      { commands := [1, 2, 3, 4], source := "GROUND_CONTROL", timestamp := 0,
        checksum := 10 }).isHijacked = false :=
  (detectControlHijacking_accepts_iff
    { commands := [1, 2, 3, 4], source := "GROUND_CONTROL", timestamp := 0, checksum := 10 }
    (by decide)).2 ⟨by decide, Or.inl rfl⟩

/-- C8: on a control frame whose commands are bytes, a checksum different from the sum of
the commands modulo 256 gives `isHijacked = true` with severity CRITICAL and the integrity
reason, whatever the source; a matching checksum with a source outside the allow-list gives
`isHijacked = true` with severity HIGH and the unauthorized-source reason. -/
theorem detectControlHijacking_precedence (controlData : ControlData)
    (hbytes : ∀ b ∈ controlData.commands, 0 ≤ b ∧ b ≤ 255) :
    (controlData.checksum ≠ controlData.commands.sum % 256 →
      detectControlHijacking controlData =
        { isHijacked := true, reason := some "Command integrity check failed",
          severity := some "CRITICAL" }) ∧
    (controlData.checksum = controlData.commands.sum % 256 →
      ¬ (controlData.source = "GROUND_CONTROL" ∨ controlData.source = "ONBOARD_AI" ∨
          controlData.source = "EMERGENCY_OVERRIDE") →
      detectControlHijacking controlData =
        { isHijacked := true, reason := some "Unauthorized command source",
          severity := some "HIGH" }) := by
  unfold detectControlHijacking
  rw [calculateChecksum_bytes _ hbytes]
  constructor
  · intro hc
    simp [hc]
  · intro hc hs
    simp [hc, hs]

/-- Witness of C8: the commands 1, 2, 3, 4 with checksum 99 fail the integrity check though
the source is authorized, and with checksum 10 from an unknown source they are refused as
unauthorized. -/
theorem detectControlHijacking_precedence_witness :
    detectControlHijacking
      { commands := [1, 2, 3, 4], source := "GROUND_CONTROL", timestamp := 0, checksum := 99 }
      = { isHijacked := true, reason := some "Command integrity check failed",
          severity := some "CRITICAL" } ∧
    detectControlHijacking
      { commands := [1, 2, 3, 4], source := "UNKNOWN_SOURCE", timestamp := 0, checksum := 10 }
      = { isHijacked := true, reason := some "Unauthorized command source",
          severity := some "HIGH" } :=
  ⟨(detectControlHijacking_precedence
      { commands := [1, 2, 3, 4], source := "GROUND_CONTROL", timestamp := 0, checksum := 99 }
      (by decide)).1 (by decide),
    (detectControlHijacking_precedence
      { commands := [1, 2, 3, 4], source := "UNKNOWN_SOURCE", timestamp := 0, checksum := 10 }
      (by decide)).2 (by decide) (by decide)⟩

/-! ## Properties of the GPS validator -/

theorem calculateDistance_nan_lat1 (lon1 lat2 lon2 : JSNum ℝ) :
    calculateDistance JSNum.nan lon1 lat2 lon2 = JSNum.nan := by
  simp [calculateDistance]

theorem speedCheck_nan_latitude (lastGPS : BufferEntry ℝ) (gpsData : GpsData)
    (h : lastGPS.latitude = JSNum.nan) : speedCheck lastGPS gpsData = false := by
  simp [speedCheck, h, calculateDistance_nan_lat1]

theorem calculateDistance_same :
    calculateDistance (JSNum.fin 0) (JSNum.fin 0) (JSNum.fin 0) (JSNum.fin 0) = JSNum.fin 0 := by
  simp [calculateDistance, JSNum.PI, JSNum.fin_div_fin, JSNum.sqrt_fin, JSNum.atan2_fin_pos]

theorem calculateDistance_tenKm :
    calculateDistance (JSNum.fin 0) (JSNum.fin 0)
      (JSNum.fin (10000 / 6371000 * 180 / Real.pi)) (JSNum.fin 0) = JSNum.fin 10000 := by
  have hpi : Real.pi ≠ 0 := Real.pi_ne_zero
  have hθ : (10000 / 6371000 * 180 / Real.pi - 0) * Real.pi / 180 / 2 = 5000 / 6371000 := by
    field_simp
    ring
  have hlo : -(Real.pi / 2) < (5000 / 6371000 : ℝ) := by
    have := Real.pi_pos
    have h0 : (0 : ℝ) < 5000 / 6371000 := by norm_num
    linarith
  have hhi : (5000 / 6371000 : ℝ) < Real.pi / 2 := by
    have := Real.pi_gt_three
    have h0 : (5000 / 6371000 : ℝ) < 1 := by norm_num
    linarith
  have hcos : 0 < Real.cos (5000 / 6371000) := Real.cos_pos_of_mem_Ioo ⟨hlo, hhi⟩
  have hsin : 0 ≤ Real.sin (5000 / 6371000) :=
    Real.sin_nonneg_of_nonneg_of_le_pi (by norm_num) (by linarith [Real.pi_gt_three])
  simp only [calculateDistance, JSNum.PI, JSNum.fin_sub_fin, JSNum.fin_mul_fin,
    JSNum.fin_div_fin _ _ (by norm_num : (180 : ℝ) ≠ 0),
    JSNum.fin_div_fin _ _ (by norm_num : (2 : ℝ) ≠ 0), JSNum.sin_fin, JSNum.cos_fin,
    JSNum.fin_add_fin, hθ]
  have ha : Real.sin (5000 / 6371000) * Real.sin (5000 / 6371000) +
      Real.cos (0 * Real.pi / 180) * Real.cos (10000 / 6371000 * 180 / Real.pi * Real.pi / 180) *
        Real.sin ((0 - 0) * Real.pi / 180 / 2) * Real.sin ((0 - 0) * Real.pi / 180 / 2)
      = Real.sin (5000 / 6371000) ^ 2 := by
    simp only [sub_self, zero_mul, zero_div, Real.sin_zero, mul_zero, add_zero]
    ring
  have h1 : 1 - Real.sin (5000 / 6371000) ^ 2 = Real.cos (5000 / 6371000) ^ 2 := by
    have := Real.sin_sq_add_cos_sq (5000 / 6371000)
    linarith
  rw [ha, h1, JSNum.sqrt_fin _ (sq_nonneg _), JSNum.sqrt_fin _ (sq_nonneg _),
    Real.sqrt_sq hsin, Real.sqrt_sq hcos.le, JSNum.atan2_fin_pos _ _ hcos,
    ← Real.tan_eq_sin_div_cos, Real.arctan_tan hlo hhi, JSNum.fin_mul_fin]
  congr 1
  norm_num

/-- The verdict of `detectGPSSpoofing` when the speed test does not fire: the altitude test
alone. -/
theorem detectGPSSpoofing_of_not_flagged (d : AnomalyDetector ℝ) (gpsData : GpsData)
    (h : ∀ lastGPS, d.dataBuffer.getLast? = some lastGPS → speedCheck lastGPS gpsData = false) :
    detectGPSSpoofing d gpsData =
      if JSNum.lt gpsData.altitude (JSNum.fin (-500)) ||
          JSNum.gt gpsData.altitude (JSNum.fin 50000) then
        { isSpoofed := true, reason := some "Impossible altitude detected",
          severity := some "CRITICAL" }
      else { isSpoofed := false, reason := none, severity := none } := by
  unfold detectGPSSpoofing
  cases hlast : d.dataBuffer.getLast? with
  | none => simp
  | some lastGPS => simp [h lastGPS hlast]

/-- The verdict of `detectGPSSpoofing` when the speed test fires. -/
theorem detectGPSSpoofing_of_flagged (d : AnomalyDetector ℝ) (gpsData : GpsData)
    (lastGPS : BufferEntry ℝ) (hlast : d.dataBuffer.getLast? = some lastGPS)
    (h : speedCheck lastGPS gpsData = true) :
    detectGPSSpoofing d gpsData =
      { isSpoofed := true, reason := some "Impossible speed change detected",
        severity := some "HIGH" } := by
  unfold detectGPSSpoofing
  simp [hlast, h]

theorem mem_pushBounded {α : Type} (windowSize : Nat) (buffer : List (BufferEntry α))
    (e x : BufferEntry α) (hx : x ∈ pushBounded windowSize buffer e) : x ∈ buffer ∨ x = e := by
  unfold pushBounded at hx
  simp only at hx
  split at hx
  · simpa using List.mem_of_mem_tail hx
  · simpa using hx

/-- No element of the buffer of a reachable detector has coordinates: `detectAnomaly`, the
only writer, pushes elements without `latitude` and `longitude`. -/
theorem reachable_no_coordinates {α : Type} [LinearOrderedField α] (d : AnomalyDetector α)
    (hd : AnomalyDetector.Reachable d) :
    ∀ e ∈ d.dataBuffer, e.latitude = JSNum.nan ∧ e.longitude = JSNum.nan := by
  induction hd with
  | fresh => intro e he; simp [AnomalyDetector.new] at he
  | setBaseline d b _ ih => exact ih
  | detectAnomaly now d dataPoint _ ih =>
    intro e he
    unfold detectAnomaly at he
    cases hb : d.baseline with
    | none =>
      rw [hb] at he
      exact ih e he
    | some b =>
      rw [hb] at he
      rcases mem_pushBounded _ _ _ _ he with h | h
      · exact ih e h
      · rw [h]
        exact ⟨rfl, rfl⟩

theorem reachable_speedCheck (d : AnomalyDetector ℝ) (hd : AnomalyDetector.Reachable d)
    (gpsData : GpsData) (lastGPS : BufferEntry ℝ)
    (hlast : d.dataBuffer.getLast? = some lastGPS) : speedCheck lastGPS gpsData = false :=
  speedCheck_nan_latitude lastGPS gpsData
    (reachable_no_coordinates d hd lastGPS (List.mem_of_getLast?_eq_some hlast)).1

theorem detectorAfterOneSample_reachable : AnomalyDetector.Reachable detectorAfterOneSample :=
  AnomalyDetector.Reachable.detectAnomaly 2000 _ _
    (AnomalyDetector.Reachable.setBaseline AnomalyDetector.new _
      AnomalyDetector.Reachable.fresh)

theorem detectorAfterOneSample_last :
    detectorAfterOneSample.dataBuffer.getLast? =
      some (classifiedEntry realUnitBaseline 2000 [JSNum.fin 1]) := by
  simp [detectorAfterOneSample, detectAnomaly, pushBounded, AnomalyDetector.new, classifiedEntry]

theorem reachable_distance_nan (d : AnomalyDetector ℝ) (hd : AnomalyDetector.Reachable d)
    (gpsData : GpsData) (lastGPS : BufferEntry ℝ)
    (hlast : d.dataBuffer.getLast? = some lastGPS) :
    calculateDistance lastGPS.latitude lastGPS.longitude gpsData.latitude gpsData.longitude =
      JSNum.nan := by
  rw [(reachable_no_coordinates d hd lastGPS (List.mem_of_getLast?_eq_some hlast)).1]
  exact calculateDistance_nan_lat1 _ _ _

/-- C9: a fix whose altitude is below -500 or above 50000 is reported `isSpoofed = true`
with severity CRITICAL and the altitude reason, on an empty history and in every state the
methods of the class produce, whatever its buffer holds: against the last element of such a
buffer the speed test does not fire, so no HIGH verdict takes the place of the CRITICAL
one. -/
theorem detectGPSSpoofing_altitude_critical (d : AnomalyDetector ℝ) (gpsData : GpsData)
    (hd : AnomalyDetector.Reachable d ∨ d.dataBuffer = [])
    (halt : JSNum.lt gpsData.altitude (JSNum.fin (-500)) = true ∨
      JSNum.gt gpsData.altitude (JSNum.fin 50000) = true) :
    detectGPSSpoofing d gpsData =
      { isSpoofed := true, reason := some "Impossible altitude detected",
        severity := some "CRITICAL" } ∧
    (detectGPSSpoofing d gpsData).isSpoofed = true ∧
    (detectGPSSpoofing d gpsData).severity = some "CRITICAL" ∧
    (∀ lastGPS, d.dataBuffer.getLast? = some lastGPS → speedCheck lastGPS gpsData = false) := by
  have hquiet : ∀ lastGPS, d.dataBuffer.getLast? = some lastGPS →
      speedCheck lastGPS gpsData = false := by
    intro lastGPS hlast
    rcases hd with hd | hd
    · exact reachable_speedCheck d hd gpsData lastGPS hlast
    · rw [hd] at hlast
      cases hlast
  have hcond : (JSNum.lt gpsData.altitude (JSNum.fin (-500)) ||
      JSNum.gt gpsData.altitude (JSNum.fin 50000)) = true := by
    rcases halt with h | h <;> simp [h]
  have hverdict : detectGPSSpoofing d gpsData =
      { isSpoofed := true, reason := some "Impossible altitude detected",
        severity := some "CRITICAL" } := by
    rw [detectGPSSpoofing_of_not_flagged d gpsData hquiet, if_pos hcond]
  refine ⟨hverdict, ?_, ?_, hquiet⟩
  · rw [hverdict]
  · rw [hverdict]

/-- Witness of C9: the spoofed fix of altitude -1000, checked by a detector whose buffer
holds the element of an earlier call of `detectAnomaly`. -/
theorem detectGPSSpoofing_altitude_critical_witness :
    AnomalyDetector.Reachable detectorAfterOneSample ∧
    detectorAfterOneSample.dataBuffer ≠ [] ∧
    JSNum.lt spoofedFix.altitude (JSNum.fin (-500)) = true ∧
    detectGPSSpoofing detectorAfterOneSample spoofedFix =
      { isSpoofed := true, reason := some "Impossible altitude detected",
        severity := some "CRITICAL" } :=
  ⟨detectorAfterOneSample_reachable,
    (fun h => by
      have := detectorAfterOneSample_last
      rw [h] at this
      cases this),
    by norm_num [spoofedFix, JSNum.lt],
    (detectGPSSpoofing_altitude_critical detectorAfterOneSample spoofedFix
      (Or.inl detectorAfterOneSample_reachable)
      (Or.inl (by norm_num [spoofedFix, JSNum.lt]))).1⟩

/-- C10, evaluated on the code: `secondFix` is one second and 10,000 m away from `firstFix`
with declared speed 15, so the speed test against an element holding `firstFix` fires; but
`detectGPSSpoofing` stores no fix, so the call on `secondFix` that follows the call on
`firstFix` finds the buffer empty and reports `isSpoofed = false`; and in every state the
methods of the class can produce, a fix with an altitude in range is reported
`isSpoofed = false`, whatever its position, time and speed. -/
theorem detectGPSSpoofing_speed_test_unreachable :
    calculateDistance firstFix.latitude firstFix.longitude
      secondFix.latitude secondFix.longitude = JSNum.fin 10000 ∧
    (secondFix.timestamp - firstFix.timestamp) / JSNum.fin 1000 = JSNum.fin 1 ∧
    speedCheck
      { dataPoint := [], score := JSNum.nan, timestamp := firstFix.timestamp,
        latitude := firstFix.latitude, longitude := firstFix.longitude } secondFix = true ∧
    detectGPSSpoofing (AnomalyDetector.new : AnomalyDetector ℝ) firstFix =
      { isSpoofed := false, reason := none, severity := none } ∧
    detectGPSSpoofing (AnomalyDetector.new : AnomalyDetector ℝ) secondFix =
      { isSpoofed := false, reason := none, severity := none } ∧
    (∀ (d : AnomalyDetector ℝ) (gpsData : GpsData), AnomalyDetector.Reachable d →
      JSNum.lt gpsData.altitude (JSNum.fin (-500)) = false →
      JSNum.gt gpsData.altitude (JSNum.fin 50000) = false →
      detectGPSSpoofing d gpsData = { isSpoofed := false, reason := none, severity := none }) := by
  have hdist : calculateDistance firstFix.latitude firstFix.longitude
      secondFix.latitude secondFix.longitude = JSNum.fin 10000 := calculateDistance_tenKm
  have htime : (secondFix.timestamp - firstFix.timestamp) / JSNum.fin 1000 = JSNum.fin 1 := by
    simp only [secondFix, firstFix, JSNum.fin_sub_fin,
      JSNum.fin_div_fin _ _ (by norm_num : (1000 : ℝ) ≠ 0)]
    norm_num
  have hquiet : ∀ (d : AnomalyDetector ℝ) (gpsData : GpsData), AnomalyDetector.Reachable d →
      JSNum.lt gpsData.altitude (JSNum.fin (-500)) = false →
      JSNum.gt gpsData.altitude (JSNum.fin 50000) = false →
      detectGPSSpoofing d gpsData =
        { isSpoofed := false, reason := none, severity := none } := by
    intro d gpsData hd hlow hhigh
    rw [detectGPSSpoofing_of_not_flagged d gpsData
      (fun lastGPS hlast => reachable_speedCheck d hd gpsData lastGPS hlast)]
    simp [hlow, hhigh]
  refine ⟨hdist, htime, ?_, ?_, ?_, hquiet⟩
  · simp only [speedCheck, hdist, htime]
    simp only [secondFix, JSNum.fin_sub_fin,
      JSNum.fin_div_fin _ _ (by norm_num : (1 : ℝ) ≠ 0), JSNum.abs_fin, JSNum.gt,
      JSNum.lt_fin_fin]
    norm_num
  · exact hquiet _ _ AnomalyDetector.Reachable.fresh (by norm_num [firstFix, JSNum.lt])
      (by norm_num [firstFix, JSNum.gt, JSNum.lt])
  · exact hquiet _ _ AnomalyDetector.Reachable.fresh (by norm_num [secondFix, JSNum.lt])
      (by norm_num [secondFix, JSNum.gt, JSNum.lt])

/-- The speed test on finite data: with a non-zero elapsed time the implied speed is the
quotient, whatever its sign; with a zero elapsed time it is an infinity unless the distance
is zero too, in which case it is `NaN` and the test does not fire. -/
theorem speedCheck_fin (lastGPS : BufferEntry ℝ) (gpsData : GpsData) (t0 t1 dist s : ℝ)
    (ht0 : lastGPS.timestamp = JSNum.fin t0) (ht1 : gpsData.timestamp = JSNum.fin t1)
    (hdist : calculateDistance lastGPS.latitude lastGPS.longitude
      gpsData.latitude gpsData.longitude = JSNum.fin dist)
    (hs : gpsData.speed = JSNum.fin s) :
    speedCheck lastGPS gpsData = true ↔
      (t1 ≠ t0 ∧ 50 < |dist / ((t1 - t0) / 1000) - s|) ∨ (t1 = t0 ∧ dist ≠ 0) := by
  simp only [speedCheck, ht0, ht1, hdist, hs, JSNum.fin_sub_fin,
    JSNum.fin_div_fin _ _ (by norm_num : (1000 : ℝ) ≠ 0)]
  by_cases h : t1 = t0
  · subst h
    simp only [sub_self, zero_div, JSNum.div_def, JSNum.div]
    rcases lt_trichotomy dist 0 with hd | hd | hd
    · have hd2 : ¬ 0 < dist := not_lt.mpr hd.le
      simp [hd, hd2, hd.ne, JSNum.sub_def, JSNum.add, JSNum.neg, JSNum.abs, JSNum.gt, JSNum.lt]
    · simp [hd, JSNum.sub_def, JSNum.add, JSNum.neg, JSNum.abs, JSNum.gt, JSNum.lt]
    · simp [hd, hd.ne', JSNum.sub_def, JSNum.add, JSNum.neg, JSNum.abs, JSNum.gt, JSNum.lt]
  · have he : (t1 - t0) / 1000 ≠ 0 := by
      have : t1 - t0 ≠ 0 := sub_ne_zero.mpr h
      positivity
    simp [JSNum.fin_div_fin _ _ he, JSNum.gt, h]

theorem speedCheck_nan_distance (lastGPS : BufferEntry ℝ) (gpsData : GpsData)
    (h : calculateDistance lastGPS.latitude lastGPS.longitude
      gpsData.latitude gpsData.longitude = JSNum.nan) :
    speedCheck lastGPS gpsData = false := by
  simp [speedCheck, h]

/-- C11: in a state the methods of the class produce, with a last buffered element stamped
`t0` and a fix stamped `t1` not later than `t0`, the elapsed time `(t1 - t0) / 1000` is
zero or negative, and the result does not depend on it: the distance to the buffered
element is `NaN`, the speed test does not fire, and the altitude test alone decides, so a
fix with an altitude in range is reported not spoofed. -/
theorem detectGPSSpoofing_elapsed_not_positive (d : AnomalyDetector ℝ) (gpsData : GpsData)
    (lastGPS : BufferEntry ℝ) (t0 t1 : ℝ)
    (hd : AnomalyDetector.Reachable d)
    (hlast : d.dataBuffer.getLast? = some lastGPS)
    (ht0 : lastGPS.timestamp = JSNum.fin t0) (ht1 : gpsData.timestamp = JSNum.fin t1)
    (hle : t1 ≤ t0) :
    ((gpsData.timestamp - lastGPS.timestamp) / JSNum.fin 1000 = JSNum.fin ((t1 - t0) / 1000) ∧
      (t1 - t0) / 1000 ≤ 0) ∧
    calculateDistance lastGPS.latitude lastGPS.longitude gpsData.latitude gpsData.longitude =
      JSNum.nan ∧
    speedCheck lastGPS gpsData = false ∧
    detectGPSSpoofing d gpsData =
      (if JSNum.lt gpsData.altitude (JSNum.fin (-500)) ||
          JSNum.gt gpsData.altitude (JSNum.fin 50000) then
        { isSpoofed := true, reason := some "Impossible altitude detected",
          severity := some "CRITICAL" }
      else { isSpoofed := false, reason := none, severity := none }) ∧
    (JSNum.lt gpsData.altitude (JSNum.fin (-500)) = false →
      JSNum.gt gpsData.altitude (JSNum.fin 50000) = false →
      detectGPSSpoofing d gpsData = { isSpoofed := false, reason := none, severity := none }) := by
  have hverdict := detectGPSSpoofing_of_not_flagged d gpsData
    (fun e he => reachable_speedCheck d hd gpsData e he)
  refine ⟨⟨?_, ?_⟩, reachable_distance_nan d hd gpsData lastGPS hlast,
    reachable_speedCheck d hd gpsData lastGPS hlast, hverdict, ?_⟩
  · rw [ht0, ht1, JSNum.fin_sub_fin, JSNum.fin_div_fin _ _ (by norm_num : (1000 : ℝ) ≠ 0)]
  · have : t1 - t0 ≤ 0 := sub_nonpos.mpr hle
    linarith
  · intro hlow hhigh
    rw [hverdict]
    simp [hlow, hhigh]

/-- Witness of C11: the buffered element is stamped 2000 ms and the fix 1000 ms, with the
altitude 100. -/
theorem detectGPSSpoofing_elapsed_not_positive_witness :
    AnomalyDetector.Reachable detectorAfterOneSample ∧
    detectorAfterOneSample.dataBuffer.getLast? =
      some (classifiedEntry realUnitBaseline 2000 [JSNum.fin 1]) ∧
    (staleFix.timestamp - (classifiedEntry realUnitBaseline 2000 [JSNum.fin 1]).timestamp) /
        JSNum.fin 1000 = JSNum.fin (-1) ∧
    detectGPSSpoofing detectorAfterOneSample staleFix =
      { isSpoofed := false, reason := none, severity := none } :=
  ⟨detectorAfterOneSample_reachable, detectorAfterOneSample_last,
    by
      simp only [staleFix, classifiedEntry, JSNum.fin_sub_fin,
        JSNum.fin_div_fin _ _ (by norm_num : (1000 : ℝ) ≠ 0)]
      norm_num,
    (detectGPSSpoofing_elapsed_not_positive detectorAfterOneSample staleFix
      (classifiedEntry realUnitBaseline 2000 [JSNum.fin 1])
      2000 1000 detectorAfterOneSample_reachable detectorAfterOneSample_last
      (by simp [classifiedEntry]) rfl (by norm_num)).2.2.2.2
      (by norm_num [staleFix, JSNum.lt]) (by norm_num [staleFix, JSNum.gt, JSNum.lt])⟩

/-! ## Properties of the statistical detector -/

section DetectorLemmas

variable {α : Type} [LinearOrderedField α]

theorem JSNum.max2_fin_fin (a v : α) :
    JSNum.max2 (JSNum.fin a) (JSNum.fin v) = JSNum.fin (max a v) := by
  simp only [JSNum.max2, JSNum.lt]
  by_cases h : a < v
  · simp [h, max_eq_right h.le]
  · simp [h, max_eq_left (not_lt.mp h)]

theorem JSNum.max2_nan_left (b : JSNum α) : JSNum.max2 JSNum.nan b = JSNum.nan := by
  cases b <;> rfl

theorem JSNum.max2_nan_right (a : JSNum α) : JSNum.max2 a JSNum.nan = JSNum.nan := by
  cases a <;> rfl

theorem foldl_max2_nan (l : List (JSNum α)) : l.foldl JSNum.max2 JSNum.nan = JSNum.nan := by
  induction l with
  | nil => rfl
  | cons x xs ih => simp [List.foldl_cons, JSNum.max2_nan_left, ih]

theorem foldl_max2_of_nan_mem (l : List (JSNum α)) (acc : JSNum α) (h : JSNum.nan ∈ l) :
    l.foldl JSNum.max2 acc = JSNum.nan := by
  induction l generalizing acc with
  | nil => simp at h
  | cons x xs ih =>
    rw [List.foldl_cons]
    rcases List.mem_cons.mp h with hx | hx
    · rw [← hx, JSNum.max2_nan_right, foldl_max2_nan]
    · exact ih _ hx

theorem maxOf_of_nan_mem (l : List (JSNum α)) (h : JSNum.nan ∈ l) :
    JSNum.maxOf l = JSNum.nan := foldl_max2_of_nan_mem l _ h

theorem foldl_max2_fin (l : List α) (a : α) :
    (l.map JSNum.fin).foldl JSNum.max2 (JSNum.fin a) = JSNum.fin (l.foldl max a) := by
  induction l generalizing a with
  | nil => rfl
  | cons x xs ih => simp [List.foldl_cons, JSNum.max2_fin_fin, ih]

theorem maxOf_map_fin_cons (x : α) (xs : List α) :
    JSNum.maxOf ((x :: xs).map JSNum.fin) = JSNum.fin (xs.foldl max x) := by
  have h : JSNum.max2 JSNum.ninf (JSNum.fin x) = JSNum.fin x := by
    simp [JSNum.max2, JSNum.lt]
  simp only [JSNum.maxOf, List.map_cons, List.foldl_cons, h]
  exact foldl_max2_fin xs x

theorem foldl_max_ge (l : List α) (a : α) : a ≤ l.foldl max a ∧ ∀ v ∈ l, v ≤ l.foldl max a := by
  induction l generalizing a with
  | nil => simp
  | cons x xs ih =>
    obtain ⟨h1, h2⟩ := ih (max a x)
    refine ⟨le_trans (le_max_left a x) h1, ?_⟩
    intro v hv
    rcases List.mem_cons.mp hv with hv | hv
    · rw [hv]; exact le_trans (le_max_right a x) h1
    · exact h2 v hv

theorem foldl_max_mem (l : List α) (a : α) : l.foldl max a = a ∨ l.foldl max a ∈ l := by
  induction l generalizing a with
  | nil => simp
  | cons x xs ih =>
    rw [List.foldl_cons]
    rcases ih (max a x) with h | h
    · rcases max_choice a x with hc | hc
      · left; rw [h, hc]
      · right; rw [h, hc]; exact List.mem_cons_self x xs
    · right; exact List.mem_cons_of_mem x h

theorem zip_range_getElem? {β : Type} (xs : List β) (i : Nat) :
    (xs.zip (List.range xs.length))[i]? = xs[i]?.map (fun x => (x, i)) := by
  cases hx : xs[i]? with
  | none =>
    have hlen : xs.length ≤ i := List.getElem?_eq_none_iff.mp hx
    apply List.getElem?_eq_none_iff.mpr
    simp [List.length_zip, hlen]
  | some x =>
    have hlt : i < xs.length := by
      by_contra hcon
      rw [List.getElem?_eq_none_iff.mpr (not_lt.mp hcon)] at hx
      cases hx
    exact List.getElem?_zip_eq_some.mpr ⟨hx, List.getElem?_range hlt⟩

theorem zScores_getElem? (b : Baseline α) (xs : List (JSNum α)) (i : Nat) :
    (zScores b xs)[i]? = xs[i]?.map (fun x => zScore b x i) := by
  simp only [zScores, List.getElem?_map, zip_range_getElem?, Option.map_map]
  rfl

theorem zScores_length (b : Baseline α) (xs : List (JSNum α)) :
    (zScores b xs).length = xs.length := by
  simp [zScores]

theorem mem_zScores (b : Baseline α) (xs : List (JSNum α)) (z : JSNum α)
    (hz : z ∈ zScores b xs) : ∃ i x, xs[i]? = some x ∧ z = zScore b x i := by
  obtain ⟨i, hi, rfl⟩ := List.mem_iff_getElem.mp hz
  have h := zScores_getElem? b xs i
  rw [List.getElem?_eq_getElem hi] at h
  cases hx : xs[i]? with
  | none => rw [hx] at h; cases h
  | some x =>
    rw [hx] at h
    exact ⟨i, x, hx, by simpa using h⟩

theorem stdOrOne_cases (std : List (JSNum α)) (i : Nat) :
    stdOrOne std i = JSNum.pinf ∨ stdOrOne std i = JSNum.ninf ∨
      ∃ s : α, s ≠ 0 ∧ stdOrOne std i = JSNum.fin s := by
  unfold stdOrOne
  cases hs : std.get? i with
  | none => exact Or.inr (Or.inr ⟨1, one_ne_zero, rfl⟩)
  | some s =>
    cases s with
    | nan => exact Or.inr (Or.inr ⟨1, one_ne_zero, by simp [JSNum.truthy]⟩)
    | ninf => right; left; simp [JSNum.truthy]
    | pinf => left; simp [JSNum.truthy]
    | fin v =>
      by_cases hv : v = 0
      · exact Or.inr (Or.inr ⟨1, one_ne_zero, by simp [JSNum.truthy, hv]⟩)
      · exact Or.inr (Or.inr ⟨v, hv, by simp [JSNum.truthy, hv]⟩)

theorem zScore_fin (b : Baseline α) (x m : α) (i : Nat) (hm : b.mean[i]? = some (JSNum.fin m)) :
    ∃ z : α, zScore b (JSNum.fin x) i = JSNum.fin z ∧ 0 ≤ z ∧ (x = m → z = 0) := by
  unfold zScore
  simp only [List.get?_eq_getElem?, hm, Option.getD_some, JSNum.fin_sub_fin]
  rcases stdOrOne_cases b.std i with h | h | ⟨s, hs, h⟩
  · rw [h]
    exact ⟨0, by simp [JSNum.div_def, JSNum.div, JSNum.abs], le_refl 0, fun _ => rfl⟩
  · rw [h]
    exact ⟨0, by simp [JSNum.div_def, JSNum.div, JSNum.abs], le_refl 0, fun _ => rfl⟩
  · rw [h, JSNum.fin_div_fin _ _ hs]
    exact ⟨|(x - m) / s|, rfl, abs_nonneg _, fun hx => by simp [hx]⟩

theorem zScore_nan (b : Baseline α) (i : Nat) : zScore b JSNum.nan i = JSNum.nan := by
  simp [zScore]

theorem zScore_of_mean_none (b : Baseline α) (x : JSNum α) (i : Nat) (hm : b.mean[i]? = none) :
    zScore b x i = JSNum.nan := by
  simp [zScore, hm]

end DetectorLemmas

section DetectorResults
variable {α : Type} [LinearOrderedField α]

theorem JSNum.min2_fin_fin (a v : α) :
    JSNum.min2 (JSNum.fin a) (JSNum.fin v) = JSNum.fin (min a v) := by
  simp only [JSNum.min2, JSNum.lt]
  by_cases h : v < a
  · simp [h, min_eq_right h.le]
  · simp [h, min_eq_left (not_lt.mp h)]

omit [LinearOrderedField α] in
theorem exists_map_fin (P : α → Prop) (l : List (JSNum α))
    (h : ∀ z ∈ l, ∃ v, z = JSNum.fin v ∧ P v) :
    ∃ zs : List α, l = zs.map JSNum.fin ∧ ∀ v ∈ zs, P v := by
  induction l with
  | nil => exact ⟨[], rfl, by simp⟩
  | cons z rest ih =>
    obtain ⟨v, hv, hP⟩ := h z (List.mem_cons_self z rest)
    obtain ⟨zs, hzs, hall⟩ := ih (fun w hw => h w (List.mem_cons_of_mem z hw))
    refine ⟨v :: zs, by simp [hv, hzs], ?_⟩
    intro w hw
    rcases List.mem_cons.mp hw with hw | hw
    · rw [hw]; exact hP
    · exact hall w hw

/-- The maximum of a non-empty list of finite numbers: a member that bounds the others. -/
theorem maxOf_map_fin (zs : List α) (hne : zs ≠ []) :
    ∃ m : α, JSNum.maxOf (zs.map JSNum.fin) = JSNum.fin m ∧ m ∈ zs ∧ ∀ v ∈ zs, v ≤ m := by
  cases zs with
  | nil => exact absurd rfl hne
  | cons z rest =>
    refine ⟨rest.foldl max z, maxOf_map_fin_cons z rest, ?_, ?_⟩
    · rcases foldl_max_mem rest z with h | h
      · rw [h]; exact List.mem_cons_self z rest
      · exact List.mem_cons_of_mem z h
    · intro v hv
      rcases List.mem_cons.mp hv with hv | hv
      · rw [hv]; exact (foldl_max_ge rest z).1
      · exact (foldl_max_ge rest z).2 v hv

theorem detectAnomaly_of_baseline (now : Nat) (d : AnomalyDetector α) (b : Baseline α)
    (dataPoint : List (JSNum α)) (hb : d.baseline = some b) :
    detectAnomaly now d dataPoint =
      ({ isAnomaly := JSNum.gt (JSNum.maxOf (zScores b dataPoint)) (JSNum.fin d.threshold),
         score := JSNum.maxOf (zScores b dataPoint),
         confidence := some (JSNum.min2
           (JSNum.maxOf (zScores b dataPoint) / JSNum.fin d.threshold) (JSNum.fin 1)),
         details := some ((List.zip (zScores b dataPoint)
           (List.range (zScores b dataPoint).length)).map (fun p =>
             { parameter := "param_" ++ toString p.2, zScore := p.1,
               threshold := d.threshold })) },
       { d with dataBuffer := (pushBounded d.windowSize d.dataBuffer
           ({ dataPoint := dataPoint, score := JSNum.maxOf (zScores b dataPoint),
              timestamp := JSNum.fin (now : α), latitude := JSNum.nan,
              longitude := JSNum.nan } : BufferEntry α)) }) := by
  unfold detectAnomaly
  rw [hb]

theorem detectAnomaly_of_no_baseline (now : Nat) (d : AnomalyDetector α)
    (dataPoint : List (JSNum α)) (hb : d.baseline = none) :
    detectAnomaly now d dataPoint =
      ({ isAnomaly := false, score := JSNum.fin 0, confidence := none, details := none }, d) := by
  unfold detectAnomaly
  rw [hb]

theorem getElem?_lt_length {β : Type} (l : List β) (i : Nat) (x : β) (h : l[i]? = some x) :
    i < l.length := by
  by_contra hcon
  rw [List.getElem?_eq_none_iff.mpr (not_lt.mp hcon)] at h
  cases h

/-- The z-scores of a finite sample are finite as soon as each of them is, and inherit
what holds of each. -/
theorem zScores_map_fin (b : Baseline α) (xs : List α) (P : α → Prop)
    (h : ∀ i x, xs[i]? = some x → ∃ z, zScore b (JSNum.fin x) i = JSNum.fin z ∧ P z) :
    ∃ zs : List α, zScores b (xs.map JSNum.fin) = zs.map JSNum.fin ∧ zs.length = xs.length ∧
      (∀ z ∈ zs, P z) := by
  obtain ⟨zs, hzs, hall⟩ := exists_map_fin P (zScores b (xs.map JSNum.fin)) (by
    intro z hz
    obtain ⟨i, x, hx, rfl⟩ := mem_zScores b _ z hz
    rw [List.getElem?_map] at hx
    cases hxi : xs[i]? with
    | none => rw [hxi] at hx; cases hx
    | some v =>
      rw [hxi] at hx
      simp only [Option.map_some', Option.some.injEq] at hx
      obtain ⟨z, hz, hP⟩ := h i v hxi
      exact ⟨z, by rw [← hx, hz], hP⟩)
  refine ⟨zs, hzs, ?_, hall⟩
  have := congrArg List.length hzs
  simpa [zScores_length] using this.symm

/-- The z-scores of a finite sample within the arity of a baseline with finite means are
finite and not negative. -/
theorem zScores_finite (b : Baseline α) (ms xs : List α) (hmean : b.mean = ms.map JSNum.fin)
    (hlen : xs.length ≤ ms.length) :
    ∃ zs : List α, zScores b (xs.map JSNum.fin) = zs.map JSNum.fin ∧ zs.length = xs.length ∧
      (∀ z ∈ zs, 0 ≤ z) := by
  apply zScores_map_fin b xs (fun v => 0 ≤ v)
  intro i x hx
  have hi : i < ms.length := lt_of_lt_of_le (getElem?_lt_length xs i x hx) hlen
  have hm : b.mean[i]? = some (JSNum.fin (ms.get ⟨i, hi⟩)) := by
    rw [hmean, List.getElem?_map, List.getElem?_eq_getElem hi]
    rfl
  obtain ⟨z, hz, hz0, _⟩ := zScore_fin b x _ i hm
  exact ⟨z, hz, hz0⟩

/-- Counterexample to C12 as stated: for the baseline of no parameter, the sample equal to
its (empty) mean vector gets the score `-Infinity`, not 0, under the default threshold. -/
theorem detectAnomaly_empty_mean_score :
    0 < emptyBaselineDetector.threshold ∧
    emptyBaselineDetector.baseline = some { mean := [], std := [] } ∧
    (detectAnomaly 0 emptyBaselineDetector []).1.score = JSNum.ninf ∧
    (detectAnomaly 0 emptyBaselineDetector []).1.score ≠ JSNum.fin 0 := by
  refine ⟨by norm_num [emptyBaselineDetector, AnomalyDetector.new], rfl, rfl, ?_⟩
  intro h
  cases h

/-- C12 (amended): for every baseline of at least one parameter with finite means, whatever
its standard deviations, and every positive threshold, `detectAnomaly` on the sample equal
to the mean vector returns `isAnomaly = false` and `score = 0`. -/
theorem detectAnomaly_mean_sample (now : Nat) (d : AnomalyDetector α) (b : Baseline α)
    (ms : List α) (hb : d.baseline = some b) (hmean : b.mean = ms.map JSNum.fin)
    (hne : ms ≠ []) (hthr : 0 < d.threshold) :
    (detectAnomaly now d b.mean).1.isAnomaly = false ∧
    (detectAnomaly now d b.mean).1.score = JSNum.fin 0 := by
  obtain ⟨zs, hzs, hlen, hall⟩ := zScores_map_fin b ms (fun v => v = 0) (by
    intro i x hx
    have hm : b.mean[i]? = some (JSNum.fin x) := by
      rw [hmean, List.getElem?_map, hx]
      rfl
    obtain ⟨z, hz, _, hz0⟩ := zScore_fin b x x i hm
    exact ⟨z, hz, hz0 rfl⟩)
  have hzne : zs ≠ [] := by
    intro h
    rw [h] at hlen
    exact hne (List.length_eq_zero.mp hlen.symm)
  obtain ⟨m, hmax, hmem, _⟩ := maxOf_map_fin zs hzne
  have hm0 : m = 0 := hall m hmem
  rw [detectAnomaly_of_baseline now d b _ hb, hmean, hzs, hmax, hm0]
  refine ⟨?_, rfl⟩
  simp [JSNum.gt, JSNum.lt, hthr.le]

/-- Witness of C12 (amended): the sample 0 against the baseline of mean 0 and standard
deviation 1. -/
theorem detectAnomaly_mean_sample_witness :
    (detectAnomaly 0 unitDetector [JSNum.fin 0]).1.isAnomaly = false ∧
    (detectAnomaly 0 unitDetector [JSNum.fin 0]).1.score = JSNum.fin 0 :=
  detectAnomaly_mean_sample 0 unitDetector { mean := [JSNum.fin 0], std := [JSNum.fin 1] } [0]
    rfl rfl (by simp) (by norm_num [unitDetector, AnomalyDetector.new])

end DetectorResults

section DetectorScores
variable {α : Type} [LinearOrderedField α]

theorem zScores_nil (b : Baseline α) : zScores b [] = [] := rfl

theorem zScore_succ (b : Baseline α) (x : JSNum α) (i : Nat) :
    zScore b x (i + 1) = zScore { mean := b.mean.tail, std := b.std.tail } x i := by
  simp [zScore, stdOrOne, List.getElem?_tail]

theorem zScores_cons (b : Baseline α) (x : JSNum α) (xs : List (JSNum α)) :
    zScores b (x :: xs) =
      zScore b x 0 :: zScores { mean := b.mean.tail, std := b.std.tail } xs := by
  apply List.ext_getElem?
  intro i
  cases i with
  | zero => simp [zScores_getElem?]
  | succ i =>
    simp only [zScores_getElem?, List.getElem?_cons_succ]
    cases xs[i]? with
    | none => rfl
    | some v => simp [zScore_succ]

end DetectorScores

section DetectorOutliers
variable {α : Type} [LinearOrderedField α]

omit [LinearOrderedField α] in
/-- The entry of `details` at an index: the z-score at that index with its name. -/
theorem details_getElem? (threshold : α) (zs : List (JSNum α)) (i : Nat) :
    ((List.zip zs (List.range zs.length)).map (fun p =>
      ({ parameter := "param_" ++ toString p.2, zScore := p.1, threshold := threshold } :
        ParameterDetail α)))[i]? =
      zs[i]?.map (fun z =>
        ({ parameter := "param_" ++ toString i, zScore := z, threshold := threshold } :
          ParameterDetail α)) := by
  simp only [List.getElem?_map, zip_range_getElem?, Option.map_map]
  rfl

/-- Counterexample to C13 as stated: for a parameter whose baseline standard deviation is 0
the reading `mean + (threshold + 1) * std` is the mean itself; its z-score is 0, below the
threshold 2.5, and the sample is not an anomaly. -/
theorem detectAnomaly_constant_column_quiet :
    (detectAnomaly 0 constantColumnDetector
      [JSNum.fin (0 + (constantColumnDetector.threshold + 1) * 0)]).1.isAnomaly = false ∧
    zScore ({ mean := [JSNum.fin 0], std := [JSNum.fin 0] } : Baseline ℚ)
      (JSNum.fin (0 + (constantColumnDetector.threshold + 1) * 0)) 0 = JSNum.fin 0 ∧
    (0 : ℚ) < constantColumnDetector.threshold := by
  refine ⟨?_, ?_, ?_⟩
  · rw [detectAnomaly_of_baseline 0 constantColumnDetector _ _ rfl]
    simp [zScores_cons, zScores_nil, zScore, stdOrOne, JSNum.truthy, JSNum.maxOf, JSNum.max2,
      JSNum.lt, JSNum.gt, JSNum.abs, JSNum.div_def, JSNum.div, constantColumnDetector,
      AnomalyDetector.new]
    norm_num
  · simp [zScore, stdOrOne, JSNum.truthy, JSNum.abs, JSNum.div_def, JSNum.div]
  · norm_num [constantColumnDetector, AnomalyDetector.new]

end DetectorOutliers

section MaxLemmas
variable {α : Type} [LinearOrderedField α]

theorem JSNum.max2_of_ne_nan (a b : JSNum α) (ha : a ≠ JSNum.nan) (hb : b ≠ JSNum.nan) :
    JSNum.max2 a b = if JSNum.lt a b then b else a := by
  cases a <;> cases b <;> simp_all [JSNum.max2]

theorem JSNum.not_lt_trans (a b c : JSNum α) (hb : b ≠ JSNum.nan)
    (h1 : JSNum.lt c b = false) (h2 : JSNum.lt b a = false) : JSNum.lt c a = false := by
  cases a <;> cases b <;> cases c <;> simp_all [JSNum.lt]
  exact le_trans h2 h1

theorem JSNum.lt_of_lt_of_not_lt (t z m : JSNum α) (hm : m ≠ JSNum.nan)
    (h1 : JSNum.lt t z = true) (h2 : JSNum.lt m z = false) : JSNum.lt t m = true := by
  cases t <;> cases z <;> cases m <;> simp_all [JSNum.lt]
  exact lt_of_lt_of_le h1 h2

theorem JSNum.lt_irrefl (a : JSNum α) : JSNum.lt a a = false := by
  cases a <;> simp [JSNum.lt]

theorem foldl_max2_ge (l : List (JSNum α)) (acc : JSNum α) (hacc : acc ≠ JSNum.nan)
    (hl : JSNum.nan ∉ l) :
    l.foldl JSNum.max2 acc ≠ JSNum.nan ∧
    JSNum.lt (l.foldl JSNum.max2 acc) acc = false ∧
    (∀ z ∈ l, JSNum.lt (l.foldl JSNum.max2 acc) z = false) ∧
    (l.foldl JSNum.max2 acc = acc ∨ l.foldl JSNum.max2 acc ∈ l) := by
  induction l generalizing acc with
  | nil => exact ⟨hacc, JSNum.lt_irrefl acc, by simp, Or.inl rfl⟩
  | cons x xs ih =>
    have hx : x ≠ JSNum.nan := fun h => hl (by simp [h])
    have hxs : JSNum.nan ∉ xs := fun h => hl (List.mem_cons_of_mem _ h)
    have hmax := JSNum.max2_of_ne_nan acc x hacc hx
    have hne : JSNum.max2 acc x ≠ JSNum.nan := by
      rw [hmax]
      split <;> assumption
    have hge1 : JSNum.lt (JSNum.max2 acc x) acc = false := by
      rw [hmax]
      split
      · rename_i h
        cases acc <;> cases x <;> simp_all [JSNum.lt]
        exact h.le
      · exact JSNum.lt_irrefl acc
    have hge2 : JSNum.lt (JSNum.max2 acc x) x = false := by
      rw [hmax]
      split
      · exact JSNum.lt_irrefl x
      · rename_i h
        simpa using h
    obtain ⟨h1, h2, h3, h4⟩ := ih (JSNum.max2 acc x) hne hxs
    simp only [List.foldl_cons]
    refine ⟨h1, JSNum.not_lt_trans _ _ _ hne h2 hge1, ?_, ?_⟩
    · intro z hz
      rcases List.mem_cons.mp hz with h | h
      · rw [h]
        exact JSNum.not_lt_trans _ _ _ hne h2 hge2
      · exact h3 z h
    · rcases h4 with h | h
      · rw [h, hmax]
        split
        · exact Or.inr (List.mem_cons_self _ _)
        · exact Or.inl rfl
      · exact Or.inr (List.mem_cons_of_mem _ h)

/-- The call `Math.max(...xs)` on numbers none of which is `NaN`: a number that none of
them exceeds, and one of them when there is one. -/
theorem maxOf_ge (l : List (JSNum α)) (hl : JSNum.nan ∉ l) :
    JSNum.maxOf l ≠ JSNum.nan ∧ (∀ z ∈ l, JSNum.lt (JSNum.maxOf l) z = false) ∧
    (l ≠ [] → JSNum.maxOf l ∈ l) := by
  obtain ⟨h1, _, h3, h4⟩ := foldl_max2_ge l JSNum.ninf (by simp) hl
  refine ⟨h1, h3, ?_⟩
  intro hne
  rcases h4 with h | h
  · cases l with
    | nil => exact absurd rfl hne
    | cons x xs =>
      have hx : x ≠ JSNum.nan := fun h => hl (by simp [h])
      have hle := h3 x (List.mem_cons_self _ _)
      rw [h] at hle
      have hxn : x = JSNum.ninf := by
        cases x <;> simp_all [JSNum.lt]
      unfold JSNum.maxOf
      rw [h, ← hxn]
      exact List.mem_cons_self _ _
  · exact h

theorem JSNum.abs_div_of_not_neg (a s : JSNum α) (hs : JSNum.lt s (JSNum.fin 0) = false) :
    JSNum.abs (a / s) = JSNum.abs a / s := by
  cases a with
  | nan => cases s <;> rfl
  | ninf =>
    cases s with
    | fin y =>
      have hy : ¬ y < 0 := by simpa [JSNum.lt] using hs
      simp [JSNum.abs, JSNum.div_def, JSNum.div, hy]
    | nan => rfl
    | pinf => rfl
    | ninf => simp [JSNum.lt] at hs
  | pinf =>
    cases s with
    | fin y =>
      have hy : ¬ y < 0 := by simpa [JSNum.lt] using hs
      simp [JSNum.abs, JSNum.div_def, JSNum.div, hy]
    | nan => rfl
    | pinf => rfl
    | ninf => simp [JSNum.lt] at hs
  | fin x =>
    cases s with
    | fin y =>
      have hy : 0 ≤ y := by simpa [JSNum.lt] using hs
      by_cases hy0 : y = 0
      · rcases lt_trichotomy x 0 with hx | hx | hx
        · have hx2 : ¬ 0 < x := not_lt.mpr hx.le
          simp [JSNum.abs, JSNum.div_def, JSNum.div, hy0, hx, hx2, hx.ne]
        · simp [JSNum.abs, JSNum.div_def, JSNum.div, hy0, hx]
        · simp [JSNum.abs, JSNum.div_def, JSNum.div, hy0, hx, hx.ne']
      · simp [JSNum.abs, JSNum.div_def, JSNum.div, hy0, abs_div, abs_of_nonneg hy]
    | nan => rfl
    | pinf => simp [JSNum.abs, JSNum.div_def, JSNum.div]
    | ninf => simp [JSNum.lt] at hs

end MaxLemmas

section DetectorFlags
variable {α : Type} [LinearOrderedField α]

theorem JSNum.lt_asymm (a b : JSNum α) (h : JSNum.lt a b = true) : JSNum.lt b a = false := by
  cases a <;> cases b <;> simp_all [JSNum.lt]
  exact h.le

theorem JSNum.ne_nan_of_lt (a b : JSNum α) (h : JSNum.lt a b = true) : b ≠ JSNum.nan := by
  cases a <;> cases b <;> simp_all [JSNum.lt]

/-- C13 (amended): with a baseline set, on a sample none of whose z-scores is `NaN`, a
parameter `i` whose z-score, as `detectAnomaly` computes it, is above the threshold makes
the result `isAnomaly = true`, and the detail of parameter `i` carries that z-score, which
is not below the threshold.  When the baseline standard deviation of parameter `i` is zero
the reading `mean_i + (threshold + ε) * std_i` is no such reading: its z-score is 0. -/
theorem detectAnomaly_flags_outlier (now : Nat) (d : AnomalyDetector α) (b : Baseline α)
    (dataPoint : List (JSNum α)) (i : Nat) (x : JSNum α)
    (hb : d.baseline = some b) (hnan : JSNum.nan ∉ zScores b dataPoint)
    (hx : dataPoint[i]? = some x)
    (hz : JSNum.gt (zScore b x i) (JSNum.fin d.threshold) = true) :
    (detectAnomaly now d dataPoint).1.isAnomaly = true ∧
    (∃ ds, (detectAnomaly now d dataPoint).1.details = some ds ∧
      ds[i]? = some { parameter := "param_" ++ toString i, zScore := zScore b x i,
                      threshold := d.threshold }) ∧
    zScore b x i ≠ JSNum.nan ∧
    JSNum.lt (zScore b x i) (JSNum.fin d.threshold) = false ∧
    (∀ m ε : α, b.mean[i]? = some (JSNum.fin m) → b.std[i]? = some (JSNum.fin 0) →
      zScore b (JSNum.fin (m + (d.threshold + ε) * 0)) i = JSNum.fin 0) := by
  have hzi : (zScores b dataPoint)[i]? = some (zScore b x i) := by
    rw [zScores_getElem?, hx]
    rfl
  obtain ⟨hne, hge, _⟩ := maxOf_ge (zScores b dataPoint) hnan
  have hmax : JSNum.lt (JSNum.fin d.threshold) (JSNum.maxOf (zScores b dataPoint)) = true :=
    JSNum.lt_of_lt_of_not_lt _ _ _ hne hz (hge _ (List.getElem?_mem hzi))
  rw [detectAnomaly_of_baseline now d b _ hb]
  refine ⟨hmax, ⟨_, rfl, ?_⟩, JSNum.ne_nan_of_lt _ _ hz, JSNum.lt_asymm _ _ hz, ?_⟩
  · rw [details_getElem?, hzi]
    rfl
  · intro m ε hm hs
    simp [zScore, stdOrOne, hm, hs, JSNum.truthy, JSNum.abs,
      JSNum.fin_div_fin _ _ (one_ne_zero : (1 : α) ≠ 0)]

/-- Witness of C13 (amended): the reading 3.5 against mean 0, standard deviation 1 and
threshold 2.5. -/
theorem detectAnomaly_flags_outlier_witness :
    zScore ({ mean := [JSNum.fin 0], std := [JSNum.fin 1] } : Baseline ℚ)
      (JSNum.fin (7 / 2)) 0 = JSNum.fin (7 / 2) ∧
    (detectAnomaly 0 unitDetector [JSNum.fin (7 / 2)]).1.isAnomaly = true :=
  ⟨by
      simp [zScore, stdOrOne, JSNum.truthy, JSNum.abs,
        JSNum.fin_div_fin _ _ (one_ne_zero : (1 : ℚ) ≠ 0)]
      norm_num,
    (detectAnomaly_flags_outlier 0 unitDetector { mean := [JSNum.fin 0], std := [JSNum.fin 1] }
      [JSNum.fin (7 / 2)] 0 (JSNum.fin (7 / 2)) rfl
      (by
        simp [zScores_cons, zScores_nil, zScore, stdOrOne, JSNum.truthy, JSNum.abs,
          JSNum.fin_div_fin _ _ (one_ne_zero : (1 : ℚ) ≠ 0)])
      rfl
      (by
        simp [zScore, stdOrOne, JSNum.truthy, JSNum.abs, JSNum.gt, JSNum.lt, unitDetector,
          AnomalyDetector.new, JSNum.fin_div_fin _ _ (one_ne_zero : (1 : ℚ) ≠ 0)]
        rw [abs_of_pos (by norm_num : (0 : ℚ) < 7 / 2)]
        norm_num)).1⟩

end DetectorFlags

section DetectorRefinement
variable {α : Type} [LinearOrderedField α]

/-- The z-score of the code on finite data with a standard deviation that is not negative
is the z-score of the specification. -/
theorem zScore_eq_spec (b : Baseline α) (x m s : α) (i : Nat)
    (hm : b.mean[i]? = some (JSNum.fin m)) (hs : b.std[i]? = some (JSNum.fin s))
    (hs0 : 0 ≤ s) : zScore b (JSNum.fin x) i = JSNum.fin (specZScore x m s) := by
  by_cases h : s = 0
  · simp [zScore, stdOrOne, hm, hs, JSNum.truthy, h, specZScore,
      JSNum.fin_div_fin _ _ (one_ne_zero : (1 : α) ≠ 0)]
  · have hpos : 0 < s := lt_of_le_of_ne hs0 (Ne.symm h)
    simp [zScore, stdOrOne, hm, hs, JSNum.truthy, h, specZScore, JSNum.fin_div_fin _ _ h,
      abs_div, abs_of_pos hpos]

theorem stdOrOne_eq_guardedStd (std : List (JSNum α)) (i : Nat) (s : JSNum α)
    (hs : std[i]? = some s) : stdOrOne std i = guardedStd s := by
  unfold stdOrOne
  rw [List.get?_eq_getElem?, hs]
  cases s with
  | nan => rfl
  | ninf => rfl
  | pinf => rfl
  | fin v =>
    by_cases hv : v = 0
    · simp [JSNum.truthy, guardedStd, hv]
    · simp [JSNum.truthy, guardedStd, hv]

theorem guardedStd_not_neg (s : JSNum α) (hs : JSNum.lt s (JSNum.fin 0) = false) :
    JSNum.lt (guardedStd s) (JSNum.fin 0) = false := by
  cases s with
  | nan => simp [guardedStd, JSNum.lt]
  | ninf => simp [JSNum.lt] at hs
  | pinf => simp [guardedStd, JSNum.lt]
  | fin v =>
    by_cases hv : v = 0
    · simp [guardedStd, hv, JSNum.lt]
    · simpa [guardedStd, hv] using hs

theorem zScore_eq_guarded (b : Baseline α) (x m s : JSNum α) (i : Nat)
    (hm : b.mean[i]? = some m) (hs : b.std[i]? = some s)
    (hs0 : JSNum.lt s (JSNum.fin 0) = false) :
    zScore b x i = JSNum.abs (x - m) / guardedStd s := by
  unfold zScore
  simp only [List.get?_eq_getElem?, hm, Option.getD_some, stdOrOne_eq_guardedStd b.std i s hs]
  exact JSNum.abs_div_of_not_neg _ _ (guardedStd_not_neg s hs0)

theorem guardedZScores_length (xs ms ss : List (JSNum α)) (hms : ms.length = xs.length)
    (hss : ss.length = xs.length) : (guardedZScores xs ms ss).length = xs.length := by
  induction xs generalizing ms ss with
  | nil => simp [guardedZScores]
  | cons x xs ih =>
    cases ms with
    | nil => simp at hms
    | cons m ms =>
      cases ss with
      | nil => simp at hss
      | cons s ss =>
        simp only [List.length_cons, add_left_inj] at hms hss
        simp [guardedZScores, ih ms ss hms hss]

theorem guardedZScores_getElem? (xs ms ss : List (JSNum α)) (i : Nat) (x m s : JSNum α)
    (hx : xs[i]? = some x) (hm : ms[i]? = some m) (hs : ss[i]? = some s) :
    (guardedZScores xs ms ss)[i]? = some (JSNum.abs (x - m) / guardedStd s) := by
  induction xs generalizing ms ss i with
  | nil => simp at hx
  | cons x0 xs ih =>
    cases ms with
    | nil => simp at hm
    | cons m0 ms =>
      cases ss with
      | nil => simp at hs
      | cons s0 ss =>
        cases i with
        | zero =>
          simp only [List.getElem?_cons_zero, Option.some.injEq] at hx hm hs
          simp [guardedZScores, hx, hm, hs]
        | succ i =>
          simp only [List.getElem?_cons_succ] at hx hm hs
          simpa [guardedZScores] using ih ms ss i hx hm hs

theorem zScores_eq_guarded (b : Baseline α) (xs : List (JSNum α))
    (hms : b.mean.length = xs.length) (hss : b.std.length = xs.length)
    (hstd : ∀ s ∈ b.std, JSNum.lt s (JSNum.fin 0) = false) :
    zScores b xs = guardedZScores xs b.mean b.std := by
  obtain ⟨ms, ss⟩ := b
  simp only at hms hss hstd ⊢
  induction xs generalizing ms ss with
  | nil => simp [guardedZScores, zScores_nil]
  | cons x xs ih =>
    cases ms with
    | nil => simp at hms
    | cons m ms =>
      cases ss with
      | nil => simp at hss
      | cons s ss =>
        simp only [List.length_cons, add_left_inj] at hms hss
        have hrest := ih ms ss hms hss (fun t ht => hstd t (List.mem_cons_of_mem s ht))
        have hhead := zScore_eq_guarded ({ mean := m :: ms, std := s :: ss } : Baseline α)
          x m s 0 (by simp) (by simp) (hstd s (List.mem_cons_self s ss))
        simp only [zScores_cons, List.tail_cons, guardedZScores]
        rw [hhead, hrest]

end DetectorRefinement

section DetectorEdges
variable {α : Type} [LinearOrderedField α]

/-- Counterexample to C15 as stated: on the empty sample the confidence is `-Infinity`, and
under the configured threshold -1 the reading 1 against mean 0 and standard deviation 1
gets the confidence -1. -/
theorem detectAnomaly_confidence_out_of_range :
    (detectAnomaly 0 unitDetector []).1.confidence = some JSNum.ninf ∧
    (detectAnomaly 0 negativeThresholdDetector [JSNum.fin 1]).1.confidence
      = some (JSNum.fin (-1)) ∧
    ¬ ((0 : ℚ) ≤ -1) := by
  refine ⟨?_, ?_, by norm_num⟩
  · have hneg : ¬ ((25 : ℚ) / 10 < 0) := by norm_num
    rw [detectAnomaly_of_baseline 0 unitDetector _ _ rfl]
    simp [zScores_nil, JSNum.maxOf, JSNum.div_def, JSNum.div, JSNum.min2, JSNum.lt,
      unitDetector, AnomalyDetector.new, hneg]
  · rw [detectAnomaly_of_baseline 0 negativeThresholdDetector _ _ rfl]
    simp [zScores_cons, zScores_nil, zScore, stdOrOne, JSNum.truthy, JSNum.maxOf, JSNum.max2,
      JSNum.lt, JSNum.abs, JSNum.div_def, JSNum.div, JSNum.min2, negativeThresholdDetector]

/-- C15 (amended): with a baseline of finite means set and a positive threshold, on every
non-empty finite sample within the baseline's arity the confidence returned by
`detectAnomaly` is a finite number of the closed interval from 0 to 1. -/
theorem detectAnomaly_confidence_range (now : Nat) (d : AnomalyDetector α) (b : Baseline α)
    (ms xs : List α) (hb : d.baseline = some b) (hmean : b.mean = ms.map JSNum.fin)
    (hlen : xs.length ≤ ms.length) (hne : xs ≠ []) (hthr : 0 < d.threshold) :
    ∃ c : α, (detectAnomaly now d (xs.map JSNum.fin)).1.confidence = some (JSNum.fin c) ∧
      0 ≤ c ∧ c ≤ 1 := by
  obtain ⟨zs, hzs, hzlen, hpos⟩ := zScores_finite b ms xs hmean hlen
  have hzne : zs ≠ [] := by
    intro h
    rw [h] at hzlen
    exact hne (List.length_eq_zero.mp hzlen.symm)
  obtain ⟨m, hmax, hmem, _⟩ := maxOf_map_fin zs hzne
  refine ⟨min (m / d.threshold) 1, ?_, ?_, min_le_right _ _⟩
  · rw [detectAnomaly_of_baseline now d b _ hb, hzs, hmax]
    simp only [JSNum.fin_div_fin _ _ hthr.ne', JSNum.min2_fin_fin]
  · exact le_min (div_nonneg (hpos m hmem) hthr.le) zero_le_one

/-- Witness of C15 (amended): the reading 5 against mean 0 and standard deviation 1. -/
theorem detectAnomaly_confidence_range_witness :
    ∃ c : ℚ, (detectAnomaly 0 unitDetector [JSNum.fin 5]).1.confidence = some (JSNum.fin c) ∧
      0 ≤ c ∧ c ≤ 1 :=
  detectAnomaly_confidence_range 0 unitDetector { mean := [JSNum.fin 0], std := [JSNum.fin 1] }
    [0] [5] rfl rfl (le_refl _) (by simp) (by norm_num [unitDetector, AnomalyDetector.new])

/-- C16, evaluated on the code: without a baseline `detectAnomaly` returns an object with
`isAnomaly = false` and `score = 0` only; it has no `confidence` and no `details`, which
the other return of the method provides. -/
theorem detectAnomaly_no_baseline_partial :
    (AnomalyDetector.new : AnomalyDetector ℚ).baseline = none ∧
    (detectAnomaly 0 (AnomalyDetector.new : AnomalyDetector ℚ) [JSNum.fin 1]).1 =
      { isAnomaly := false, score := JSNum.fin 0, confidence := none, details := none } ∧
    (detectAnomaly 0 (AnomalyDetector.new : AnomalyDetector ℚ) [JSNum.fin 1]).1.confidence
      ≠ some (JSNum.fin 0) ∧
    (∃ ds, (detectAnomaly 0 unitDetector [JSNum.fin 1]).1.details = some ds ∧
      (detectAnomaly 0 unitDetector [JSNum.fin 1]).1.confidence ≠ none) := by
  refine ⟨rfl, rfl, ?_, ?_⟩
  · intro h
    cases h
  · rw [detectAnomaly_of_baseline 0 unitDetector _ _ rfl]
    exact ⟨_, rfl, fun h => by cases h⟩

theorem zScores_nan_mem (b : Baseline α) (dataPoint : List (JSNum α)) (i : Nat)
    (x : JSNum α) (hx : dataPoint[i]? = some x) (hz : zScore b x i = JSNum.nan) :
    JSNum.nan ∈ zScores b dataPoint := by
  apply List.getElem?_mem (n := i)
  rw [zScores_getElem?, hx, Option.map_some', hz]

/-- The result of `detectAnomaly` when one z-score is `NaN`. -/
theorem detectAnomaly_of_nan_zScore (now : Nat) (d : AnomalyDetector α) (b : Baseline α)
    (dataPoint : List (JSNum α)) (hb : d.baseline = some b)
    (h : JSNum.nan ∈ zScores b dataPoint) :
    (detectAnomaly now d dataPoint).1.isAnomaly = false ∧
    (detectAnomaly now d dataPoint).1.score = JSNum.nan ∧
    (detectAnomaly now d dataPoint).1.confidence = some JSNum.nan := by
  rw [detectAnomaly_of_baseline now d b _ hb, maxOf_of_nan_mem _ h]
  refine ⟨rfl, rfl, ?_⟩
  simp [JSNum.min2]

/-- Counterexample to C17 as stated: the sample whose only reading is `NaN` is reported
`isAnomaly = false`. -/
theorem detectAnomaly_quiet_on_nan :
    unitDetector.baseline ≠ none ∧
    (detectAnomaly 0 unitDetector [JSNum.nan]).1.isAnomaly = false := by
  refine ⟨by simp [unitDetector], ?_⟩
  exact (detectAnomaly_of_nan_zScore 0 unitDetector _ [JSNum.nan] rfl
    (zScores_nan_mem _ [JSNum.nan] 0 JSNum.nan rfl (zScore_nan _ 0))).1

/-- C17 (amended): with a baseline set, a sample that contains a malformed reading (`NaN`
or `undefined`) in any position is reported `isAnomaly = false`, with score `NaN` and
confidence `NaN`: the `NaN` score is compared as it is, and `NaN > threshold` is false. -/
theorem detectAnomaly_nan_reading (now : Nat) (d : AnomalyDetector α) (b : Baseline α)
    (dataPoint : List (JSNum α)) (hb : d.baseline = some b) (hnan : JSNum.nan ∈ dataPoint) :
    (detectAnomaly now d dataPoint).1.isAnomaly = false ∧
    (detectAnomaly now d dataPoint).1.score = JSNum.nan ∧
    (detectAnomaly now d dataPoint).1.confidence = some JSNum.nan := by
  obtain ⟨i, hi⟩ := List.getElem?_of_mem hnan
  exact detectAnomaly_of_nan_zScore now d b dataPoint hb
    (zScores_nan_mem b dataPoint i JSNum.nan hi (zScore_nan b i))

/-- Witness of C17 (amended): a `NaN` second reading next to an extreme first one. -/
theorem detectAnomaly_nan_reading_witness :
    (detectAnomaly 0 twoParameterDetector [JSNum.fin 1000, JSNum.nan]).1.isAnomaly = false :=
  (detectAnomaly_nan_reading 0 twoParameterDetector _ [JSNum.fin 1000, JSNum.nan] rfl
    (by simp)).1

end DetectorEdges

section DetectorArity
variable {α : Type} [LinearOrderedField α]

theorem zScores_take (b : Baseline α) (dataPoint : List (JSNum α)) :
    zScores { mean := b.mean.take dataPoint.length, std := b.std.take dataPoint.length }
      dataPoint = zScores b dataPoint := by
  apply List.ext_getElem?
  intro i
  rw [zScores_getElem?, zScores_getElem?]
  cases hx : dataPoint[i]? with
  | none => rfl
  | some x =>
    have hi : i < dataPoint.length := getElem?_lt_length dataPoint i x hx
    simp [zScore, stdOrOne, List.getElem?_take_of_lt hi]

/-- Counterexample to C18 as stated: against a baseline of two parameters, a sample of one
reading and a sample of three readings both get an ordinary result; no failure is raised. -/
theorem detectAnomaly_arity_mismatch_result :
    ([JSNum.fin 5] : List (JSNum ℚ)).length ≠ 2 ∧
    (detectAnomaly 0 twoParameterDetector [JSNum.fin 5]).1.isAnomaly = true ∧
    (detectAnomaly 0 twoParameterDetector [JSNum.fin 5]).1.score = JSNum.fin 5 ∧
    ([JSNum.fin 0, JSNum.fin 0, JSNum.fin 0] : List (JSNum ℚ)).length ≠ 2 ∧
    (detectAnomaly 0 twoParameterDetector [JSNum.fin 0, JSNum.fin 0, JSNum.fin 0]).1.isAnomaly
      = false ∧
    (detectAnomaly 0 twoParameterDetector [JSNum.fin 0, JSNum.fin 0, JSNum.fin 0]).1.score
      = JSNum.nan := by
  have hthr : (25 : ℚ) / 10 < 5 := by norm_num
  refine ⟨by simp, ?_, ?_, by simp, ?_, ?_⟩
  · rw [detectAnomaly_of_baseline 0 twoParameterDetector _ _ rfl]
    simp [zScores_cons, zScores_nil, zScore, stdOrOne, JSNum.truthy, JSNum.maxOf, JSNum.max2,
      JSNum.lt, JSNum.gt, JSNum.abs, JSNum.div_def, JSNum.div, twoParameterDetector,
      AnomalyDetector.new, hthr]
  · rw [detectAnomaly_of_baseline 0 twoParameterDetector _ _ rfl]
    simp [zScores_cons, zScores_nil, zScore, stdOrOne, JSNum.truthy, JSNum.maxOf, JSNum.max2,
      JSNum.lt, JSNum.abs, JSNum.div_def, JSNum.div]
  · exact (detectAnomaly_of_nan_zScore 0 twoParameterDetector _ _ rfl
      (zScores_nan_mem _ [JSNum.fin 0, JSNum.fin 0, JSNum.fin 0] 2 (JSNum.fin 0) rfl
        (zScore_of_mean_none _ _ 2 rfl))).1
  · exact (detectAnomaly_of_nan_zScore 0 twoParameterDetector _ _ rfl
      (zScores_nan_mem _ [JSNum.fin 0, JSNum.fin 0, JSNum.fin 0] 2 (JSNum.fin 0) rfl
        (zScore_of_mean_none _ _ 2 rfl))).2.1

/-- C18 (amended): `detectAnomaly` does not compare the arity of the sample with that of
the baseline and returns a result with one detail per reading of the sample.  When the
sample is longer than the baseline's mean vector the readings beyond it have z-score `NaN`,
so the score is `NaN` and `isAnomaly = false`; when it is shorter the result is the one
for the baseline cut to the sample's length. -/
theorem detectAnomaly_arity_unchecked (now : Nat) (d : AnomalyDetector α) (b : Baseline α)
    (dataPoint : List (JSNum α)) (hb : d.baseline = some b) :
    (∃ ds, (detectAnomaly now d dataPoint).1.details = some ds ∧
      ds.length = dataPoint.length) ∧
    (b.mean.length < dataPoint.length →
      (detectAnomaly now d dataPoint).1.isAnomaly = false ∧
      (detectAnomaly now d dataPoint).1.score = JSNum.nan) ∧
    (dataPoint.length < b.mean.length →
      (detectAnomaly now d dataPoint).1 =
        (detectAnomaly now
          { d with baseline := some { mean := b.mean.take dataPoint.length,
                                      std := b.std.take dataPoint.length } } dataPoint).1) := by
  refine ⟨?_, ?_, ?_⟩
  · rw [detectAnomaly_of_baseline now d b _ hb]
    exact ⟨_, rfl, by simp [zScores_length]⟩
  · intro hlong
    have hx : dataPoint[b.mean.length]? = some (dataPoint.get ⟨b.mean.length, hlong⟩) :=
      List.getElem?_eq_getElem hlong
    have hnan := zScores_nan_mem b dataPoint b.mean.length _ hx
      (zScore_of_mean_none b _ _ (List.getElem?_eq_none_iff.mpr (le_refl _)))
    exact ⟨(detectAnomaly_of_nan_zScore now d b dataPoint hb hnan).1,
      (detectAnomaly_of_nan_zScore now d b dataPoint hb hnan).2.1⟩
  · intro _
    rw [detectAnomaly_of_baseline now d b _ hb,
      detectAnomaly_of_baseline now _ _ _ rfl, zScores_take]

/-- Witness of C18 (amended): three readings against the baseline of two parameters. -/
theorem detectAnomaly_arity_unchecked_witness :
    (detectAnomaly 0 twoParameterDetector
      [JSNum.fin 0, JSNum.fin 0, JSNum.fin 0]).1.score = JSNum.nan :=
  ((detectAnomaly_arity_unchecked 0 twoParameterDetector _
    [JSNum.fin 0, JSNum.fin 0, JSNum.fin 0] rfl).2.1 (by decide)).2

end DetectorArity

section DetectorWindow
variable {α : Type} [LinearOrderedField α]

omit [LinearOrderedField α] in
theorem pushBounded_length_le (windowSize : Nat) (buffer : List (BufferEntry α))
    (e : BufferEntry α) (h : buffer.length ≤ windowSize) :
    (pushBounded windowSize buffer e).length ≤ windowSize := by
  unfold pushBounded
  simp only
  split
  · simp
    omega
  · rename_i hgt
    exact not_lt.mp hgt

theorem detectAnomaly_window (now : Nat) (d : AnomalyDetector α) (dataPoint : List (JSNum α))
    (h : d.dataBuffer.length ≤ d.windowSize) :
    (detectAnomaly now d dataPoint).2.windowSize = d.windowSize ∧
    (detectAnomaly now d dataPoint).2.dataBuffer.length ≤ d.windowSize := by
  cases hb : d.baseline with
  | none =>
    rw [detectAnomaly_of_no_baseline now d dataPoint hb]
    exact ⟨rfl, h⟩
  | some b =>
    rw [detectAnomaly_of_baseline now d b dataPoint hb]
    exact ⟨rfl, pushBounded_length_le _ _ _ h⟩

theorem runCalls_window (calls : List (DetectorCall α)) :
    ∀ d : AnomalyDetector α, d.dataBuffer.length ≤ d.windowSize →
      (runCalls d calls).windowSize = d.windowSize ∧
      (runCalls d calls).dataBuffer.length ≤ d.windowSize := by
  induction calls with
  | nil => intro d h; exact ⟨rfl, h⟩
  | cons call rest ih =>
    intro d h
    have hstep : (DetectorCall.run d call).windowSize = d.windowSize ∧
        (DetectorCall.run d call).dataBuffer.length ≤ d.windowSize := by
      cases call with
      | setBaseline b => exact ⟨rfl, h⟩
      | detectAnomaly now dataPoint => exact detectAnomaly_window now d dataPoint h
    have hrest := ih (DetectorCall.run d call) (by rw [hstep.1]; exact hstep.2)
    rw [hstep.1] at hrest
    simpa [runCalls] using hrest

/-- C20: from a fresh detector with window size `W`, after any run of `setBaseline` and
`detectAnomaly` calls the buffer holds at most `W` elements; from the detector the
constructor builds, at most 50. -/
theorem dataBuffer_length_le_windowSize (W : Nat) (calls : List (DetectorCall α)) :
    (runCalls { (AnomalyDetector.new : AnomalyDetector α) with windowSize := W }
      calls).dataBuffer.length ≤ W ∧
    (runCalls (AnomalyDetector.new : AnomalyDetector α) calls).dataBuffer.length ≤ 50 :=
  ⟨(runCalls_window calls
      { (AnomalyDetector.new : AnomalyDetector α) with windowSize := W }
      (Nat.zero_le _)).2,
    (runCalls_window calls (AnomalyDetector.new : AnomalyDetector α) (Nat.zero_le _)).2⟩

end DetectorWindow

/-! ## Properties of the baseline fit -/

section FitLemmas

open JSNum

theorem columnMean_length (rows : List (List (JSNum ℝ))) :
    (columnMean rows).length = (rows.head?.getD []).length := by
  simp [columnMean]

theorem columnStd_length (rows : List (List (JSNum ℝ))) :
    (columnStd rows).length = (rows.head?.getD []).length := by
  simp [columnStd]

theorem columnMean_single (vs : List ℝ) : columnMean [vs.map fin] = vs.map fin := by
  apply List.ext_getElem?
  intro i
  simp only [columnMean, matrixColumn, List.head?_cons, Option.getD_some, List.length_map,
    List.map_cons, List.map_nil, List.foldl_cons, List.foldl_nil, List.length_singleton,
    Nat.cast_one, List.getElem?_map]
  by_cases hi : i < vs.length
  · rw [List.getElem?_range hi, List.getElem?_eq_getElem hi]
    simp [List.getD_eq_getElem?_getD, List.getElem?_eq_getElem hi,
      JSNum.fin_div_fin _ _ (one_ne_zero : (1 : ℝ) ≠ 0)]
  · have h1 : (List.range vs.length)[i]? = none := by
      apply List.getElem?_eq_none_iff.mpr
      simpa using not_lt.mp hi
    rw [h1, List.getElem?_eq_none_iff.mpr (not_lt.mp hi)]
    rfl

theorem columnStd_single (vs : List ℝ) :
    columnStd [vs.map fin] = vs.map (fun _ => (nan : JSNum ℝ)) := by
  apply List.ext_getElem?
  intro i
  simp only [columnStd, matrixColumn, List.head?_cons, Option.getD_some, List.length_map,
    List.map_cons, List.map_nil, List.foldl_cons, List.foldl_nil, List.length_singleton,
    Nat.cast_one, List.getElem?_map]
  by_cases hi : i < vs.length
  · rw [List.getElem?_range hi, List.getElem?_eq_getElem hi]
    simp [List.getD_eq_getElem?_getD, List.getElem?_eq_getElem hi,
      JSNum.fin_div_fin _ _ (one_ne_zero : (1 : ℝ) ≠ 0), JSNum.div_def, JSNum.div]
  · have h1 : (List.range vs.length)[i]? = none := by
      apply List.getElem?_eq_none_iff.mpr
      simpa using not_lt.mp hi
    rw [h1, List.getElem?_eq_none_iff.mpr (not_lt.mp hi)]
    rfl

theorem foldl_add_fin (l : List ℝ) (a : ℝ) :
    (l.map fin).foldl (fun sum x => sum + x) (fin a) = fin (l.foldl (fun s x => s + x) a) := by
  induction l generalizing a with
  | nil => rfl
  | cons x xs ih => simp [List.foldl_cons, ih]

theorem foldl_sq_fin (l : List ℝ) (μ a : ℝ) :
    (l.map fin).foldl (fun sum x => sum + (x - fin μ) * (x - fin μ)) (fin a) =
      fin (l.foldl (fun s x => s + (x - μ) * (x - μ)) a) := by
  induction l generalizing a with
  | nil => rfl
  | cons x xs ih => simp [List.foldl_cons, ih]

theorem foldl_sq_nonneg (l : List ℝ) (μ a : ℝ) (ha : 0 ≤ a) :
    0 ≤ l.foldl (fun s x => s + (x - μ) * (x - μ)) a := by
  induction l generalizing a with
  | nil => exact ha
  | cons x xs ih =>
    rw [List.foldl_cons]
    exact ih _ (add_nonneg ha (mul_self_nonneg _))

theorem matrixColumn_fin (vss : List (List ℝ)) (j : Nat) (h : ∀ vs ∈ vss, j < vs.length) :
    matrixColumn (vss.map (List.map fin)) j = (vss.map (fun vs => vs.getD j 0)).map fin := by
  simp only [matrixColumn, List.map_map]
  apply List.map_congr_left
  intro vs hvs
  have hj := h vs hvs
  simp [List.getD_eq_getElem?_getD, List.getElem?_eq_getElem hj]

/-- On two or more finite samples of one arity the fitted means and standard deviations are
finite, and the standard deviations are not negative. -/
theorem fit_finite (vs : List ℝ) (vss : List (List ℝ)) (hne : vss ≠ [])
    (hrect : ∀ ws ∈ vss, ws.length = vs.length) :
    ∃ means stds : List ℝ,
      columnMean ((vs :: vss).map (List.map fin)) = means.map fin ∧
      columnStd ((vs :: vss).map (List.map fin)) = stds.map fin ∧
      means.length = vs.length ∧ stds.length = vs.length ∧ ∀ s ∈ stds, 0 ≤ s := by
  have hlenpos : (0 : ℝ) < vss.length := by exact_mod_cast List.length_pos.mpr hne
  have hn : ((vs :: vss).length : ℝ) ≠ 0 := by
    simp only [List.length_cons]
    push_cast
    linarith
  have hn1 : ((vs :: vss).length : ℝ) - 1 ≠ 0 := by
    simp only [List.length_cons]
    push_cast
    linarith
  have hn1pos : 0 ≤ ((vs :: vss).length : ℝ) - 1 := by
    simp only [List.length_cons]
    push_cast
    linarith
  have hcol : ∀ j, j < vs.length →
      matrixColumn ((vs :: vss).map (List.map fin)) j =
        ((vs :: vss).map (fun ws => ws.getD j 0)).map fin := by
    intro j hj
    apply matrixColumn_fin
    intro ws hws
    rcases List.mem_cons.mp hws with h | h
    · rw [h]; exact hj
    · rw [hrect ws h]; exact hj
  obtain ⟨means, hmeans, _⟩ := exists_map_fin (fun _ => True)
    (columnMean ((vs :: vss).map (List.map fin))) (by
      intro z hz
      simp only [columnMean, List.map_cons, List.head?_cons, Option.getD_some,
        List.length_map, List.mem_map, List.mem_range] at hz
      obtain ⟨j, hj, rfl⟩ := hz
      have := hcol j hj
      simp only [List.map_cons] at this
      simp only [List.length_cons, List.length_map] at hn ⊢
      rw [this, ← List.map_cons, foldl_add_fin, JSNum.fin_div_fin _ _ hn]
      exact ⟨_, rfl, trivial⟩)
  obtain ⟨stds, hstds, hpos⟩ := exists_map_fin (fun s => 0 ≤ s)
    (columnStd ((vs :: vss).map (List.map fin))) (by
      intro z hz
      simp only [columnStd, List.map_cons, List.head?_cons, Option.getD_some,
        List.length_map, List.mem_map, List.mem_range] at hz
      obtain ⟨j, hj, rfl⟩ := hz
      have := hcol j hj
      simp only [List.map_cons] at this
      simp only [List.length_cons, List.length_map] at hn hn1 hn1pos ⊢
      rw [this, ← List.map_cons, foldl_add_fin, JSNum.fin_div_fin _ _ hn, foldl_sq_fin,
        JSNum.fin_div_fin _ _ hn1, JSNum.sqrt_fin _
          (div_nonneg (foldl_sq_nonneg _ _ _ (le_refl 0)) hn1pos)]
      exact ⟨_, rfl, Real.sqrt_nonneg _⟩)
  refine ⟨means, stds, hmeans, hstds, ?_, ?_, hpos⟩
  · have := congrArg List.length hmeans
    simpa [columnMean_length] using this.symm
  · have := congrArg List.length hstds
    simpa [columnStd_length] using this.symm

/-- Counterexample to C19 as stated: `setBaseline` on a training set of one sample does not
fail; it installs a baseline whose means are the sample and whose standard deviations are
`NaN`. -/
theorem setBaseline_single_sample :
    ([[fin 1, fin 2]] : List (List (JSNum ℝ))).length < 2 ∧
    (AnomalyDetector.new : AnomalyDetector ℝ).baseline = none ∧
    (setBaseline AnomalyDetector.new [[fin 1, fin 2]]).baseline =
      some { mean := [fin 1, fin 2], std := [nan, nan] } := by
  refine ⟨by simp, rfl, ?_⟩
  have hmean := columnMean_single [1, 2]
  have hstd := columnStd_single [1, 2]
  simp only [List.map_cons, List.map_nil] at hmean hstd
  simp only [setBaseline, hmean, hstd]

/-- C19 (amended): `setBaseline` checks no sample count.  On a training set of one or more
samples it installs a baseline with one mean and one standard deviation per column of the
first sample and writes no other field; with a single sample of finite readings the means
are the sample itself and every standard deviation is `NaN`; with two or more finite
samples of one arity the means and the standard deviations are finite, the latter not
negative. -/
theorem setBaseline_unchecked (d : AnomalyDetector ℝ) (row : List (JSNum ℝ))
    (rest : List (List (JSNum ℝ))) :
    ∃ b : Baseline ℝ, (setBaseline d (row :: rest)).baseline = some b ∧
      b.mean.length = row.length ∧ b.std.length = row.length ∧
      (setBaseline d (row :: rest)).threshold = d.threshold ∧
      (setBaseline d (row :: rest)).windowSize = d.windowSize ∧
      (setBaseline d (row :: rest)).dataBuffer = d.dataBuffer ∧
      (∀ vs : List ℝ, rest = [] → row = vs.map fin →
        b.mean = row ∧ b.std = vs.map (fun _ => (nan : JSNum ℝ))) ∧
      (∀ (vs : List ℝ) (vss : List (List ℝ)), vss ≠ [] → row = vs.map fin →
        rest = vss.map (List.map fin) → (∀ ws ∈ vss, ws.length = vs.length) →
        ∃ means stds : List ℝ, b.mean = means.map fin ∧ b.std = stds.map fin ∧
          ∀ s ∈ stds, 0 ≤ s) := by
  refine ⟨_, rfl, by simp [columnMean_length], by simp [columnStd_length], rfl, rfl, rfl,
    ?_, ?_⟩
  · intro vs hrest hrow
    subst hrest
    subst hrow
    exact ⟨columnMean_single vs, columnStd_single vs⟩
  · intro vs vss hne hrow hrest hrect
    subst hrow
    subst hrest
    obtain ⟨means, stds, hmeans, hstds, _, _, hpos⟩ := fit_finite vs vss hne hrect
    exact ⟨means, stds, hmeans, hstds, hpos⟩

theorem JSNum.sqrt_not_neg (x : JSNum ℝ) : JSNum.lt (JSNum.sqrt x) (JSNum.fin 0) = false := by
  cases x with
  | nan => rfl
  | ninf => rfl
  | pinf => rfl
  | fin v =>
    by_cases hv : v < 0
    · simp [JSNum.sqrt, hv, JSNum.lt]
    · simp [JSNum.sqrt, hv, JSNum.lt, Real.sqrt_nonneg]

/-- No standard deviation that `setBaseline` installs is negative: each is a square root,
so `NaN`, an infinity or a value that is at least 0. -/
theorem columnStd_not_neg (rows : List (List (JSNum ℝ))) :
    ∀ s ∈ columnStd rows, JSNum.lt s (JSNum.fin 0) = false := by
  intro s hs
  unfold columnStd at hs
  obtain ⟨j, _, rfl⟩ := List.mem_map.mp hs
  exact JSNum.sqrt_not_neg _

end FitLemmas

section DetectorRefinementResult
variable {α : Type} [LinearOrderedField α]

/-- Counterexample to C14 as stated: after `setBaseline` on the one training sample `[0]`
the standard deviation is `NaN`, which is not zero; `detectAnomaly` divides by 1 all the
same: the reading 5 has the z-score and the score 5 and is an anomaly, while the rule of
the claim, which keeps a non-zero standard deviation, gives the z-score `NaN`, hence the
score `NaN` and no anomaly. -/
theorem detectAnomaly_nan_std_divisor :
    singleSampleDetector.baseline = some { mean := [JSNum.fin 0], std := [JSNum.nan] } ∧
    zScores ({ mean := [JSNum.fin 0], std := [JSNum.nan] } : Baseline ℝ) [JSNum.fin 5] =
      [JSNum.fin 5] ∧
    claimZScores [JSNum.fin (5 : ℝ)] [JSNum.fin 0] [JSNum.nan] = [JSNum.nan] ∧
    (detectAnomaly 0 singleSampleDetector [JSNum.fin 5]).1.score = JSNum.fin 5 ∧
    (detectAnomaly 0 singleSampleDetector [JSNum.fin 5]).1.isAnomaly = true ∧
    (detectAnomaly 0 singleSampleDetector [JSNum.fin 5]).1.score ≠
      JSNum.maxOf (claimZScores [JSNum.fin (5 : ℝ)] [JSNum.fin 0] [JSNum.nan]) ∧
    (detectAnomaly 0 singleSampleDetector [JSNum.fin 5]).1.isAnomaly ≠
      JSNum.gt (JSNum.maxOf (claimZScores [JSNum.fin (5 : ℝ)] [JSNum.fin 0] [JSNum.nan]))
        (JSNum.fin singleSampleDetector.threshold) := by
  have hbase : singleSampleDetector.baseline =
      some { mean := [JSNum.fin 0], std := [JSNum.nan] } := by
    have hmean := columnMean_single [0]
    have hstd := columnStd_single [0]
    simp only [List.map_cons, List.map_nil] at hmean hstd
    simp only [singleSampleDetector, setBaseline, hmean, hstd]
  have hzs : zScores ({ mean := [JSNum.fin 0], std := [JSNum.nan] } : Baseline ℝ)
      [JSNum.fin 5] = [JSNum.fin 5] := by
    simp [zScores_cons, zScores_nil, zScore, stdOrOne, JSNum.truthy, JSNum.abs,
      JSNum.fin_div_fin _ _ (one_ne_zero : (1 : ℝ) ≠ 0)]
  have hclaim : claimZScores [JSNum.fin (5 : ℝ)] [JSNum.fin 0] [JSNum.nan] = [JSNum.nan] := by
    simp [claimZScores, zeroGuardedStd, JSNum.div_def, JSNum.div, JSNum.abs]
  have hthr : singleSampleDetector.threshold = 25 / 10 := rfl
  rw [detectAnomaly_of_baseline 0 singleSampleDetector _ _ hbase, hzs, hclaim, hthr]
  refine ⟨hbase, rfl, rfl, ?_, ?_, ?_, ?_⟩
  · simp [JSNum.maxOf, JSNum.max2, JSNum.lt]
  · simp [JSNum.maxOf, JSNum.max2, JSNum.lt, JSNum.gt]
    norm_num
  · simp [JSNum.maxOf, JSNum.max2, JSNum.lt]
  · simp [JSNum.maxOf, JSNum.max2, JSNum.lt, JSNum.gt]
    norm_num

/-- C14 (amended): with a baseline set whose standard deviations are not negative, for every
sample of the baseline's arity `detectAnomaly` computes the z-scores
`z_i = |sample[i] - mean_i| / s_i`, with `s_i = std_i` when `std_i` is neither zero nor
`NaN` and `s_i = 1` when it is either, and returns `score = Math.max` of the `z_i` (one of
them, which none exceeds, when the sample is not empty and no `z_i` is `NaN`; `NaN` when
one is), `isAnomaly = (score > threshold)`, `confidence = Math.min(score / threshold, 1)`
and a detail list with one entry per parameter, in order, carrying `param_i`, `z_i` and
the threshold. -/
theorem detectAnomaly_guarded_zScores (now : Nat) (d : AnomalyDetector α) (b : Baseline α)
    (dataPoint : List (JSNum α)) (hb : d.baseline = some b)
    (hms : b.mean.length = dataPoint.length) (hss : b.std.length = dataPoint.length)
    (hstd : ∀ s ∈ b.std, JSNum.lt s (JSNum.fin 0) = false) :
    (∀ (i : Nat) (x m s : JSNum α), dataPoint[i]? = some x → b.mean[i]? = some m →
      b.std[i]? = some s →
      (guardedZScores dataPoint b.mean b.std)[i]? = some (JSNum.abs (x - m) / guardedStd s)) ∧
    ((∀ s : α, s ≠ 0 → guardedStd (JSNum.fin s) = JSNum.fin s) ∧
      guardedStd (JSNum.pinf : JSNum α) = JSNum.pinf ∧
      guardedStd (JSNum.fin (0 : α)) = JSNum.fin 1 ∧
      guardedStd (JSNum.nan : JSNum α) = JSNum.fin 1) ∧
    (guardedZScores dataPoint b.mean b.std).length = dataPoint.length ∧
    (detectAnomaly now d dataPoint).1.score =
      JSNum.maxOf (guardedZScores dataPoint b.mean b.std) ∧
    (dataPoint ≠ [] → JSNum.nan ∉ guardedZScores dataPoint b.mean b.std →
      (detectAnomaly now d dataPoint).1.score ∈ guardedZScores dataPoint b.mean b.std ∧
      ∀ z ∈ guardedZScores dataPoint b.mean b.std,
        JSNum.lt (detectAnomaly now d dataPoint).1.score z = false) ∧
    (JSNum.nan ∈ guardedZScores dataPoint b.mean b.std →
      (detectAnomaly now d dataPoint).1.score = JSNum.nan) ∧
    (detectAnomaly now d dataPoint).1.isAnomaly =
      JSNum.gt (detectAnomaly now d dataPoint).1.score (JSNum.fin d.threshold) ∧
    (detectAnomaly now d dataPoint).1.confidence =
      some (JSNum.min2 ((detectAnomaly now d dataPoint).1.score / JSNum.fin d.threshold)
        (JSNum.fin 1)) ∧
    ∃ ds, (detectAnomaly now d dataPoint).1.details = some ds ∧
      ds.length = dataPoint.length ∧
      ∀ (i : Nat) (z : JSNum α), (guardedZScores dataPoint b.mean b.std)[i]? = some z →
        ds[i]? = some ({ parameter := "param_" ++ toString i, zScore := z,
                         threshold := d.threshold } : ParameterDetail α) := by
  have hlen := guardedZScores_length dataPoint b.mean b.std hms hss
  have hzs := zScores_eq_guarded b dataPoint hms hss hstd
  rw [detectAnomaly_of_baseline now d b _ hb, hzs]
  refine ⟨fun i x m s hx hm hs => guardedZScores_getElem? _ _ _ i x m s hx hm hs,
    ⟨fun s hs => by simp [guardedStd, hs], rfl, by simp [guardedStd], rfl⟩, hlen, rfl, ?_,
    fun h => maxOf_of_nan_mem _ h, rfl, rfl, _, rfl, ?_, ?_⟩
  · intro hne hnan
    obtain ⟨_, hge, hmem⟩ := maxOf_ge (guardedZScores dataPoint b.mean b.std) hnan
    refine ⟨hmem ?_, hge⟩
    intro h
    rw [h] at hlen
    exact hne (List.length_eq_zero.mp hlen.symm)
  · simp [hlen]
  · intro i z hz
    rw [details_getElem?, hz]
    rfl

/-- Witness of C14 (amended): the baseline that `setBaseline` fits to the one training
sample `[0]`, whose standard deviation is `NaN`, and the reading 5. -/
theorem detectAnomaly_guarded_zScores_witness :
    (columnStd [[JSNum.fin 0]] = [JSNum.nan] ∧
      guardedZScores [JSNum.fin 5] (columnMean [[JSNum.fin 0]]) (columnStd [[JSNum.fin 0]]) =
        [JSNum.fin 5]) ∧
    (detectAnomaly 0 singleSampleDetector [JSNum.fin 5]).1.score =
      JSNum.maxOf (guardedZScores [JSNum.fin 5] (columnMean [[JSNum.fin 0]])
        (columnStd [[JSNum.fin 0]])) :=
  ⟨by
      have hmean := columnMean_single [0]
      have hstd := columnStd_single [0]
      simp only [List.map_cons, List.map_nil] at hmean hstd
      rw [hmean, hstd]
      simp [guardedZScores, guardedStd, JSNum.abs,
        JSNum.fin_div_fin _ _ (one_ne_zero : (1 : ℝ) ≠ 0)],
    (detectAnomaly_guarded_zScores 0 singleSampleDetector
      { mean := columnMean [[JSNum.fin 0]], std := columnStd [[JSNum.fin 0]] } [JSNum.fin 5]
      rfl (by simp [columnMean_length]) (by simp [columnStd_length])
      (columnStd_not_neg [[JSNum.fin 0]])).2.2.2.1⟩

end DetectorRefinementResult

/-! ## Properties of recovery, health and posture -/

/-- C22: in every engine state `initiateRecovery` returns the five fixed steps in order,
and `requiresOperatorApproval` is true exactly when the threat level is CRITICAL: true at
CRITICAL, false at LOW, MEDIUM and HIGH. -/
theorem initiateRecovery_plan (sys : DefenseSystem) :
    (initiateRecovery sys).1.steps =
      ["SYSTEM_DIAGNOSTICS", "THREAT_ASSESSMENT", "COMPONENT_VERIFICATION",
       "GRADUAL_SYSTEM_RESTORE", "FULL_OPERATIONAL_MODE"] ∧
    ((initiateRecovery sys).1.requiresOperatorApproval = true ↔
      sys.threatLevel = "CRITICAL") ∧
    (∀ a : Severity, sys.threatLevel = a.name →
      (initiateRecovery sys).1.requiresOperatorApproval = decide (a = Severity.CRITICAL)) := by
  refine ⟨rfl, by simp [initiateRecovery], ?_⟩
  intro a ha
  cases a <;> simp [initiateRecovery, ha, Severity.name]

/-- C23: `initiateRecovery` and `getSystemHealth` leave the engine state as it was, so
`threatLevel`, `systemStatus`, `failoverMode` and `activeCountermeasures` are unchanged, and
`getSystemHealth` reports the current status, threat level and failover flag. -/
theorem recovery_and_health_read_only (now : Nat) (sys : DefenseSystem) :
    (initiateRecovery sys).2 = sys ∧
    (getSystemHealth now sys).2 = sys ∧
    ((initiateRecovery sys).2.threatLevel = sys.threatLevel ∧
      (initiateRecovery sys).2.systemStatus = sys.systemStatus ∧
      (initiateRecovery sys).2.failoverMode = sys.failoverMode ∧
      (initiateRecovery sys).2.activeCountermeasures = sys.activeCountermeasures) ∧
    ((getSystemHealth now sys).2.threatLevel = sys.threatLevel ∧
      (getSystemHealth now sys).2.systemStatus = sys.systemStatus ∧
      (getSystemHealth now sys).2.failoverMode = sys.failoverMode ∧
      (getSystemHealth now sys).2.activeCountermeasures = sys.activeCountermeasures) ∧
    (getSystemHealth now sys).1.status = sys.systemStatus ∧
    (getSystemHealth now sys).1.threatLevel = sys.threatLevel ∧
    (getSystemHealth now sys).1.failoverActive = sys.failoverMode :=
  ⟨rfl, rfl, ⟨rfl, rfl, rfl, rfl⟩, ⟨rfl, rfl, rfl, rfl⟩, rfl, rfl, rfl⟩

/-- One call either keeps the failover flag and the status or switches both to failover. -/
theorem engineCall_posture (sys : DefenseSystem) (call : EngineCall) :
    ((EngineCall.run sys call).failoverMode = sys.failoverMode ∧
      (EngineCall.run sys call).systemStatus = sys.systemStatus) ∨
    ((EngineCall.run sys call).failoverMode = true ∧
      (EngineCall.run sys call).systemStatus = "FAILOVER_ACTIVE") := by
  cases call with
  | respondToThreat now threat =>
    simp only [EngineCall.run, respondToThreat_state]
    have hpost := updateThreatLevel_posture
      (if (threat.type = "GPS_SPOOFING" ∨ threat.type = "CONTROL_HIJACKING") ∧
        threat.severity = "CRITICAL" then (activateFailover sys).2 else sys) threat.severity
    rw [hpost.1, hpost.2.1]
    split
    · right; exact ⟨rfl, rfl⟩
    · left; exact ⟨rfl, rfl⟩
  | activateFailover => right; exact ⟨rfl, rfl⟩
  | initiateRecovery => left; exact ⟨rfl, rfl⟩
  | getSystemHealth now => left; exact ⟨rfl, rfl⟩

/-- The two postures of the engine: operational without failover, or in failover. -/
theorem runEngine_posture (calls : List EngineCall) :
    ∀ sys : DefenseSystem,
      ((sys.failoverMode = false ∧ sys.systemStatus = "OPERATIONAL") ∨
        (sys.failoverMode = true ∧ sys.systemStatus = "FAILOVER_ACTIVE")) →
      (((runEngine sys calls).failoverMode = false ∧
          (runEngine sys calls).systemStatus = "OPERATIONAL") ∨
        ((runEngine sys calls).failoverMode = true ∧
          (runEngine sys calls).systemStatus = "FAILOVER_ACTIVE")) ∧
      (sys.systemStatus = "FAILOVER_ACTIVE" →
        (runEngine sys calls).systemStatus = "FAILOVER_ACTIVE") := by
  induction calls with
  | nil => intro sys h; exact ⟨h, fun hs => hs⟩
  | cons call rest ih =>
    intro sys h
    have hstep : ((EngineCall.run sys call).failoverMode = false ∧
          (EngineCall.run sys call).systemStatus = "OPERATIONAL") ∨
        ((EngineCall.run sys call).failoverMode = true ∧
          (EngineCall.run sys call).systemStatus = "FAILOVER_ACTIVE") := by
      rcases engineCall_posture sys call with ⟨h1, h2⟩ | h2
      · rw [h1, h2]; exact h
      · exact Or.inr h2
    have hkeep : sys.systemStatus = "FAILOVER_ACTIVE" →
        (EngineCall.run sys call).systemStatus = "FAILOVER_ACTIVE" := by
      intro hs
      rcases engineCall_posture sys call with ⟨_, h2⟩ | h2
      · rw [h2]; exact hs
      · exact h2.2
    obtain ⟨hinv, habs⟩ := ih (EngineCall.run sys call) hstep
    exact ⟨by simpa [runEngine] using hinv, fun hs => by simpa [runEngine] using habs (hkeep hs)⟩

/-- C28: in every state reached from a fresh engine by `respondToThreat`,
`activateFailover`, `initiateRecovery` and `getSystemHealth` calls, `failoverMode` is true
exactly when `systemStatus` is FAILOVER_ACTIVE, `systemStatus` is OPERATIONAL or
FAILOVER_ACTIVE, and once it is FAILOVER_ACTIVE it stays so whatever calls follow. -/
theorem runEngine_failover_invariant (calls : List EngineCall) :
    ((runEngine DefenseSystem.new calls).failoverMode = true ↔
      (runEngine DefenseSystem.new calls).systemStatus = "FAILOVER_ACTIVE") ∧
    ((runEngine DefenseSystem.new calls).systemStatus = "OPERATIONAL" ∨
      (runEngine DefenseSystem.new calls).systemStatus = "FAILOVER_ACTIVE") ∧
    (∀ later : List EngineCall,
      (runEngine DefenseSystem.new calls).systemStatus = "FAILOVER_ACTIVE" →
      (runEngine DefenseSystem.new (calls ++ later)).systemStatus = "FAILOVER_ACTIVE" ∧
      (runEngine DefenseSystem.new (calls ++ later)).systemStatus ≠ "OPERATIONAL") := by
  have hinv := (runEngine_posture calls DefenseSystem.new (Or.inl ⟨rfl, rfl⟩)).1
  refine ⟨?_, ?_, ?_⟩
  · rcases hinv with ⟨h1, h2⟩ | ⟨h1, h2⟩
    · rw [h1, h2]; decide
    · rw [h1, h2]; decide
  · rcases hinv with ⟨_, h2⟩ | ⟨_, h2⟩
    · exact Or.inl h2
    · exact Or.inr h2
  · intro later hactive
    have hlater := (runEngine_posture later (runEngine DefenseSystem.new calls) hinv).2 hactive
    have happ : runEngine DefenseSystem.new (calls ++ later) =
        runEngine (runEngine DefenseSystem.new calls) later := by
      simp [runEngine, List.foldl_append]
    rw [happ, hlater]
    exact ⟨rfl, by decide⟩


/-! ## Properties of the buffer -/

section BufferOrder

variable {α : Type} [LinearOrderedField α]

omit [LinearOrderedField α] in
/-- Pushing onto the last `W` elements of a list gives the last `W` elements of the longer
list. -/
theorem pushBounded_drop (W : Nat) (history : List (BufferEntry α)) (e : BufferEntry α) :
    pushBounded W (history.drop (history.length - W)) e =
      (history ++ [e]).drop ((history ++ [e]).length - W) := by
  unfold pushBounded
  simp only [List.length_append, List.length_drop, List.length_singleton]
  by_cases h : W < history.length + 1
  · have h1 : history.length - (history.length - W) + 1 > W := by omega
    rw [if_pos h1]
    have h2 : history.length + 1 - W = (history.length - W) + 1 := by omega
    have h3 : history.length - W ≤ history.length := by omega
    rw [h2, ← List.tail_drop, List.drop_append_of_le_length h3]
  · have h1 : ¬ (history.length - (history.length - W) + 1 > W) := by omega
    rw [if_neg h1]
    have h2 : history.length + 1 - W = 0 := by omega
    have h3 : history.length - W = 0 := by omega
    rw [h2, h3]
    rfl

/-- The state `detectAnomaly` leaves when a baseline is set. -/
theorem detectAnomaly_buffer (now : Nat) (d : AnomalyDetector α) (b : Baseline α)
    (dataPoint : List (JSNum α)) (hb : d.baseline = some b) :
    (detectAnomaly now d dataPoint).2 =
      { d with dataBuffer :=
          pushBounded d.windowSize d.dataBuffer (classifiedEntry b now dataPoint) } := by
  rw [detectAnomaly_of_baseline now d b dataPoint hb]
  rfl

/-- The buffer after a run of `detectAnomaly` calls that starts with the last `W` elements
of a history: the last `W` elements of the history extended by the classified samples. -/
theorem detectAll_buffer (b : Baseline α) (W : Nat) (calls : List (Nat × List (JSNum α))) :
    ∀ (d : AnomalyDetector α) (history : List (BufferEntry α)),
      d.baseline = some b → d.windowSize = W →
      d.dataBuffer = history.drop (history.length - W) →
      (runCalls d (calls.map (fun c => DetectorCall.detectAnomaly c.1 c.2))).dataBuffer =
        (history ++ calls.map (fun c => classifiedEntry b c.1 c.2)).drop
          ((history.length + calls.length) - W) := by
  induction calls with
  | nil => intro d history _ _ hbuf; simpa [runCalls] using hbuf
  | cons call rest ih =>
    intro d history hb hW hbuf
    have hstep := detectAnomaly_buffer call.1 d b call.2 hb
    have hnext := ih (detectAnomaly call.1 d call.2).2
      (history ++ [classifiedEntry b call.1 call.2])
      (by rw [hstep]; exact hb) (by rw [hstep]; exact hW)
      (by rw [hstep]; simp only; rw [hW, hbuf, pushBounded_drop])
    have hrun : runCalls d ((call :: rest).map (fun c => DetectorCall.detectAnomaly c.1 c.2)) =
        runCalls (detectAnomaly call.1 d call.2).2
          (rest.map (fun c => DetectorCall.detectAnomaly c.1 c.2)) := rfl
    rw [hrun, hnext]
    simp only [List.length_append, List.length_singleton, List.append_assoc,
      List.singleton_append, List.length_cons, List.map_cons]
    have harg : history.length + (0 + 1) + rest.length - W =
        history.length + (rest.length + 1) - W := by omega
    simp only [List.length_nil]
    rw [harg]

/-- C21: from a fresh detector with a baseline `b` set and window size `W ≥ 1`, after `n`
`detectAnomaly` calls the buffer holds exactly the last `min(n, W)` classified samples,
each with its score, in the order they were classified; and a call on a buffer that holds
`W` elements drops the oldest one, keeps the others in order and puts the new one last. -/
theorem dataBuffer_fifo (b : Baseline α) (W : Nat) (hW : 1 ≤ W)
    (calls : List (Nat × List (JSNum α))) :
    (runCalls { (AnomalyDetector.new : AnomalyDetector α) with
        baseline := some b, windowSize := W }
      (calls.map (fun c => DetectorCall.detectAnomaly c.1 c.2))).dataBuffer =
      (calls.map (fun c => classifiedEntry b c.1 c.2)).drop (calls.length - W) ∧
    ((calls.map (fun c => classifiedEntry b c.1 c.2)).drop (calls.length - W)).length =
      min calls.length W ∧
    (∀ (d : AnomalyDetector α) (now : Nat) (dataPoint : List (JSNum α)),
      d.baseline = some b → d.windowSize = W → d.dataBuffer.length = W →
      (detectAnomaly now d dataPoint).2.dataBuffer =
        d.dataBuffer.tail ++ [classifiedEntry b now dataPoint]) := by
  refine ⟨?_, ?_, ?_⟩
  · have h := detectAll_buffer b W calls
      { (AnomalyDetector.new : AnomalyDetector α) with baseline := some b, windowSize := W }
      [] rfl rfl (by simp [AnomalyDetector.new])
    simpa using h
  · simp only [List.length_drop, List.length_map]
    omega
  · intro d now dataPoint hb hw hfull
    rw [detectAnomaly_buffer now d b dataPoint hb]
    simp only [pushBounded, List.length_append, List.length_singleton, hw, hfull]
    have hne : d.dataBuffer ≠ [] := by
      intro h
      rw [h] at hfull
      simp at hfull
      omega
    rw [if_pos (by omega)]
    cases hbuf : d.dataBuffer with
    | nil => exact absurd hbuf hne
    | cons x xs => rfl

/-- Witness of C21: with window size 2, three classified samples leave the last two. -/
theorem dataBuffer_fifo_witness :
    (runCalls { (AnomalyDetector.new : AnomalyDetector ℚ) with
        baseline := some unitBaseline, windowSize := 2 }
      (threeSamples.map (fun c => DetectorCall.detectAnomaly c.1 c.2))).dataBuffer =
      [classifiedEntry unitBaseline 2 [JSNum.fin 2],
       classifiedEntry unitBaseline 3 [JSNum.fin 3]] :=
  (dataBuffer_fifo unitBaseline 2 (by decide) threeSamples).1

end BufferOrder

/-! ## Properties of the simulator -/

/-- C25: the control frame of every output of `simulateControlHijacking`, which is tagged
CONTROL_HIJACKING and CRITICAL, is reported `isHijacked = true` with severity CRITICAL by
`detectControlHijacking`; the fix of every output of `simulateGPSSpoofing`, which is tagged
GPS_SPOOFING and CRITICAL, is reported `isSpoofed = true` with severity CRITICAL by
`detectGPSSpoofing` on a detector with an empty history. -/
theorem simulated_attacks_detected (e : Entropy) (d : AnomalyDetector ℝ)
    (hempty : d.dataBuffer = []) :
    ((simulateControlHijacking e).attackType = some "CONTROL_HIJACKING" ∧
      (simulateControlHijacking e).severity = some "CRITICAL" ∧
      (detectControlHijacking (simulateControlHijacking e).control).isHijacked = true ∧
      (detectControlHijacking (simulateControlHijacking e).control).severity
        = some "CRITICAL") ∧
    ((simulateGPSSpoofing e).attackType = some "GPS_SPOOFING" ∧
      (simulateGPSSpoofing e).severity = some "CRITICAL" ∧
      (detectGPSSpoofing d (simulateGPSSpoofing e).gps).isSpoofed = true ∧
      (detectGPSSpoofing d (simulateGPSSpoofing e).gps).severity = some "CRITICAL") := by
  have hcontrol : detectControlHijacking (simulateControlHijacking e).control =
      { isHijacked := true, reason := some "Command integrity check failed",
        severity := some "CRITICAL" } := by
    have hsum : calculateChecksum [0xFF, 0xEE, 0xDD, 0xCC] = 150 := by decide
    simp [detectControlHijacking, simulateControlHijacking, hsum]
  have hgps : detectGPSSpoofing d (simulateGPSSpoofing e).gps =
      { isSpoofed := true, reason := some "Impossible altitude detected",
        severity := some "CRITICAL" } := by
    rw [detectGPSSpoofing_of_not_flagged d _
      (fun lastGPS h => by rw [hempty] at h; cases h)]
    have halt : JSNum.lt (simulateGPSSpoofing e).gps.altitude (JSNum.fin (-500)) = true := by
      norm_num [simulateGPSSpoofing, JSNum.lt]
    simp [halt]
  refine ⟨⟨rfl, rfl, ?_, ?_⟩, ⟨rfl, rfl, ?_, ?_⟩⟩
  · rw [hcontrol]
  · rw [hcontrol]
  · rw [hgps]
  · rw [hgps]

/-- Witness of C25: the generators fed with draws 0 and clock 0, on a fresh detector. -/
theorem simulated_attacks_detected_witness :
    (detectGPSSpoofing (AnomalyDetector.new : AnomalyDetector ℝ)
      (simulateGPSSpoofing { random := fun _ => 0, clock := fun _ => 0 }).gps).severity
      = some "CRITICAL" :=
  (simulated_attacks_detected { random := fun _ => 0, clock := fun _ => 0 }
    AnomalyDetector.new rfl).2.2.2.2

/-- The jitter of `simulateAnomalies` moves a positive reading by at most 15 percent. -/
theorem jitter_bound (v r : ℝ) (hv : 0 < v) (hr0 : 0 ≤ r) (hr1 : r < 1) :
    |jitter v r - v| ≤ 0.15 * v := by
  have h : jitter v r - v = (r - 0.5) * 0.3 * v := by
    unfold jitter
    ring
  rw [h, abs_le]
  constructor <;> nlinarith

/-! ## Properties of the great-circle distance -/

theorem cos_mul_cos_eq (x y : ℝ) :
    Real.cos x * Real.cos y =
      Real.cos ((x + y) / 2) ^ 2 - Real.sin ((y - x) / 2) ^ 2 := by
  have hx : x = (x + y) / 2 - (y - x) / 2 := by ring
  have hy : y = (x + y) / 2 + (y - x) / 2 := by ring
  have h1 := Real.cos_sub ((x + y) / 2) ((y - x) / 2)
  have h2 := Real.cos_add ((x + y) / 2) ((y - x) / 2)
  rw [← hx] at h1
  rw [← hy] at h2
  rw [h1, h2]
  linear_combination (Real.cos ((x + y) / 2)) ^ 2 * Real.sin_sq_add_cos_sq ((y - x) / 2) -
    (Real.sin ((y - x) / 2)) ^ 2 * Real.sin_sq_add_cos_sq ((x + y) / 2)

/-- The quantity `a` of the Haversine formula lies between 0 and 1. -/
theorem haversineA_mem (lat1 lon1 lat2 lon2 : ℝ) :
    0 ≤ haversineA lat1 lon1 lat2 lon2 ∧ haversineA lat1 lon1 lat2 lon2 ≤ 1 := by
  unfold haversineA
  have hu : (lat2 - lat1) * Real.pi / 180 / 2 =
      (lat2 * Real.pi / 180 - lat1 * Real.pi / 180) / 2 := by ring
  rw [cos_mul_cos_eq, hu]
  have hs := Real.sin_sq_add_cos_sq ((lat2 * Real.pi / 180 - lat1 * Real.pi / 180) / 2)
  have hc := Real.sin_sq_add_cos_sq ((lat1 * Real.pi / 180 + lat2 * Real.pi / 180) / 2)
  have hw := Real.sin_sq_add_cos_sq ((lon2 - lon1) * Real.pi / 180 / 2)
  have hs0 := sq_nonneg (Real.sin ((lat2 * Real.pi / 180 - lat1 * Real.pi / 180) / 2))
  have hs1 := sq_nonneg (Real.cos ((lat2 * Real.pi / 180 - lat1 * Real.pi / 180) / 2))
  have hc0 := sq_nonneg (Real.cos ((lat1 * Real.pi / 180 + lat2 * Real.pi / 180) / 2))
  have hc1 := sq_nonneg (Real.sin ((lat1 * Real.pi / 180 + lat2 * Real.pi / 180) / 2))
  have hw0 := sq_nonneg (Real.sin ((lon2 - lon1) * Real.pi / 180 / 2))
  have hw1 := sq_nonneg (Real.cos ((lon2 - lon1) * Real.pi / 180 / 2))
  constructor <;> nlinarith

theorem JSNum.atan2_fin_fin (y x : ℝ) :
    JSNum.atan2 (JSNum.fin y) (JSNum.fin x) = JSNum.fin (realAtan2 y x) := by
  unfold realAtan2
  show (if 0 < x then _ else _) = _
  split_ifs <;> rfl

/-- On finite coordinates `calculateDistance` is `R * 2 * atan2(√a, √(1 - a))` with the
`a` of the Haversine formula. -/
theorem calculateDistance_fin (lat1 lon1 lat2 lon2 : ℝ) :
    calculateDistance (JSNum.fin lat1) (JSNum.fin lon1) (JSNum.fin lat2) (JSNum.fin lon2) =
      JSNum.fin (6371000 * 2 * realAtan2 (Real.sqrt (haversineA lat1 lon1 lat2 lon2))
        (Real.sqrt (1 - haversineA lat1 lon1 lat2 lon2))) := by
  obtain ⟨h0, h1⟩ := haversineA_mem lat1 lon1 lat2 lon2
  have ha : Real.sin ((lat2 - lat1) * Real.pi / 180 / 2) *
        Real.sin ((lat2 - lat1) * Real.pi / 180 / 2) +
      Real.cos (lat1 * Real.pi / 180) * Real.cos (lat2 * Real.pi / 180) *
        Real.sin ((lon2 - lon1) * Real.pi / 180 / 2) *
        Real.sin ((lon2 - lon1) * Real.pi / 180 / 2) = haversineA lat1 lon1 lat2 lon2 := by
    unfold haversineA
    ring
  simp only [calculateDistance, JSNum.PI, JSNum.fin_sub_fin, JSNum.fin_mul_fin,
    JSNum.fin_div_fin _ _ (by norm_num : (180 : ℝ) ≠ 0),
    JSNum.fin_div_fin _ _ (by norm_num : (2 : ℝ) ≠ 0), JSNum.sin_fin, JSNum.cos_fin,
    JSNum.fin_add_fin, ha]
  rw [JSNum.sqrt_fin _ h0, JSNum.sqrt_fin _ (by linarith), JSNum.atan2_fin_fin,
    JSNum.fin_mul_fin]

/-- For `a` between 0 and 1 the angle `atan2(√a, √(1 - a))` is the arcsine of `√a`. -/
theorem realAtan2_sqrt (a : ℝ) (h0 : 0 ≤ a) (h1 : a ≤ 1) :
    realAtan2 (Real.sqrt a) (Real.sqrt (1 - a)) = Real.arcsin (Real.sqrt a) := by
  unfold realAtan2
  rcases lt_or_eq_of_le h1 with hlt | heq
  · have hpos : 0 < Real.sqrt (1 - a) := Real.sqrt_pos.mpr (by linarith)
    rw [if_pos hpos]
    have hmem : Real.sqrt a ∈ Set.Ioo (-1 : ℝ) 1 := by
      constructor
      · have := Real.sqrt_nonneg a
        linarith
      · calc Real.sqrt a < Real.sqrt 1 := Real.sqrt_lt_sqrt h0 hlt
          _ = 1 := Real.sqrt_one
    rw [Real.arcsin_eq_arctan hmem, Real.sq_sqrt h0]
  · subst heq
    simp


/-- C24: over the reals `calculateDistance` is the Haversine great-circle distance with
Earth radius 6,371,000 m: it is `R * 2 * atan2(√a, √(1 - a))` for
`a = sin²(dLat / 2) + cos(lat1) cos(lat2) sin²(dLon / 2)`, the angles converted from degrees
to radians, and that is `2 * R * arcsin(√a)`. -/
theorem calculateDistance_haversine (lat1 lon1 lat2 lon2 : ℝ) :
    haversineA lat1 lon1 lat2 lon2 =
      Real.sin ((lat2 - lat1) * Real.pi / 180 / 2) ^ 2 +
        Real.cos (lat1 * Real.pi / 180) * Real.cos (lat2 * Real.pi / 180) *
          Real.sin ((lon2 - lon1) * Real.pi / 180 / 2) ^ 2 ∧
    calculateDistance (JSNum.fin lat1) (JSNum.fin lon1) (JSNum.fin lat2) (JSNum.fin lon2) =
      JSNum.fin (6371000 * 2 * realAtan2 (Real.sqrt (haversineA lat1 lon1 lat2 lon2))
        (Real.sqrt (1 - haversineA lat1 lon1 lat2 lon2))) ∧
    calculateDistance (JSNum.fin lat1) (JSNum.fin lon1) (JSNum.fin lat2) (JSNum.fin lon2) =
      JSNum.fin (2 * 6371000 * Real.arcsin (Real.sqrt (haversineA lat1 lon1 lat2 lon2))) ∧
    calculateDistance (JSNum.fin lat1) (JSNum.fin lon1) (JSNum.fin lat2) (JSNum.fin lon2) =
      JSNum.fin (haversineDistance lat1 lon1 lat2 lon2) := by
  obtain ⟨h0, h1⟩ := haversineA_mem lat1 lon1 lat2 lon2
  have harc : calculateDistance (JSNum.fin lat1) (JSNum.fin lon1) (JSNum.fin lat2)
      (JSNum.fin lon2) =
      JSNum.fin (2 * 6371000 * Real.arcsin (Real.sqrt (haversineA lat1 lon1 lat2 lon2))) := by
    rw [calculateDistance_fin, realAtan2_sqrt _ h0 h1]
    congr 1
    ring
  exact ⟨rfl, calculateDistance_fin lat1 lon1 lat2 lon2, harc, harc⟩

theorem haversineA_self (lat lon : ℝ) : haversineA lat lon lat lon = 0 := by
  simp [haversineA]

theorem haversineA_symm (lat1 lon1 lat2 lon2 : ℝ) :
    haversineA lat1 lon1 lat2 lon2 = haversineA lat2 lon2 lat1 lon1 := by
  unfold haversineA
  have h1 : (lat2 - lat1) * Real.pi / 180 / 2 = -((lat1 - lat2) * Real.pi / 180 / 2) := by ring
  have h2 : (lon2 - lon1) * Real.pi / 180 / 2 = -((lon1 - lon2) * Real.pi / 180 / 2) := by ring
  rw [h1, h2, Real.sin_neg, Real.sin_neg, neg_sq, neg_sq]
  ring

/-- C30: over the reals `calculateDistance` is zero on identical points and symmetric in
its two points; so the implied speed of a vehicle that has not moved is 0 for every
elapsed time other than zero. -/
theorem calculateDistance_zero_symm (lat1 lon1 lat2 lon2 : ℝ) :
    calculateDistance (JSNum.fin lat1) (JSNum.fin lon1) (JSNum.fin lat1) (JSNum.fin lon1) =
      JSNum.fin 0 ∧
    calculateDistance (JSNum.fin lat1) (JSNum.fin lon1) (JSNum.fin lat2) (JSNum.fin lon2) =
      calculateDistance (JSNum.fin lat2) (JSNum.fin lon2) (JSNum.fin lat1) (JSNum.fin lon1) ∧
    (∀ elapsed : ℝ, elapsed ≠ 0 →
      calculateDistance (JSNum.fin lat1) (JSNum.fin lon1) (JSNum.fin lat1) (JSNum.fin lon1) /
        JSNum.fin elapsed = JSNum.fin 0) := by
  have hzero : calculateDistance (JSNum.fin lat1) (JSNum.fin lon1) (JSNum.fin lat1)
      (JSNum.fin lon1) = JSNum.fin 0 := by
    rw [calculateDistance_fin, haversineA_self]
    simp [realAtan2]
  refine ⟨hzero, ?_, ?_⟩
  · rw [calculateDistance_fin, calculateDistance_fin, haversineA_symm]
  · intro elapsed he
    rw [hzero, JSNum.fin_div_fin _ _ he, zero_div]


/-! ## Properties of the simulation loop -/

theorem simulationTick_events (attackType : String) (engine : SimulationEngine)
    (scenario : Scenario) (e : Entropy) (now : Nat) :
    (simulationTick attackType engine scenario e now).2.1.events =
      scenario.events ++ [simulatedSample attackType e] := by
  unfold simulationTick
  simp only
  split <;> rfl

/-- The log after a run of ticks: the earlier events, then one sample per tick that ran,
in tick order. -/
theorem runTicks_events (attackType : String) (ticks : List (Entropy × Nat)) :
    ∀ (engine : SimulationEngine) (scenario : Scenario),
      ∃ k, k ≤ ticks.length ∧
        (runTicks attackType engine scenario ticks).2.1.events =
          scenario.events ++ (ticks.take k).map (fun t => simulatedSample attackType t.1) := by
  induction ticks with
  | nil => intro engine scenario; exact ⟨0, le_refl _, by simp [runTicks]⟩
  | cons tick rest ih =>
    intro engine scenario
    unfold runTicks
    simp only
    split
    · exact ⟨1, by simp, by simp [simulationTick_events]⟩
    · obtain ⟨k, hk, hev⟩ := ih (simulationTick attackType engine scenario tick.1 tick.2).1
        (simulationTick attackType engine scenario tick.1 tick.2).2.1
      refine ⟨k + 1, by simpa using hk, ?_⟩
      rw [hev, simulationTick_events]
      simp

/-- Counterexample to C27 as stated: ANOMALIES is one of the available scenarios, and the
sample a tick generates for it is tagged ANOMALY_DETECTED, not ANOMALIES. -/
theorem simulatedSample_anomalies_tag :
    "ANOMALIES" ∈ availableScenarios ∧
    (simulatedSample "ANOMALIES" { random := fun _ => 0, clock := fun _ => 0 }).attackType
      = some "ANOMALY_DETECTED" ∧
    (simulatedSample "ANOMALIES" { random := fun _ => 0, clock := fun _ => 0 }).attackType
      ≠ some "ANOMALIES" := by
  refine ⟨by decide, rfl, ?_⟩
  show some "ANOMALY_DETECTED" ≠ some "ANOMALIES"
  decide

/-- C27 (amended): each tick of `startAttackSimulation` appends exactly one sample to the
event log, so that after a run of ticks the log holds one sample per tick that ran, in tick
order.  For the scenarios GPS_SPOOFING, CONTROL_HIJACKING and DATA_TAMPERING the sample is
tagged with the scenario name, for the scenario ANOMALIES it is tagged ANOMALY_DETECTED,
and for a type that is none of the four available scenarios it is a normal sample with no
`attackType` tag. -/
theorem simulationTick_appends (attackType : String) (engine : SimulationEngine)
    (scenario : Scenario) (e : Entropy) (now : Nat) :
    (simulationTick attackType engine scenario e now).2.1.events =
      scenario.events ++ [simulatedSample attackType e] ∧
    (∀ ticks : List (Entropy × Nat), ∃ k, k ≤ ticks.length ∧
      (runTicks attackType engine scenario ticks).2.1.events =
        scenario.events ++ (ticks.take k).map (fun t => simulatedSample attackType t.1)) ∧
    (attackType = "GPS_SPOOFING" ∨ attackType = "CONTROL_HIJACKING" ∨
        attackType = "DATA_TAMPERING" →
      (simulatedSample attackType e).attackType = some attackType) ∧
    (attackType = "ANOMALIES" →
      (simulatedSample attackType e).attackType = some "ANOMALY_DETECTED") ∧
    (attackType ∉ availableScenarios →
      simulatedSample attackType e = generateNormalData e ∧
      (simulatedSample attackType e).attackType = none) := by
  refine ⟨simulationTick_events attackType engine scenario e now,
    fun ticks => runTicks_events attackType ticks engine scenario, ?_, ?_, ?_⟩
  · rintro (h | h | h) <;> subst h <;> rfl
  · intro h
    subst h
    rfl
  · intro h
    simp only [availableScenarios, List.mem_cons, List.mem_singleton, not_or,
      List.mem_nil_iff, or_false] at h
    obtain ⟨h1, h2, h3, h4⟩ := h
    have hs : simulatedSample attackType e = generateNormalData e := by
      simp [simulatedSample, h1, h2, h3, h4]
    exact ⟨hs, by rw [hs]; rfl⟩

/-- Witness of C27 (amended): the scenario name NOISE is not an available scenario; its
sample carries no tag. -/
theorem simulationTick_appends_witness :
    (simulatedSample "NOISE" { random := fun _ => 0, clock := fun _ => 0 }).attackType = none :=
  ((simulationTick_appends "NOISE" { isRunning := true, currentScenario := some "NOISE" }
    { type := "NOISE", startTime := 0, duration := 10000, events := [] }
    { random := fun _ => 0, clock := fun _ => 0 } 1000).2.2.2.2 (by decide)).2


/-! ## Detection of the simulated data tampering -/

section Tampering

open JSNum

theorem foldl_add_bounds (l : List ℝ) (a lo hi : ℝ) (h : ∀ x ∈ l, lo ≤ x ∧ x ≤ hi) :
    a + l.length * lo ≤ l.foldl (fun s x => s + x) a ∧
    l.foldl (fun s x => s + x) a ≤ a + l.length * hi := by
  induction l generalizing a with
  | nil => simp
  | cons x xs ih =>
    obtain ⟨hx1, hx2⟩ := h x (List.mem_cons_self x xs)
    obtain ⟨h1, h2⟩ := ih (a + x) (fun y hy => h y (List.mem_cons_of_mem x hy))
    simp only [List.foldl_cons, List.length_cons]
    push_cast
    constructor <;> linarith

theorem foldl_sq_le (l : List ℝ) (μ a B : ℝ) (h : ∀ x ∈ l, (x - μ) * (x - μ) ≤ B) :
    l.foldl (fun s x => s + (x - μ) * (x - μ)) a ≤ a + l.length * B := by
  induction l generalizing a with
  | nil => simp
  | cons x xs ih =>
    have hx := h x (List.mem_cons_self x xs)
    have h1 := ih (a + (x - μ) * (x - μ)) (fun y hy => h y (List.mem_cons_of_mem x hy))
    simp only [List.foldl_cons, List.length_cons]
    push_cast
    linarith

theorem columnMean_getElem? (vs : List ℝ) (vss : List (List ℝ)) (j : Nat)
    (hj : j < vs.length) (hrect : ∀ ws ∈ vss, ws.length = vs.length) :
    (columnMean ((vs :: vss).map (List.map fin)))[j]? =
      some (fin (((vs :: vss).map (fun ws => ws.getD j 0)).foldl (fun s x => s + x) 0 /
        ((vs :: vss).length : ℝ))) := by
  have hn : ((vs :: vss).length : ℝ) ≠ 0 := by
    simp only [List.length_cons]
    push_cast
    positivity
  have hcol : matrixColumn ((vs :: vss).map (List.map fin)) j =
      ((vs :: vss).map (fun ws => ws.getD j 0)).map fin := by
    apply matrixColumn_fin
    intro ws hws
    rcases List.mem_cons.mp hws with h | h
    · rw [h]; exact hj
    · rw [hrect ws h]; exact hj
  simp only [columnMean, List.getElem?_map, List.map_cons, List.head?_cons,
    Option.getD_some, List.length_map, List.getElem?_range hj, Option.map_some']
  simp only [List.map_cons] at hcol
  simp only [List.length_cons, List.length_map] at hn ⊢
  rw [hcol, ← List.map_cons, foldl_add_fin, JSNum.fin_div_fin _ _ hn]

theorem columnStd_getElem? (vs : List ℝ) (vss : List (List ℝ)) (j : Nat)
    (hj : j < vs.length) (hne : vss ≠ []) (hrect : ∀ ws ∈ vss, ws.length = vs.length) :
    (columnStd ((vs :: vss).map (List.map fin)))[j]? =
      some (fin (Real.sqrt (((vs :: vss).map (fun ws => ws.getD j 0)).foldl
        (fun s x => s +
          (x - ((vs :: vss).map (fun ws => ws.getD j 0)).foldl (fun s x => s + x) 0 /
            ((vs :: vss).length : ℝ)) *
          (x - ((vs :: vss).map (fun ws => ws.getD j 0)).foldl (fun s x => s + x) 0 /
            ((vs :: vss).length : ℝ))) 0 /
        (((vs :: vss).length : ℝ) - 1)))) := by
  have hlenpos : (0 : ℝ) < vss.length := by exact_mod_cast List.length_pos.mpr hne
  have hn : ((vs :: vss).length : ℝ) ≠ 0 := by
    simp only [List.length_cons]
    push_cast
    linarith
  have hn1 : ((vs :: vss).length : ℝ) - 1 ≠ 0 := by
    simp only [List.length_cons]
    push_cast
    linarith
  have hn1pos : 0 ≤ ((vs :: vss).length : ℝ) - 1 := by
    simp only [List.length_cons]
    push_cast
    linarith
  have hcol : matrixColumn ((vs :: vss).map (List.map fin)) j =
      ((vs :: vss).map (fun ws => ws.getD j 0)).map fin := by
    apply matrixColumn_fin
    intro ws hws
    rcases List.mem_cons.mp hws with h | h
    · rw [h]; exact hj
    · rw [hrect ws h]; exact hj
  simp only [columnStd, List.getElem?_map, List.map_cons, List.head?_cons,
    Option.getD_some, List.length_map, List.getElem?_range hj, Option.map_some']
  simp only [List.map_cons] at hcol
  simp only [List.length_cons, List.length_map] at hn hn1 hn1pos ⊢
  rw [hcol, ← List.map_cons, foldl_add_fin, JSNum.fin_div_fin _ _ hn, foldl_sq_fin,
    JSNum.fin_div_fin _ _ hn1, JSNum.sqrt_fin _
      (div_nonneg (foldl_sq_nonneg _ _ _ (le_refl 0)) hn1pos)]

/-- A finite sample with one z-score above a positive threshold is an anomaly of
confidence 1. -/
theorem detectAnomaly_of_large_zScore {α : Type} [LinearOrderedField α] (now : Nat)
    (d : AnomalyDetector α) (b : Baseline α) (ms xs : List α) (i : Nat) (x z : α)
    (hb : d.baseline = some b) (hmean : b.mean = ms.map fin) (hlen : xs.length ≤ ms.length)
    (hx : xs[i]? = some x) (hz : zScore b (fin x) i = fin z)
    (hpos : 0 < d.threshold) (hgt : d.threshold < z) :
    (detectAnomaly now d (xs.map fin)).1.isAnomaly = true ∧
    (detectAnomaly now d (xs.map fin)).1.confidence = some (fin 1) := by
  obtain ⟨zs, hzs, _, _⟩ := zScores_finite b ms xs hmean hlen
  have hzi : zs[i]? = some z := by
    have h1 := zScores_getElem? b (xs.map fin) i
    rw [hzs, List.getElem?_map, List.getElem?_map, hx] at h1
    simp only [Option.map_some', hz] at h1
    cases hzi : zs[i]? with
    | none => rw [hzi] at h1; cases h1
    | some v =>
      rw [hzi] at h1
      simp only [Option.map_some', Option.some.injEq, JSNum.fin.injEq] at h1
      rw [h1]
  have hzne : zs ≠ [] := by
    intro h
    rw [h] at hzi
    cases hzi
  obtain ⟨mx, hmax, _, hbound⟩ := maxOf_map_fin zs hzne
  have hle : z ≤ mx := hbound _ (List.getElem?_mem hzi)
  have hlt : d.threshold < mx := lt_of_lt_of_le hgt hle
  rw [detectAnomaly_of_baseline now d b _ hb, hzs, hmax]
  refine ⟨by simp [JSNum.gt, JSNum.lt, hlt], ?_⟩
  simp only [JSNum.fin_div_fin _ _ hpos.ne', JSNum.min2_fin_fin]
  have hone : 1 ≤ mx / d.threshold := by
    rw [le_div_iff₀ hpos]
    linarith
  rw [min_eq_right hone]

theorem inNormalRange_head (v : List ℝ) (h : InNormalRange v) :
    v.length = 5 ∧ 50 ≤ v.getD 0 0 ∧ v.getD 0 0 < 60 := by
  obtain ⟨t, p, hu, vo, c, rfl, h1, h2, _⟩ := h
  exact ⟨rfl, by simpa using h1, by simpa using h2⟩

/-- The sensor readings of `generateNormalData` lie in their ranges. -/
theorem generateNormalData_inNormalRange (e : Entropy) (he : e.Valid) :
    InNormalRange (generateNormalData e).sensors := by
  refine ⟨_, _, _, _, _, rfl, ?_⟩
  have h4 := he 4
  have h5 := he 5
  have h6 := he 6
  have h7 := he 7
  have h8 := he 8
  refine ⟨?_, ?_, ?_, ?_, ?_, ?_, ?_, ?_, ?_, ?_⟩ <;> nlinarith [h4.1, h4.2, h5.1, h5.2,
    h6.1, h6.2, h7.1, h7.2, h8.1, h8.2]

/-- C29: for every baseline fitted by `setBaseline` from two or more sensor vectors that lie
in the ranges of `generateNormalData`, under the threshold 2.5, `detectAnomaly` on the
sensor vector of `simulateDataTampering` returns `isAnomaly = true` with confidence 1: the
tampered temperature 150 alone has a z-score above the threshold. -/
theorem tampering_detected (now : Nat) (d : AnomalyDetector ℝ) (training : List (List ℝ))
    (hn : 2 ≤ training.length) (hrange : ∀ v ∈ training, InNormalRange v)
    (hthr : d.threshold = 2.5) :
    (detectAnomaly now (setBaseline d (training.map (List.map fin)))
      ([150, 500, -10, 25, 0.1].map fin)).1.isAnomaly = true ∧
    (detectAnomaly now (setBaseline d (training.map (List.map fin)))
      ([150, 500, -10, 25, 0.1].map fin)).1.confidence = some (fin 1) ∧
    (∀ e : Entropy, (simulateDataTampering e).sensors = [150, 500, -10, 25, 0.1]) ∧
    (∀ e : Entropy, e.Valid → InNormalRange (generateNormalData e).sensors) := by
  refine ⟨?_, ?_, fun _ => rfl, generateNormalData_inNormalRange⟩
  all_goals
    cases training with
    | nil => simp at hn
    | cons vs vss =>
      have hne : vss ≠ [] := by
        intro h
        rw [h] at hn
        simp at hn
      have hvs := inNormalRange_head vs (hrange vs (List.mem_cons_self vs vss))
      have hrect : ∀ ws ∈ vss, ws.length = vs.length := by
        intro ws hws
        rw [(inNormalRange_head ws (hrange ws (List.mem_cons_of_mem vs hws))).1, hvs.1]
      have hj : 0 < vs.length := by rw [hvs.1]; norm_num
      have hcol : ∀ x ∈ (vs :: vss).map (fun ws => ws.getD 0 0), (50 : ℝ) ≤ x ∧ x ≤ 60 := by
        intro x hx
        obtain ⟨ws, hws, rfl⟩ := List.mem_map.mp hx
        have := inNormalRange_head ws (hrange ws hws)
        exact ⟨this.2.1, this.2.2.le⟩
      have hlen2 : (2 : ℝ) ≤ ((vs :: vss).length : ℝ) := by exact_mod_cast hn
      have hcollen : ((vs :: vss).map (fun ws => ws.getD 0 0)).length = (vs :: vss).length := by
        simp
      obtain ⟨hsum1, hsum2⟩ := foldl_add_bounds _ 0 50 60 hcol
      rw [hcollen] at hsum1 hsum2
      have hμ1 : 50 ≤ ((vs :: vss).map (fun ws => ws.getD 0 0)).foldl (fun s x => s + x) 0 /
          ((vs :: vss).length : ℝ) := by
        rw [le_div_iff₀ (by linarith)]
        linarith
      have hμ2 : ((vs :: vss).map (fun ws => ws.getD 0 0)).foldl (fun s x => s + x) 0 /
          ((vs :: vss).length : ℝ) ≤ 60 := by
        rw [div_le_iff₀ (by linarith)]
        linarith
      have hmean0 := columnMean_getElem? vs vss 0 hj hrect
      have hstd0 := columnStd_getElem? vs vss 0 hj hne hrect
      generalize hμ : ((vs :: vss).map (fun ws => ws.getD 0 0)).foldl (fun s x => s + x) 0 /
          ((vs :: vss).length : ℝ) = μ at hμ1 hμ2 hmean0 hstd0
      have hsq := foldl_sq_le ((vs :: vss).map (fun ws => ws.getD 0 0)) μ 0 100 (by
        intro x hx
        obtain ⟨hx1, hx2⟩ := hcol x hx
        nlinarith)
      rw [hcollen] at hsq
      have hV : ((vs :: vss).map (fun ws => ws.getD 0 0)).foldl
          (fun s x => s + (x - μ) * (x - μ)) 0 / (((vs :: vss).length : ℝ) - 1) ≤ 200 := by
        rw [div_le_iff₀ (by linarith)]
        linarith
      generalize hVdef : ((vs :: vss).map (fun ws => ws.getD 0 0)).foldl
          (fun s x => s + (x - μ) * (x - μ)) 0 / (((vs :: vss).length : ℝ) - 1) = V
        at hV hstd0
      have hσ : Real.sqrt V ≤ 15 := Real.sqrt_le_iff.mpr ⟨by norm_num, by linarith⟩
      have hσ0 : 0 ≤ Real.sqrt V := Real.sqrt_nonneg V
      obtain ⟨means, stds, hmeans, _, hmlen, _, _⟩ := fit_finite vs vss hne hrect
      have hz := zScore_eq_spec
        ({ mean := columnMean ((vs :: vss).map (List.map fin)),
           std := columnStd ((vs :: vss).map (List.map fin)) } : Baseline ℝ)
        150 μ (Real.sqrt V) 0 hmean0 hstd0 hσ0
      have habs : 90 ≤ |150 - μ| := by
        rw [abs_of_nonneg (by linarith)]
        linarith
      have hbig : (2.5 : ℝ) < specZScore 150 μ (Real.sqrt V) := by
        unfold specZScore
        by_cases h0 : Real.sqrt V = 0
        · rw [if_pos h0, div_one]
          linarith
        · rw [if_neg h0]
          have hpos : 0 < Real.sqrt V := lt_of_le_of_ne hσ0 (Ne.symm h0)
          rw [lt_div_iff₀ hpos]
          linarith
      have hres := detectAnomaly_of_large_zScore now
        (setBaseline d ((vs :: vss).map (List.map fin))) _ means [150, 500, -10, 25, 0.1] 0
        150 _ rfl hmeans (by rw [hmlen, hvs.1]; simp) rfl hz
        (by show (0 : ℝ) < d.threshold; rw [hthr]; norm_num)
        (by show d.threshold < _; rw [hthr]; exact hbig)
      first
        | exact hres.1
        | exact hres.2

/-- Witness of C29: a baseline fitted from the two vectors of the lowest and of middle
readings. -/
theorem tampering_detected_witness :
    (detectAnomaly 0
      (setBaseline (AnomalyDetector.new : AnomalyDetector ℝ)
        (lowAndMiddleReadings.map (List.map fin)))
      ([150, 500, -10, 25, 0.1].map fin)).1.isAnomaly = true :=
  (tampering_detected 0 AnomalyDetector.new lowAndMiddleReadings (by decide)
    (by
      intro v hv
      simp only [lowAndMiddleReadings, List.mem_cons, List.mem_singleton, List.mem_nil_iff,
        or_false] at hv
      rcases hv with rfl | rfl
      · exact ⟨_, _, _, _, _, rfl, by norm_num⟩
      · exact ⟨_, _, _, _, _, rfl, by norm_num⟩)
    (by norm_num [AnomalyDetector.new])).1

end Tampering

/-! ## The jitter of the simulated anomalies -/

theorem generateNormalData_sensor_pos (e : Entropy) (he : e.Valid) (i : Nat) (v : ℝ)
    (hv : (generateNormalData e).sensors[i]? = some v) : 0 < v := by
  obtain ⟨t, p, h, u, c, hs, ht, _, hp, _, hh, _, hu, _, hc, _⟩ :=
    generateNormalData_inNormalRange e he
  rw [hs] at hv
  match i, hv with
  | 0, hv => simp at hv; linarith
  | 1, hv => simp at hv; linarith
  | 2, hv => simp at hv; linarith
  | 3, hv => simp at hv; linarith
  | 4, hv => simp at hv; linarith
  | (n + 5), hv => simp at hv

theorem simulateAnomalies_sensor (e : Entropy) (i : Nat) (v : ℝ)
    (hv : (generateNormalData e).sensors[i]? = some v) :
    (simulateAnomalies e).sensors[i]? = some (jitter v (e.random (9 + i))) := by
  simp only [simulateAnomalies, List.getElem?_map, zip_range_getElem?, hv, Option.map_some']

/-- C26, evaluated on the code: whatever `Math.random()` returns, each reading `v` of the
normal sample, which is positive, is replaced by `v' = v + (r - 0.5) * v * 0.3` for its own
draw `r`, and `|v' - v| ≤ 0.30 * v`; but the range of 30 percent is not attained: under the
bound `d = 0.2 < 0.30` no draw moves a reading, or any positive value, by more than
`0.2 * v`.  With every draw equal to 0, the lowest there is, the normal readings are
`[50, 1013, 45, 12.5, 2.1]` and the temperature 50 becomes 42.5: it moves by 7.5, which is
15 percent. -/
theorem simulateAnomalies_half_range :
    (∀ (e : Entropy), e.Valid → ∀ (i : Nat) (v : ℝ),
      (generateNormalData e).sensors[i]? = some v →
      0 < v ∧
      (simulateAnomalies e).sensors[i]? = some (jitter v (e.random (9 + i))) ∧
      |jitter v (e.random (9 + i)) - v| ≤ 0.30 * v ∧
      ¬ |jitter v (e.random (9 + i)) - v| > 0.2 * v) ∧
    (∀ v r : ℝ, 0 < v → 0 ≤ r → r < 1 → |jitter v r - v| ≤ 0.30 * v) ∧
    ((0.2 : ℝ) < 0.30 ∧
      ∀ v : ℝ, 0 < v → ¬ ∃ r : ℝ, 0 ≤ r ∧ r < 1 ∧ |jitter v r - v| > 0.2 * v) ∧
    (lowestDraws.Valid ∧
      (generateNormalData lowestDraws).sensors = [50, 1013, 45, 12.5, 2.1] ∧
      (simulateAnomalies lowestDraws).sensors[0]? = some (42.5 : ℝ) ∧
      |(42.5 : ℝ) - 50| = 0.15 * 50 ∧
      (¬ ∃ r : ℝ, 0 ≤ r ∧ r < 1 ∧ |jitter 50 r - 50| > 0.2 * 50)) := by
  have hnot : ∀ v : ℝ, 0 < v → ¬ ∃ r : ℝ, 0 ≤ r ∧ r < 1 ∧ |jitter v r - v| > 0.2 * v := by
    rintro v hv ⟨r, hr0, hr1, hgt⟩
    have := jitter_bound v r hv hr0 hr1
    linarith
  refine ⟨?_, ?_, ⟨by norm_num, hnot⟩, ?_, ?_, ?_, ?_, hnot 50 (by norm_num)⟩
  · intro e he i v hv
    have hpos := generateNormalData_sensor_pos e he i v hv
    have hb := jitter_bound v (e.random (9 + i)) hpos (he _).1 (he _).2
    refine ⟨hpos, simulateAnomalies_sensor e i v hv, by linarith, ?_⟩
    intro hgt
    linarith
  · intro v r hv hr0 hr1
    have := jitter_bound v r hv hr0 hr1
    linarith
  · intro k
    simp [lowestDraws]
  · simp [generateNormalData, lowestDraws]
  · rw [simulateAnomalies_sensor lowestDraws 0 50 (by simp [generateNormalData, lowestDraws])]
    norm_num [jitter, lowestDraws]
  · norm_num [abs_of_neg]

end CyberDefense
